import Mathlib

/-!
The program `uat2structs`: capture of decoded UAT frames as test fixtures.

A shallow embedding of `uat2structs.c`.  C strings are lists of characters
(without the terminating NUL), `uint8_t` buffers are lists of naturals, C
integers are mathematical integers together with the explicit reductions that
the conversions of the program perform.
-/

namespace Uat2Structs

/-! ## The part of `printf` the program uses -/

/-- A C `double`, kept as its IEEE-754 bit pattern: the program only copies
doubles, and `memset` gives the pattern `0`, which is `+0.0`. -/
structure double where
  bits : Nat
  deriving DecidableEq, Repr

/-- One variadic argument of a `printf`-family call. -/
inductive Arg where
  | int (v : Int)
  | uint (v : Nat)
  | str (s : List Char)
  | dbl (d : double)
  deriving DecidableEq, Repr

/-- Left padding of a converted field up to the minimum field width. -/
def padLeft (c : Char) (w : Nat) (s : List Char) : List Char :=
  List.replicate (w - s.length) c ++ s

/-- Digits of `%d`: an optional minus sign followed by the decimal digits. -/
def fmt_d (v : Int) : List Char :=
  if v < 0 then '-' :: Nat.toDigits 10 (-v).toNat else Nat.toDigits 10 v.toNat

/-- Digits of `%u`. -/
def fmt_u (v : Nat) : List Char := Nat.toDigits 10 v

/-- Digits of `%x`: lowercase hexadecimal. -/
def fmt_x (v : Nat) : List Char := Nat.toDigits 16 v

/-- Digits of `%X`: uppercase hexadecimal. -/
def fmt_X (v : Nat) : List Char := (Nat.toDigits 16 v).map Char.toUpper

/-- The integer nearest to `num / den`, a tie going to the even one (the default
rounding of the C library when it converts to decimal). -/
def round_half_even (num den : Nat) : Nat :=
  let q := num / den
  let r := num % den
  if 2 * r > den ∨ (2 * r = den ∧ q % 2 = 1) then q + 1 else q

/-- Text of `%.<prec>f` for a `double` given by its bit pattern: the exact value
`(-1)^sign * mant * 2^(e - 1075)` is scaled by `10^prec`, rounded to an integer
and written with `prec` digits after the point. -/
def fmt_f (prec : Nat) (d : double) : List Char :=
  let sign := d.bits / 2 ^ 63 % 2
  let e := d.bits / 2 ^ 52 % 2 ^ 11
  let m := d.bits % 2 ^ 52
  let sgn : List Char := if sign = 1 then ['-'] else []
  if e = 2047 then
    if m = 0 then sgn ++ ['i', 'n', 'f'] else sgn ++ ['n', 'a', 'n']
  else
    let mant := if e = 0 then m else 2 ^ 52 + m
    let ex := if e = 0 then 1 else e
    let q :=
      if ex ≥ 1075 then mant * 2 ^ (ex - 1075) * 10 ^ prec
      else round_half_even (mant * 10 ^ prec) (2 ^ (1075 - ex))
    let int_part := Nat.toDigits 10 (q / 10 ^ prec)
    let frac := if prec = 0 then [] else '.' :: padLeft '0' prec (Nat.toDigits 10 (q % 10 ^ prec))
    sgn ++ int_part ++ frac

/-- One conversion: `zero` is the `0` flag, `w` the minimum field width, `c`
the conversion character.  A conversion character the program does not use,
or an argument of the wrong kind, gives `none`. -/
def convert (zero : Bool) (w : Nat) (c : Char) (a : Arg) : Option (List Char) :=
  let pad := if zero then '0' else ' '
  match a with
  | .int v =>
    if c = 'd' then
      if zero ∧ v < 0 then some ('-' :: padLeft '0' (w - 1) (Nat.toDigits 10 (-v).toNat))
      else some (padLeft pad w (fmt_d v))
    else none
  | .uint v =>
    if c = 'u' then some (padLeft pad w (fmt_u v))
    else if c = 'x' then some (padLeft pad w (fmt_x v))
    else if c = 'X' then some (padLeft pad w (fmt_X v))
    else none
  | .str s => if c = 's' then some (padLeft ' ' w s) else none
  | .dbl d => if c = 'f' then some (padLeft ' ' w (fmt_f 6 d)) else none

/-- One conversion with an explicit precision `p`; the program uses a precision
only with `f`. -/
def convert_prec (w p : Nat) (c : Char) (a : Arg) : Option (List Char) :=
  match a with
  | .dbl d => if c = 'f' then some (padLeft ' ' w (fmt_f p d)) else none
  | _ => none

/-- Scanner state of the format string: ordinary text, inside a conversion
specification after `%` with the flag and width read so far, or after the `.`
of a precision. -/
inductive FmtState where
  | text
  | spec (zero : Bool) (started : Bool) (w : Nat)
  | prec (w : Nat) (p : Nat)
  deriving DecidableEq, Repr

/-- The characters produced by a format string and its arguments.  Formatting
stops at a conversion that `convert` does not cover. -/
def formatAux : FmtState → List Char → List Arg → List Char
  | _, [], _ => []
  | .text, c :: cs, args =>
    if c = '%' then formatAux (.spec false false 0) cs args
    else c :: formatAux .text cs args
  | .spec zero started w, c :: cs, args =>
    if c = '%' ∧ ¬ started then '%' :: formatAux .text cs args
    else if c = '0' ∧ ¬ started then formatAux (.spec true true 0) cs args
    else if c.isDigit then formatAux (.spec zero true (10 * w + (c.toNat - 48))) cs args
    else if c = '.' then formatAux (.prec w 0) cs args
    else
      match args with
      | [] => []
      | a :: rest =>
        match convert zero w c a with
        | none => []
        | some out => out ++ formatAux .text cs rest
  | .prec w p, c :: cs, args =>
    if c.isDigit then formatAux (.prec w (10 * p + (c.toNat - 48))) cs args
    else
      match args with
      | [] => []
      | a :: rest =>
        match convert_prec w p c a with
        | none => []
        | some out => out ++ formatAux .text cs rest

/-- Text written by `sprintf(buf, fmt, args...)`. -/
def sprintf (fmt : String) (args : List Arg) : List Char :=
  formatAux .text fmt.toList args

/-- Text left in the buffer by `snprintf(buf, size, fmt, args...)`: at most
`size - 1` characters of the formatted text. -/
def snprintf (size : Nat) (fmt : String) (args : List Arg) : List Char :=
  (sprintf fmt args).take (size - 1)

/-! ## Hex codec -/

/-- Embedding of `bytes_to_hex_string`: iteration `i` writes the two characters of
`"%02x"` for `bytes[i]` at offset `2 * i`; the result is the string held by
`hex_string` once the terminator is stored at `2 * length`.  Reading past
the last element of `bytes` is not modelled (the loop stops there). -/
def bytes_to_hex_string : List Nat → Nat → List Char
  | _, 0 => []
  | [], _ + 1 => []
  | b :: bs, n + 1 => sprintf "%02x" [.uint b] ++ bytes_to_hex_string bs n

/-- Value of a hexadecimal digit, either case. -/
def hexVal (c : Char) : Option Nat :=
  if '0' ≤ c ∧ c ≤ '9' then some (c.toNat - 48)
  else if 'a' ≤ c ∧ c ≤ 'f' then some (c.toNat - 87)
  else if 'A' ≤ c ∧ c ≤ 'F' then some (c.toNat - 55)
  else none

/-- White space as `isspace` sees it in the C locale. -/
def isspace (c : Char) : Bool :=
  c = ' ' ∨ c = '\t' ∨ c = '\n' ∨ c = '\x0b' ∨ c = '\x0c' ∨ c = '\r'

/-- What `sscanf(s, "%2hhx", &byte)` stores: leading white space is skipped,
then a field of at most two characters is read (an optional sign and
hexadecimal digits) and reduced to an `unsigned char`.  With no digit in the
field nothing is stored (`none`). -/
def sscanf_2hhx (s : List Char) : Option Nat :=
  match s.dropWhile isspace with
  | [] => none
  | c :: rest =>
    if c = '-' then
      match rest with
      | [] => none
      | d :: _ => (hexVal d).map fun v => (256 - v) % 256
    else if c = '+' then
      match rest with
      | [] => none
      | d :: _ => hexVal d
    else
      match hexVal c with
      | none => none
      | some v =>
        match rest with
        | [] => some v
        | d :: _ =>
          match hexVal d with
          | none => some v
          | some w => some (16 * v + w)

/-- Embedding of the consumer helper `hex_string_to_bytes` (printed by `main`):
for each `i < length` the byte `bytes[i]` is overwritten by what
`sscanf(hex_string + 2 * i, "%2hhx", ...)` converts, and left as it was when
the conversion fails. -/
def hex_string_to_bytes (hex_string : List Char) (bytes : List Nat) (length : Nat) : List Nat :=
  (List.range length).foldl
    (fun buf i =>
      match sscanf_2hhx (hex_string.drop (i * 2)) with
      | some v => buf.set i v
      | none => buf)
    bytes

/-! ## Records -/

/-- The NUL character. -/
def NUL : Char := Char.ofNat 0

/-- Stored downlink entry, `uat_downlink_test_frame_t`.  Every integer field
holds the value of its declared type: `int` fields any C `int`, `uint8_t` a
value below 256, one-bit fields 0 or 1, `uint16_t` a value below 65536.
`test_name` is `none` for the null pointer; `callsign` is the 9-byte array. -/
structure uat_downlink_test_frame_t where
  frame_data_hex : List Char
  frame_length : Int
  test_name : Option (List Char)
  mdb_type : Int
  address_qualifier : Int
  address : Nat
  has_sv : Int
  nic : Int
  position_valid : Int
  lat : double
  lon : double
  altitude_type : Int
  altitude : Int
  airground_state : Int
  ns_vel_valid : Int
  ns_vel : Int
  ew_vel_valid : Int
  ew_vel : Int
  track_type : Int
  track : Int
  speed_valid : Int
  speed : Int
  vert_rate_source : Int
  vert_rate : Int
  dimensions_valid : Int
  length : double
  width : double
  position_offset : Int
  utc_coupled : Int
  tisb_site_id : Int
  has_ms : Int
  emitter_category : Int
  callsign : List Char
  callsign_type : Int
  emergency_status : Int
  uat_version : Int
  sil : Int
  transmit_mso : Int
  nac_p : Int
  nac_v : Int
  nic_baro : Int
  has_cdti : Int
  has_acas : Int
  acas_ra_active : Int
  ident_active : Int
  atc_services : Int
  heading_type : Int
  has_auxsv : Int
  sec_altitude_type : Int
  sec_altitude : Int

/-- One slot of `info_frames[8]` in the stored uplink entry. -/
structure info_frame_slot where
  length : Int
  type : Int
  is_fisb : Int
  fisb_product_id : Int
  fisb_a_flag : Int
  fisb_g_flag : Int
  fisb_p_flag : Int
  fisb_s_flag : Int
  fisb_hours : Int
  fisb_minutes : Int
  fisb_seconds : Int
  fisb_seconds_valid : Int
  fisb_month : Int
  fisb_day : Int
  fisb_monthday_valid : Int
  deriving DecidableEq, Repr

/-- Stored uplink entry, `uat_uplink_test_frame_t`; `info_frames` is the
8-element array. -/
structure uat_uplink_test_frame_t where
  frame_data_hex : List Char
  frame_length : Int
  test_name : Option (List Char)
  position_valid : Int
  lat : double
  lon : double
  utc_coupled : Int
  app_data_valid : Int
  slot_id : Int
  tisb_site_id : Int
  num_info_frames : Int
  info_frames : List info_frame_slot
  deriving DecidableEq, Repr

/-- Modelled from the spec: `struct uat_adsb_mdb`, the decoder's output record
for a downlink frame, is declared in `uat_decode.h`, which is not part of the
sources.  It has the fields `handle_frame` reads.  Integer fields are C `int`
values (`mdb_type` is printed with `%d`), `address` is unsigned (printed with
`%06X`), `callsign` is the content of the character array.  The record type is
wider than the values a decoder produces: the ranges of the flags, of `track`
and `speed` and of the callsign are the predicates `mdb_typed` and
`callsign_typed`. -/
structure uat_adsb_mdb where
  mdb_type : Int
  address_qualifier : Int
  address : Nat
  has_sv : Int
  nic : Int
  position_valid : Int
  lat : double
  lon : double
  altitude_type : Int
  altitude : Int
  airground_state : Int
  ns_vel_valid : Int
  ns_vel : Int
  ew_vel_valid : Int
  ew_vel : Int
  track_type : Int
  track : Int
  speed_valid : Int
  speed : Int
  vert_rate_source : Int
  vert_rate : Int
  dimensions_valid : Int
  length : double
  width : double
  position_offset : Int
  utc_coupled : Int
  tisb_site_id : Int
  has_ms : Int
  emitter_category : Int
  callsign : List Char
  callsign_type : Int
  emergency_status : Int
  uat_version : Int
  sil : Int
  transmit_mso : Int
  nac_p : Int
  nac_v : Int
  nic_baro : Int
  has_cdti : Int
  has_acas : Int
  acas_ra_active : Int
  ident_active : Int
  atc_services : Int
  heading_type : Int
  has_auxsv : Int
  sec_altitude_type : Int
  sec_altitude : Int

/-- Modelled from the spec: the FIS-B product record `fisb` nested in a decoded
information frame (declared in `uat_decode.h`, not part of the sources), with
the fields `handle_frame` reads. -/
structure fisb_apdu where
  product_id : Int
  a_flag : Int
  g_flag : Int
  p_flag : Int
  s_flag : Int
  hours : Int
  minutes : Int
  seconds : Int
  seconds_valid : Int
  month : Int
  day : Int
  monthday_valid : Int
  deriving DecidableEq, Repr

/-- Modelled from the spec: one decoded information frame of an uplink message
(declared in `uat_decode.h`, not part of the sources). -/
structure uat_uplink_info_frame where
  length : Int
  type : Int
  is_fisb : Int
  fisb : fisb_apdu
  deriving DecidableEq, Repr

/-- Modelled from the spec: `struct uat_uplink_mdb`, the decoder's output record
for an uplink frame (declared in `uat_decode.h`, not part of the sources).
`info_frames i` is element `i` of the decoder's array. -/
structure uat_uplink_mdb where
  position_valid : Int
  lat : double
  lon : double
  utc_coupled : Int
  app_data_valid : Int
  slot_id : Int
  tisb_site_id : Int
  num_info_frames : Int
  info_frames : Nat → uat_uplink_info_frame

/-- Kind tag of a raw frame (`uat.h`). -/
inductive frame_type_t where
  | UAT_UPLINK
  | UAT_DOWNLINK
  deriving DecidableEq, Repr

/-- The external decoder: `uat_decode_adsb_mdb` and `uat_decode_uplink_mdb`
fill a record from the raw bytes of a frame. -/
structure Decoder where
  uat_decode_adsb_mdb : List Nat → uat_adsb_mdb
  uat_decode_uplink_mdb : List Nat → uat_uplink_mdb

/-- The static storage of the program: the two 1000-element arrays and the two
counters. -/
structure Store where
  downlink_test_frames : Nat → uat_downlink_test_frame_t
  uplink_test_frames : Nat → uat_uplink_test_frame_t
  num_downlink_frames : Nat
  num_uplink_frames : Nat

/-- A downlink entry after `memset(test_frame, 0, sizeof(*test_frame))`. -/
def zero_downlink : uat_downlink_test_frame_t where
  frame_data_hex := []
  frame_length := 0
  test_name := none
  mdb_type := 0
  address_qualifier := 0
  address := 0
  has_sv := 0
  nic := 0
  position_valid := 0
  lat := ⟨0⟩
  lon := ⟨0⟩
  altitude_type := 0
  altitude := 0
  airground_state := 0
  ns_vel_valid := 0
  ns_vel := 0
  ew_vel_valid := 0
  ew_vel := 0
  track_type := 0
  track := 0
  speed_valid := 0
  speed := 0
  vert_rate_source := 0
  vert_rate := 0
  dimensions_valid := 0
  length := ⟨0⟩
  width := ⟨0⟩
  position_offset := 0
  utc_coupled := 0
  tisb_site_id := 0
  has_ms := 0
  emitter_category := 0
  callsign := List.replicate 9 NUL
  callsign_type := 0
  emergency_status := 0
  uat_version := 0
  sil := 0
  transmit_mso := 0
  nac_p := 0
  nac_v := 0
  nic_baro := 0
  has_cdti := 0
  has_acas := 0
  acas_ra_active := 0
  ident_active := 0
  atc_services := 0
  heading_type := 0
  has_auxsv := 0
  sec_altitude_type := 0
  sec_altitude := 0

/-- An information-frame slot with every field zero. -/
def zero_slot : info_frame_slot :=
  ⟨0, 0, 0, 0, 0, 0, 0, 0, 0, 0, 0, 0, 0, 0, 0⟩

/-- An uplink entry after `memset(test_frame, 0, sizeof(*test_frame))`. -/
def zero_uplink : uat_uplink_test_frame_t where
  frame_data_hex := []
  frame_length := 0
  test_name := none
  position_valid := 0
  lat := ⟨0⟩
  lon := ⟨0⟩
  utc_coupled := 0
  app_data_valid := 0
  slot_id := 0
  tisb_site_id := 0
  num_info_frames := 0
  info_frames := List.replicate 8 zero_slot

/-- The store at program start: static storage is zero-initialised. -/
def Store.init : Store where
  downlink_test_frames := fun _ => zero_downlink
  uplink_test_frames := fun _ => zero_uplink
  num_downlink_frames := 0
  num_uplink_frames := 0

/-! ## Capture -/

/-- Conversion of a C `int` to `uint8_t`. -/
def to_uint8 (v : Int) : Int := v % 256

/-- Conversion of a C `int` to `uint16_t`. -/
def to_uint16 (v : Int) : Int := v % 65536

/-- Conversion of a C `int` to an unsigned bit-field of width one. -/
def to_bit (v : Int) : Int := v % 2

/-- Content of an `n`-byte destination after `strncpy(dst, src, n)`: the
characters of `src` before its first NUL, at most `n` of them, then NUL
padding up to `n`. -/
def strncpy (src : List Char) (n : Nat) : List Char :=
  let s := (src.take n).takeWhile (fun c => c ≠ NUL)
  s ++ List.replicate (n - s.length) NUL

/-- The string a character array holds: its characters before the first NUL. -/
def c_str (a : List Char) : List Char := a.takeWhile (fun c => c ≠ NUL)

/-- Lines 140-156 of `handle_frame`: the zeroed slot with the hex text, the
length, the generated name and the header fields; `n` is `num_downlink_frames`.
`frame_data_hex` is `char[97]` ("48 bytes * 2 hex chars + null terminator", line
12) and `len` is not checked: the record describes the slot for `len <= 48`,
where the text and its terminator end inside the buffer.  For a larger `len`
line 144 writes past the buffer into the fields that follow it. -/
def downlink_hdr (mdb : uat_adsb_mdb) (frame : List Nat) (len n : Nat) :
    uat_downlink_test_frame_t :=
  { zero_downlink with
    frame_data_hex := bytes_to_hex_string frame len
    frame_length := len
    test_name := some (snprintf 256 "Downlink_MDB%d_Addr%06X_%d"
      [.int mdb.mdb_type, .uint mdb.address, .int n])
    mdb_type := mdb.mdb_type
    address_qualifier := mdb.address_qualifier
    address := mdb.address }

/-- Lines 162-184: the assignments guarded by `if (mdb.has_sv)`. -/
def copy_sv (mdb : uat_adsb_mdb) (t : uat_downlink_test_frame_t) : uat_downlink_test_frame_t :=
  { t with
    nic := mdb.nic
    position_valid := to_bit mdb.position_valid
    lat := mdb.lat
    lon := mdb.lon
    altitude_type := mdb.altitude_type
    altitude := mdb.altitude
    airground_state := mdb.airground_state
    ns_vel_valid := to_bit mdb.ns_vel_valid
    ns_vel := mdb.ns_vel
    ew_vel_valid := to_bit mdb.ew_vel_valid
    ew_vel := mdb.ew_vel
    track_type := mdb.track_type
    track := to_uint16 mdb.track
    speed_valid := to_bit mdb.speed_valid
    speed := to_uint16 mdb.speed
    vert_rate_source := mdb.vert_rate_source
    vert_rate := mdb.vert_rate
    dimensions_valid := to_bit mdb.dimensions_valid
    length := mdb.length
    width := mdb.width
    position_offset := mdb.position_offset
    utc_coupled := to_bit mdb.utc_coupled
    tisb_site_id := mdb.tisb_site_id }

/-- Lines 191-206: the assignments guarded by `if (mdb.has_ms)`. -/
def copy_ms (mdb : uat_adsb_mdb) (t : uat_downlink_test_frame_t) : uat_downlink_test_frame_t :=
  { t with
    emitter_category := mdb.emitter_category
    callsign := strncpy mdb.callsign 9
    callsign_type := mdb.callsign_type
    emergency_status := mdb.emergency_status
    uat_version := mdb.uat_version
    sil := mdb.sil
    transmit_mso := mdb.transmit_mso
    nac_p := mdb.nac_p
    nac_v := mdb.nac_v
    nic_baro := mdb.nic_baro
    has_cdti := to_bit mdb.has_cdti
    has_acas := to_bit mdb.has_acas
    acas_ra_active := to_bit mdb.acas_ra_active
    ident_active := to_bit mdb.ident_active
    atc_services := to_bit mdb.atc_services
    heading_type := to_bit mdb.heading_type }

/-- Lines 213-214: the assignments guarded by `if (mdb.has_auxsv)`. -/
def copy_auxsv (mdb : uat_adsb_mdb) (t : uat_downlink_test_frame_t) :
    uat_downlink_test_frame_t :=
  { t with
    sec_altitude_type := mdb.sec_altitude_type
    sec_altitude := mdb.sec_altitude }

/-- The entry the downlink branch of `handle_frame` leaves in
`downlink_test_frames[n]` (lines 140-215). -/
def downlink_entry (mdb : uat_adsb_mdb) (frame : List Nat) (len n : Nat) :
    uat_downlink_test_frame_t :=
  let t := downlink_hdr mdb frame len n
  let t := { t with has_sv := to_uint8 mdb.has_sv }
  let t := if mdb.has_sv ≠ 0 then copy_sv mdb t else t
  let t := { t with has_ms := to_bit mdb.has_ms }
  let t := if mdb.has_ms ≠ 0 then copy_ms mdb t else t
  let t := { t with has_auxsv := to_bit mdb.has_auxsv }
  if mdb.has_auxsv ≠ 0 then copy_auxsv mdb t else t

/-- Body of the copy loop (lines 257-275) for one information frame. -/
def copy_info_frame (src : uat_uplink_info_frame) (dst : info_frame_slot) : info_frame_slot :=
  let dst := { dst with length := src.length, type := src.type, is_fisb := src.is_fisb }
  if src.is_fisb ≠ 0 then
    { dst with
      fisb_product_id := src.fisb.product_id
      fisb_a_flag := src.fisb.a_flag
      fisb_g_flag := src.fisb.g_flag
      fisb_p_flag := src.fisb.p_flag
      fisb_s_flag := src.fisb.s_flag
      fisb_hours := src.fisb.hours
      fisb_minutes := src.fisb.minutes
      fisb_seconds := src.fisb.seconds
      fisb_seconds_valid := src.fisb.seconds_valid
      fisb_month := src.fisb.month
      fisb_day := src.fisb.day
      fisb_monthday_valid := src.fisb.monthday_valid }
  else dst

/-- The value of `frames_to_copy` (line 254). -/
def frames_to_copy (mdb : uat_uplink_mdb) : Int :=
  if mdb.num_info_frames > 8 then 8 else mdb.num_info_frames

/-- The loop of lines 255-276 run on the slot array `slots`: `i` goes from 0
up to `frames_to_copy`. -/
def copy_info_frames (mdb : uat_uplink_mdb) (slots : List info_frame_slot) :
    List info_frame_slot :=
  (List.range (frames_to_copy mdb).toNat).foldl
    (fun a i => a.set i (copy_info_frame (mdb.info_frames i) (a.getD i zero_slot)))
    slots

/-- The entry the uplink branch of `handle_frame` leaves in
`uplink_test_frames[n]` (lines 230-276); `n` is `num_uplink_frames`.
`frame_data_hex` is `char[1105]` ("552 bytes * 2 hex chars + null terminator",
line 75) and `len` is not checked: the record describes the slot for
`len <= 552`.  For a larger `len` line 234 writes past the buffer into the
top-level fields and `info_frames`. -/
def uplink_entry (mdb : uat_uplink_mdb) (frame : List Nat) (len n : Nat) :
    uat_uplink_test_frame_t :=
  let t : uat_uplink_test_frame_t :=
    { zero_uplink with
      frame_data_hex := bytes_to_hex_string frame len
      frame_length := len
      test_name := some (snprintf 256 "Uplink_Site%d_Slot%d_%d"
        [.int mdb.tisb_site_id, .int mdb.slot_id, .int n])
      position_valid := mdb.position_valid
      lat := mdb.lat
      lon := mdb.lon
      utc_coupled := mdb.utc_coupled
      app_data_valid := mdb.app_data_valid
      slot_id := mdb.slot_id
      tisb_site_id := mdb.tisb_site_id
      num_info_frames := mdb.num_info_frames }
  { t with info_frames := copy_info_frames mdb t.info_frames }

/-- Embedding of `handle_frame(type, frame, len, extra)` as a function on the
store; `dec` is the external decoder, `extra` is unused.  `strdup` is taken
to succeed. -/
def handle_frame (dec : Decoder) (type : frame_type_t) (frame : List Nat) (len : Nat)
    (s : Store) : Store :=
  if type = .UAT_DOWNLINK then
    if s.num_downlink_frames ≥ 1000 then s
    else
      let mdb := dec.uat_decode_adsb_mdb frame
      { s with
        downlink_test_frames := Function.update s.downlink_test_frames s.num_downlink_frames
          (downlink_entry mdb frame len s.num_downlink_frames)
        num_downlink_frames := s.num_downlink_frames + 1 }
  else
    if s.num_uplink_frames ≥ 1000 then s
    else
      let mdb := dec.uat_decode_uplink_mdb frame
      { s with
        uplink_test_frames := Function.update s.uplink_test_frames s.num_uplink_frames
          (uplink_entry mdb frame len s.num_uplink_frames)
        num_uplink_frames := s.num_uplink_frames + 1 }

/-- One call of the frame callback: the decoder in effect, the kind tag, the
raw bytes and their number. -/
structure Call where
  dec : Decoder
  type : frame_type_t
  frame : List Nat
  len : Nat

/-- The store after the reader has delivered the frames `calls` in order. -/
def run (calls : List Call) (s : Store) : Store :=
  calls.foldl (fun st c => handle_frame c.dec c.type c.frame c.len st) s

/-! ## Emission -/

/-- A run of `fprintf(f, "...")` calls without arguments: the texts written, in
order. -/
def fprintf_all (lines : List String) : List Char :=
  lines.foldr (fun l acc => sprintf l [] ++ acc) []

/-- The format strings of the `fprintf` calls of `output_test_header`, in order
(lines 284-403); none takes an argument. -/
def output_test_header_lines : List String :=
  [
    "// Auto-generated UAT test data for Google Test\n",
    "// Generated from UAT test frames\n",
    "// Self-contained - no external dependencies required\n\n",
    "#include <stdint.h>\n\n",
    "#include <stddef.h>\n\n",
    "// Enum value constants\n",
    "#define UAT_ALT_INVALID 0\n",
    "#define UAT_ALT_BARO    1\n",
    "#define UAT_ALT_GEO     2\n\n",
    "#define UAT_TT_INVALID      0\n",
    "#define UAT_TT_TRACK        1\n",
    "#define UAT_TT_MAG_HEADING  2\n",
    "#define UAT_TT_TRUE_HEADING 3\n\n",
    "#define UAT_CS_INVALID   0\n",
    "#define UAT_CS_CALLSIGN  1\n",
    "#define UAT_CS_SQUAWK    2\n\n",
    "#define UAT_HT_TRUE      0\n",
    "#define UAT_HT_MAGNETIC  1\n\n",
    "// Downlink test frame structure\n",
    "typedef struct \x7b\n",
    "    const char* frame_data_hex;\n",
    "    int frame_length;\n",
    "    const char* test_name;\n",
    "    \n",
    "    // Decoded HDR fields\n",
    "    int mdb_type;\n",
    "    int address_qualifier;\n",
    "    uint32_t address;\n",
    "    \n",
    "    // Decoded SV fields\n",
    "    int has_sv;\n",
    "    int nic;\n",
    "    int position_valid;\n",
    "    double lat;\n",
    "    double lon;\n",
    "    int altitude_type;\n",
    "    int altitude;\n",
    "    int airground_state;\n",
    "    int ns_vel_valid;\n",
    "    int ns_vel;\n",
    "    int ew_vel_valid;\n",
    "    int ew_vel;\n",
    "    int track_type;\n",
    "    uint16_t track;\n",
    "    int speed_valid;\n",
    "    uint16_t speed;\n",
    "    int vert_rate_source;\n",
    "    int vert_rate;\n",
    "    int dimensions_valid;\n",
    "    double length;\n",
    "    double width;\n",
    "    int position_offset;\n",
    "    int utc_coupled;\n",
    "    int tisb_site_id;\n",
    "    \n",
    "    // Decoded MS fields\n",
    "    int has_ms;\n",
    "    int emitter_category;\n",
    "    char callsign[9];\n",
    "    int callsign_type;\n",
    "    int emergency_status;\n",
    "    int uat_version;\n",
    "    int sil;\n",
    "    int transmit_mso;\n",
    "    int nac_p;\n",
    "    int nac_v;\n",
    "    int nic_baro;\n",
    "    int has_cdti;\n",
    "    int has_acas;\n",
    "    int acas_ra_active;\n",
    "    int ident_active;\n",
    "    int atc_services;\n",
    "    int heading_type;\n",
    "    \n",
    "    // Decoded AUXSV fields\n",
    "    int has_auxsv;\n",
    "    int sec_altitude_type;\n",
    "    int sec_altitude;\n",
    "\x7d uat_downlink_test_frame_t;\n\n",
    "// Uplink test frame structure\n",
    "typedef struct \x7b\n",
    "    const char* frame_data_hex;\n",
    "    int frame_length;\n",
    "    const char* test_name;\n",
    "    \n",
    "    // Decoded uplink fields\n",
    "    int position_valid;\n",
    "    double lat;\n",
    "    double lon;\n",
    "    int utc_coupled;\n",
    "    int app_data_valid;\n",
    "    int slot_id;\n",
    "    int tisb_site_id;\n",
    "    int num_info_frames;\n",
    "    \n",
    "    // Info frame data\n",
    "    struct \x7b\n",
    "        int length;\n",
    "        int type;\n",
    "        int is_fisb;\n",
    "        int fisb_product_id;\n",
    "        int fisb_a_flag;\n",
    "        int fisb_g_flag;\n",
    "        int fisb_p_flag;\n",
    "        int fisb_s_flag;\n",
    "        int fisb_hours;\n",
    "        int fisb_minutes;\n",
    "        int fisb_seconds;\n",
    "        int fisb_seconds_valid;\n",
    "        int fisb_month;\n",
    "        int fisb_day;\n",
    "        int fisb_monthday_valid;\n",
    "    \x7d info_frames[8];\n",
    "\x7d uat_uplink_test_frame_t;\n\n"]

/-- Embedding of `output_test_header`: the text it writes to the source artifact. -/
def output_test_header : List Char :=
  fprintf_all output_test_header_lines

/-- Embedding of `output_accessor_functions`: the text of the accessors written to the source artifact (lines 505-534). -/
def output_accessor_functions : List Char :=
  fprintf_all [
    "// Accessor functions for test data\n",
    "const uat_downlink_test_frame_t* get_uat_downlink_test_frames() \x7b\n",
    "    return uat_downlink_test_frames;\n",
    "\x7d\n\n",
    "int get_uat_downlink_test_frames_count() \x7b\n",
    "    return uat_downlink_test_frames_count;\n",
    "\x7d\n\n",
    "const uat_downlink_test_frame_t* get_uat_downlink_test_frame(int index) \x7b\n",
    "    if (index < 0 || index >= uat_downlink_test_frames_count) \x7b\n",
    "        return NULL;\n",
    "    \x7d\n",
    "    return &uat_downlink_test_frames[index];\n",
    "\x7d\n\n",
    "const uat_uplink_test_frame_t* get_uat_uplink_test_frames() \x7b\n",
    "    return uat_uplink_test_frames;\n",
    "\x7d\n\n",
    "int get_uat_uplink_test_frames_count() \x7b\n",
    "    return uat_uplink_test_frames_count;\n",
    "\x7d\n\n",
    "const uat_uplink_test_frame_t* get_uat_uplink_test_frame(int index) \x7b\n",
    "    if (index < 0 || index >= uat_uplink_test_frames_count) \x7b\n",
    "        return NULL;\n",
    "    \x7d\n",
    "    return &uat_uplink_test_frames[index];\n",
    "\x7d\n"]

/-- The format strings of the `fprintf` calls of `output_header_file`, in order
(lines 546-683); none takes an argument. -/
def header_file_lines : List String :=
  [
    "// Auto-generated UAT test data header for Google Test\n",
    "// Self-contained - no external dependencies required\n",
    "#ifndef UAT_TEST_DATA_H\n",
    "#define UAT_TEST_DATA_H\n\n",
    "#include <stdint.h>\n\n",
    "// Enum value constants\n",
    "#define UAT_ALT_INVALID 0\n",
    "#define UAT_ALT_BARO    1\n",
    "#define UAT_ALT_GEO     2\n\n",
    "#define UAT_TT_INVALID      0\n",
    "#define UAT_TT_TRACK        1\n",
    "#define UAT_TT_MAG_HEADING  2\n",
    "#define UAT_TT_TRUE_HEADING 3\n\n",
    "#define UAT_CS_INVALID   0\n",
    "#define UAT_CS_CALLSIGN  1\n",
    "#define UAT_CS_SQUAWK    2\n\n",
    "#define UAT_HT_TRUE      0\n",
    "#define UAT_HT_MAGNETIC  1\n\n",
    "// Downlink test frame structure\n",
    "typedef struct \x7b\n",
    "    const char* frame_data_hex;\n",
    "    int frame_length;\n",
    "    const char* test_name;\n",
    "    \n",
    "    // Decoded HDR fields\n",
    "    int mdb_type;\n",
    "    int address_qualifier;\n",
    "    uint32_t address;\n",
    "    \n",
    "    // Decoded SV fields\n",
    "    int has_sv;\n",
    "    int nic;\n",
    "    int position_valid;\n",
    "    double lat;\n",
    "    double lon;\n",
    "    int altitude_type;\n",
    "    int altitude;\n",
    "    int airground_state;\n",
    "    int ns_vel_valid;\n",
    "    int ns_vel;\n",
    "    int ew_vel_valid;\n",
    "    int ew_vel;\n",
    "    int track_type;\n",
    "    uint16_t track;\n",
    "    int speed_valid;\n",
    "    uint16_t speed;\n",
    "    int vert_rate_source;\n",
    "    int vert_rate;\n",
    "    int dimensions_valid;\n",
    "    double length;\n",
    "    double width;\n",
    "    int position_offset;\n",
    "    int utc_coupled;\n",
    "    int tisb_site_id;\n",
    "    \n",
    "    // Decoded MS fields\n",
    "    int has_ms;\n",
    "    int emitter_category;\n",
    "    char callsign[9];\n",
    "    int callsign_type;\n",
    "    int emergency_status;\n",
    "    int uat_version;\n",
    "    int sil;\n",
    "    int transmit_mso;\n",
    "    int nac_p;\n",
    "    int nac_v;\n",
    "    int nic_baro;\n",
    "    int has_cdti;\n",
    "    int has_acas;\n",
    "    int acas_ra_active;\n",
    "    int ident_active;\n",
    "    int atc_services;\n",
    "    int heading_type;\n",
    "    \n",
    "    // Decoded AUXSV fields\n",
    "    int has_auxsv;\n",
    "    int sec_altitude_type;\n",
    "    int sec_altitude;\n",
    "\x7d uat_downlink_test_frame_t;\n\n",
    "// Uplink test frame structure\n",
    "typedef struct \x7b\n",
    "    const char* frame_data_hex;\n",
    "    int frame_length;\n",
    "    const char* test_name;\n",
    "    \n",
    "    // Decoded uplink fields\n",
    "    int position_valid;\n",
    "    double lat;\n",
    "    double lon;\n",
    "    int utc_coupled;\n",
    "    int app_data_valid;\n",
    "    int slot_id;\n",
    "    int tisb_site_id;\n",
    "    int num_info_frames;\n",
    "    \n",
    "    // Info frame data\n",
    "    struct \x7b\n",
    "        int length;\n",
    "        int type;\n",
    "        int is_fisb;\n",
    "        int fisb_product_id;\n",
    "        int fisb_a_flag;\n",
    "        int fisb_g_flag;\n",
    "        int fisb_p_flag;\n",
    "        int fisb_s_flag;\n",
    "        int fisb_hours;\n",
    "        int fisb_minutes;\n",
    "        int fisb_seconds;\n",
    "        int fisb_seconds_valid;\n",
    "        int fisb_month;\n",
    "        int fisb_day;\n",
    "        int fisb_monthday_valid;\n",
    "    \x7d info_frames[8];\n",
    "\x7d uat_uplink_test_frame_t;\n\n",
    "#ifdef __cplusplus\n",
    "extern \"C\" \x7b\n",
    "#endif\n\n",
    "// Function declarations\n",
    "const uat_downlink_test_frame_t* get_uat_downlink_test_frames();\n",
    "int get_uat_downlink_test_frames_count();\n",
    "const uat_downlink_test_frame_t* get_uat_downlink_test_frame(int index);\n\n",
    "const uat_uplink_test_frame_t* get_uat_uplink_test_frames();\n",
    "int get_uat_uplink_test_frames_count();\n",
    "const uat_uplink_test_frame_t* get_uat_uplink_test_frame(int index);\n\n",
    "#ifdef __cplusplus\n",
    "\x7d\n",
    "#endif\n\n",
    "#endif // UAT_TEST_DATA_H\n"]

/-- The text `output_header_file` writes once the header file is open. -/
def header_file_text : List Char :=
  fprintf_all header_file_lines

/-- Embedding of `output_header_file`: `fopen_ok` tells whether `fopen` gave a
stream; without one nothing is written and the function just returns. -/
def output_header_file (fopen_ok : Bool) : Option (List Char) :=
  if fopen_ok then some header_file_text else none

/-- An `int` argument read by `%u`: the value as `unsigned int`. -/
def as_unsigned (v : Int) : Nat := (v % 4294967296).toNat

/-- What `%s` prints for a `char *`: the string, or `(null)` for the null
pointer. -/
def str_or_null (p : Option (List Char)) : List Char :=
  match p with
  | some t => t
  | none => "(null)".toList

/-- The first lines `output_downlink_data` writes for an array element: the
opening brace, the name as a comment, the hex text, the length, the name and
the header fields (lines 414-420). -/
def emit_downlink_head (frame : uat_downlink_test_frame_t) : List Char :=
  sprintf "    \x7b\n" [] ++
  sprintf "        // %s\n" [.str (str_or_null frame.test_name)] ++
  sprintf "        \"%s\",  // frame_data_hex\n" [.str frame.frame_data_hex] ++
  sprintf "        %d,  // frame_length\n" [.int frame.frame_length] ++
  sprintf "        \"%s\",  // test_name\n" [.str (str_or_null frame.test_name)] ++
  sprintf "        %d, %d, %u,  // HDR: mdb_type, address_qualifier, address\n"
    [.int frame.mdb_type, .int frame.address_qualifier, .uint frame.address]

/-- The three lines written for the state-vector fields (lines 423-431). -/
def emit_downlink_sv (frame : uat_downlink_test_frame_t) : List Char :=
  sprintf "        %d, %d, %d, %.6f, %.6f, %d, %d, %d,  // SV: has_sv, nic, position_valid, lat, lon, altitude_type, altitude, airground_state\n"
    [.int frame.has_sv, .int frame.nic, .int frame.position_valid, .dbl frame.lat,
     .dbl frame.lon, .int frame.altitude_type, .int frame.altitude,
     .int frame.airground_state] ++
  sprintf "        %d, %d, %d, %d, %d, %u, %d, %u,  // SV: ns_vel_valid, ns_vel, ew_vel_valid, ew_vel, track_type, track, speed_valid, speed\n"
    [.int frame.ns_vel_valid, .int frame.ns_vel, .int frame.ew_vel_valid, .int frame.ew_vel,
     .int frame.track_type, .uint (as_unsigned frame.track), .int frame.speed_valid,
     .uint (as_unsigned frame.speed)] ++
  sprintf "        %d, %d, %d, %.1f, %.1f, %d, %d, %d,  // SV: vert_rate_source, vert_rate, dimensions_valid, length, width, position_offset, utc_coupled, tisb_site_id\n"
    [.int frame.vert_rate_source, .int frame.vert_rate, .int frame.dimensions_valid,
     .dbl frame.length, .dbl frame.width, .int frame.position_offset, .int frame.utc_coupled,
     .int frame.tisb_site_id]

/-- The two lines written for the mode-status fields (lines 434-439).  The
callsign is printed as the string held by the array; reading past an array
without terminator is not modelled. -/
def emit_downlink_ms (frame : uat_downlink_test_frame_t) : List Char :=
  sprintf "        %d, %d, \"%s\", %d, %d, %d, %d, %d,  // MS: has_ms, emitter_category, callsign, callsign_type, emergency_status, uat_version, sil, transmit_mso\n"
    [.int frame.has_ms, .int frame.emitter_category, .str (c_str frame.callsign),
     .int frame.callsign_type, .int frame.emergency_status, .int frame.uat_version,
     .int frame.sil, .int frame.transmit_mso] ++
  sprintf "        %d, %d, %d, %d, %d, %d, %d, %d, %d,  // MS: nac_p, nac_v, nic_baro, has_cdti, has_acas, acas_ra_active, ident_active, atc_services, heading_type\n"
    [.int frame.nac_p, .int frame.nac_v, .int frame.nic_baro, .int frame.has_cdti,
     .int frame.has_acas, .int frame.acas_ra_active, .int frame.ident_active,
     .int frame.atc_services, .int frame.heading_type]

/-- The line written for the auxiliary-state-vector fields (lines 442-443). -/
def emit_downlink_auxsv (frame : uat_downlink_test_frame_t) : List Char :=
  sprintf "        %d, %d, %d  // AUXSV: has_auxsv, sec_altitude_type, sec_altitude\n"
    [.int frame.has_auxsv, .int frame.sec_altitude_type, .int frame.sec_altitude]

/-- The text `output_downlink_data` writes for one array element, without the
separator (lines 414-445). -/
def emit_downlink_frame (frame : uat_downlink_test_frame_t) : List Char :=
  emit_downlink_head frame ++ emit_downlink_sv frame ++ emit_downlink_ms frame ++
    emit_downlink_auxsv frame ++ sprintf "    \x7d" []

/-- What the separator test of the element loops writes after element `i` of
`n`: a comma when `i < n - 1` (in `int` arithmetic), then the line break. -/
def emit_separator (i n : Nat) : List Char :=
  (if (i : Int) < (n : Int) - 1 then sprintf "," [] else []) ++ sprintf "\n" []

/-- Embedding of `output_downlink_data`: the text written for the store `s`. -/
def output_downlink_data (s : Store) : List Char :=
  sprintf "// Downlink test frame data array\n" [] ++
  sprintf "static const uat_downlink_test_frame_t uat_downlink_test_frames[] = \x7b\n" [] ++
  (List.range s.num_downlink_frames).flatMap (fun i =>
    emit_downlink_frame (s.downlink_test_frames i) ++
      emit_separator i s.num_downlink_frames) ++
  sprintf "\x7d;\n\n" [] ++
  sprintf "static const int uat_downlink_test_frames_count = %d;\n\n"
    [.int s.num_downlink_frames]

/-- The text written for slot `j` of the information-frame array by the inner
loop (lines 478-487). -/
def emit_info_frame (frame : uat_uplink_test_frame_t) (j : Nat) : List Char :=
  (if j > 0 then sprintf ", " [] else []) ++
  sprintf "\n            \x7b%d, %d, %d, %d, %d, %d, %d, %d, %d, %d, %d, %d, %d, %d, %d\x7d"
    [.int (frame.info_frames.getD j zero_slot).length,
     .int (frame.info_frames.getD j zero_slot).type,
     .int (frame.info_frames.getD j zero_slot).is_fisb,
     .int (frame.info_frames.getD j zero_slot).fisb_product_id,
     .int (frame.info_frames.getD j zero_slot).fisb_a_flag,
     .int (frame.info_frames.getD j zero_slot).fisb_g_flag,
     .int (frame.info_frames.getD j zero_slot).fisb_p_flag,
     .int (frame.info_frames.getD j zero_slot).fisb_s_flag,
     .int (frame.info_frames.getD j zero_slot).fisb_hours,
     .int (frame.info_frames.getD j zero_slot).fisb_minutes,
     .int (frame.info_frames.getD j zero_slot).fisb_seconds,
     .int (frame.info_frames.getD j zero_slot).fisb_seconds_valid,
     .int (frame.info_frames.getD j zero_slot).fisb_month,
     .int (frame.info_frames.getD j zero_slot).fisb_day,
     .int (frame.info_frames.getD j zero_slot).fisb_monthday_valid]

/-- The text written for the information-frame sub-array of one element
(lines 475-489): the loop runs `j` from 0 to 7. -/
def emit_info_frames (frame : uat_uplink_test_frame_t) : List Char :=
  sprintf "        \x7b" [] ++
  (List.range 8).flatMap (fun j => emit_info_frame frame j) ++
  sprintf "\n        \x7d\n" []

/-- The text `output_uplink_data` writes for one array element, without the
separator (lines 465-491). -/
def emit_uplink_frame (frame : uat_uplink_test_frame_t) : List Char :=
  sprintf "    \x7b\n" [] ++
  sprintf "        // %s\n" [.str (str_or_null frame.test_name)] ++
  sprintf "        \"%s\",  // frame_data_hex\n" [.str frame.frame_data_hex] ++
  sprintf "        %d,  // frame_length\n" [.int frame.frame_length] ++
  sprintf "        \"%s\",  // test_name\n" [.str (str_or_null frame.test_name)] ++
  sprintf "        %d, %.6f, %.6f, %d, %d, %d, %d, %d,  // position_valid, lat, lon, utc_coupled, app_data_valid, slot_id, tisb_site_id, num_info_frames\n"
    [.int frame.position_valid, .dbl frame.lat, .dbl frame.lon, .int frame.utc_coupled,
     .int frame.app_data_valid, .int frame.slot_id, .int frame.tisb_site_id,
     .int frame.num_info_frames] ++
  emit_info_frames frame ++
  sprintf "    \x7d" []

/-- Embedding of `output_uplink_data`: the text written for the store `s`. -/
def output_uplink_data (s : Store) : List Char :=
  sprintf "// Uplink test frame data array\n" [] ++
  sprintf "static const uat_uplink_test_frame_t uat_uplink_test_frames[] = \x7b\n" [] ++
  (List.range s.num_uplink_frames).flatMap (fun i =>
    emit_uplink_frame (s.uplink_test_frames i) ++ emit_separator i s.num_uplink_frames) ++
  sprintf "\x7d;\n\n" [] ++
  sprintf "static const int uat_uplink_test_frames_count = %d;\n\n" [.int s.num_uplink_frames]

/-- The source artifact `uat_test_data.c` as `main` writes it (lines 733-736). -/
def source_artifact (s : Store) : List Char :=
  output_test_header ++ output_downlink_data s ++ output_uplink_data s ++
    output_accessor_functions

/-! ## The entry point -/

/-- Modelled from the spec: the frame source of `reader.h`, which is not part of
the sources, and the file system.  `reader_ok` tells whether `dump978_reader_new`
gave a reader; each element of `batches` is one call of `dump978_read_frames`, its
return value and the frames it passed to the callback (after the last element the
source is at its end and returns 0); `fopen_ok path` tells whether
`fopen(path, "w")` gives a stream. -/
structure Env where
  reader_ok : Bool
  batches : List (Int × List Call)
  fopen_ok : List Char → Bool

/-- What a run of `main` leaves behind: the exit status and the files written,
each with its path and content. -/
structure Outcome where
  exit_status : Int
  files : List (List Char × List Char)

/-- The reading loop of `main` (lines 715-716): `dump978_read_frames` is called
until it returns a value that is not positive; the result is that value, the
final `framecount`, and the store the callbacks built. -/
def read_all : List (Int × List Call) → Store → Int × Store
  | [], s => (0, s)
  | (r, calls) :: rest, s =>
    if r > 0 then read_all rest (run calls s) else (r, run calls s)

/-- Embedding of `main(argc, argv)`; `argv` is only used for the usage text,
which is not modelled, like the other messages on the standard streams. -/
def main (_argv : List (List Char)) (env : Env) : Outcome :=
  let output_dir := "scripts/".toList
  let output_filename := snprintf 512 "%s/uat_test_data.c" [.str output_dir]
  let header_filename := snprintf 512 "%s/uat_test_data.h" [.str output_dir]
  if ¬ env.reader_ok then ⟨1, []⟩
  else
    let r := read_all env.batches Store.init
    if r.1 < 0 then ⟨1, []⟩
    else if ¬ env.fopen_ok output_filename then ⟨1, []⟩
    else
      let files := [(output_filename, source_artifact r.2)]
      match output_header_file (env.fopen_ok header_filename) with
      | some text => ⟨0, files ++ [(header_filename, text)]⟩
      | none => ⟨0, files⟩

/-! ## Declared fields and emitted values -/

/-- A line of emitted C text without its indentation and its trailing line
breaks and blanks. -/
def trim_line (line : String) : List Char :=
  ((line.toList.dropWhile fun c => c = ' ').reverse.dropWhile
    fun c => c = '\n' ∨ c = ' ').reverse

/-- A character of a C identifier. -/
def is_ident_char (c : Char) : Bool := c.isAlphanum ∨ c = '_'

/-- The member a trimmed declaration line names: the identifier before the
closing `;`, an array bound `[n]` left aside. -/
def member_name (t : List Char) : Option String :=
  match t.reverse with
  | ';' :: r =>
    let r := if r.head? = some ']' then (r.dropWhile fun c => c ≠ '[').drop 1 else r
    let name := (r.takeWhile is_ident_char).reverse
    if name = [] then none else some (String.mk name)
  | _ => none

/-- State of the reading of a structure body: the members found so far, each
with the members of its nested structure (none for a plain member), and the
members of the nested structure being read, if one is open. -/
structure DeclState where
  members : List (String × List String)
  nested : Option (List String)

/-- Reading one line of a structure body: blank lines and comments are skipped,
a line ending in an opening brace opens a nested structure, a line starting with
a closing brace ends it and names the member it declares, any other line ending
in `;` declares a member. -/
def struct_step (st : DeclState) (line : String) : DeclState :=
  let t := trim_line line
  if t = [] ∨ t.take 2 = ['/', '/'] then st
  else if t.getLast? = some '\x7b' then { st with nested := some [] }
  else
    match member_name t with
    | none => st
    | some name =>
      if t.head? = some '\x7d' then
        match st.nested with
        | some fs => ⟨st.members ++ [(name, fs)], none⟩
        | none => st
      else
        match st.nested with
        | some fs => { st with nested := some (fs ++ [name]) }
        | none => { st with members := st.members ++ [(name, [])] }

/-- The members declared by the lines of a structure body, in order. -/
def struct_members (lines : List String) : List (String × List String) :=
  (lines.foldl struct_step ⟨[], none⟩).members

/-- The lines after the first line `start` and before the next line `stop`. -/
def lines_between (start stop : String) (lines : List String) : List String :=
  ((lines.dropWhile fun l => l ≠ start).drop 1).takeWhile fun l => l ≠ stop

/-- The body of the downlink structure declaration in the emitted text. -/
def downlink_decl_lines : List String :=
  lines_between "typedef struct \x7b\n" "\x7d uat_downlink_test_frame_t;\n\n"
    output_test_header_lines

/-- The body of the uplink structure declaration in the emitted text. -/
def uplink_decl_lines : List String :=
  lines_between "typedef struct \x7b\n" "\x7d uat_uplink_test_frame_t;\n\n"
    (output_test_header_lines.dropWhile fun l => l ≠ "// Uplink test frame structure\n")

/-- A C string literal as the emitters write it: the text between double
quotes, with no escaping. -/
def c_quote (t : List Char) : List Char := '"' :: t ++ ['"']

/-- The values `output_downlink_data` passes to `fprintf` for one element, each
with the name of the field `frame-><name>` it is read from, in the order of
the calls (lines 416-443). -/
def downlink_values (frame : uat_downlink_test_frame_t) : List (String × List Char) :=
  [("frame_data_hex", c_quote frame.frame_data_hex),
   ("frame_length", fmt_d frame.frame_length),
   ("test_name", c_quote (str_or_null frame.test_name)),
   ("mdb_type", fmt_d frame.mdb_type),
   ("address_qualifier", fmt_d frame.address_qualifier),
   ("address", fmt_u frame.address),
   ("has_sv", fmt_d frame.has_sv),
   ("nic", fmt_d frame.nic),
   ("position_valid", fmt_d frame.position_valid),
   ("lat", fmt_f 6 frame.lat),
   ("lon", fmt_f 6 frame.lon),
   ("altitude_type", fmt_d frame.altitude_type),
   ("altitude", fmt_d frame.altitude),
   ("airground_state", fmt_d frame.airground_state),
   ("ns_vel_valid", fmt_d frame.ns_vel_valid),
   ("ns_vel", fmt_d frame.ns_vel),
   ("ew_vel_valid", fmt_d frame.ew_vel_valid),
   ("ew_vel", fmt_d frame.ew_vel),
   ("track_type", fmt_d frame.track_type),
   ("track", fmt_u (as_unsigned frame.track)),
   ("speed_valid", fmt_d frame.speed_valid),
   ("speed", fmt_u (as_unsigned frame.speed)),
   ("vert_rate_source", fmt_d frame.vert_rate_source),
   ("vert_rate", fmt_d frame.vert_rate),
   ("dimensions_valid", fmt_d frame.dimensions_valid),
   ("length", fmt_f 1 frame.length),
   ("width", fmt_f 1 frame.width),
   ("position_offset", fmt_d frame.position_offset),
   ("utc_coupled", fmt_d frame.utc_coupled),
   ("tisb_site_id", fmt_d frame.tisb_site_id),
   ("has_ms", fmt_d frame.has_ms),
   ("emitter_category", fmt_d frame.emitter_category),
   ("callsign", c_quote (c_str frame.callsign)),
   ("callsign_type", fmt_d frame.callsign_type),
   ("emergency_status", fmt_d frame.emergency_status),
   ("uat_version", fmt_d frame.uat_version),
   ("sil", fmt_d frame.sil),
   ("transmit_mso", fmt_d frame.transmit_mso),
   ("nac_p", fmt_d frame.nac_p),
   ("nac_v", fmt_d frame.nac_v),
   ("nic_baro", fmt_d frame.nic_baro),
   ("has_cdti", fmt_d frame.has_cdti),
   ("has_acas", fmt_d frame.has_acas),
   ("acas_ra_active", fmt_d frame.acas_ra_active),
   ("ident_active", fmt_d frame.ident_active),
   ("atc_services", fmt_d frame.atc_services),
   ("heading_type", fmt_d frame.heading_type),
   ("has_auxsv", fmt_d frame.has_auxsv),
   ("sec_altitude_type", fmt_d frame.sec_altitude_type),
   ("sec_altitude", fmt_d frame.sec_altitude)]

/-- The values `output_uplink_data` passes to `fprintf` for one element before
the information frames, each with the name of the field it is read from
(lines 467-472). -/
def uplink_values (frame : uat_uplink_test_frame_t) : List (String × List Char) :=
  [("frame_data_hex", c_quote frame.frame_data_hex),
   ("frame_length", fmt_d frame.frame_length),
   ("test_name", c_quote (str_or_null frame.test_name)),
   ("position_valid", fmt_d frame.position_valid),
   ("lat", fmt_f 6 frame.lat),
   ("lon", fmt_f 6 frame.lon),
   ("utc_coupled", fmt_d frame.utc_coupled),
   ("app_data_valid", fmt_d frame.app_data_valid),
   ("slot_id", fmt_d frame.slot_id),
   ("tisb_site_id", fmt_d frame.tisb_site_id),
   ("num_info_frames", fmt_d frame.num_info_frames)]

/-- The values the inner loop of `output_uplink_data` passes to `fprintf` for one
slot, each with the name of the field `frame->info_frames[j].<name>` it is read
from (lines 481-487). -/
def slot_values (t : info_frame_slot) : List (String × Int) :=
  [("length", t.length),
   ("type", t.type),
   ("is_fisb", t.is_fisb),
   ("fisb_product_id", t.fisb_product_id),
   ("fisb_a_flag", t.fisb_a_flag),
   ("fisb_g_flag", t.fisb_g_flag),
   ("fisb_p_flag", t.fisb_p_flag),
   ("fisb_s_flag", t.fisb_s_flag),
   ("fisb_hours", t.fisb_hours),
   ("fisb_minutes", t.fisb_minutes),
   ("fisb_seconds", t.fisb_seconds),
   ("fisb_seconds_valid", t.fisb_seconds_valid),
   ("fisb_month", t.fisb_month),
   ("fisb_day", t.fisb_day),
   ("fisb_monthday_valid", t.fisb_monthday_valid)]

/-- Layout of the lines of an emitted element: how many values each line
holds and the text that ends it. -/
def downlink_rows : List (Nat × String) :=
  [(1, ",  // frame_data_hex\n"),
   (1, ",  // frame_length\n"),
   (1, ",  // test_name\n"),
   (3, ",  // HDR: mdb_type, address_qualifier, address\n"),
   (8, ",  // SV: has_sv, nic, position_valid, lat, lon, altitude_type, altitude, airground_state\n"),
   (8, ",  // SV: ns_vel_valid, ns_vel, ew_vel_valid, ew_vel, track_type, track, speed_valid, speed\n"),
   (8, ",  // SV: vert_rate_source, vert_rate, dimensions_valid, length, width, position_offset, utc_coupled, tisb_site_id\n"),
   (8, ",  // MS: has_ms, emitter_category, callsign, callsign_type, emergency_status, uat_version, sil, transmit_mso\n"),
   (9, ",  // MS: nac_p, nac_v, nic_baro, has_cdti, has_acas, acas_ra_active, ident_active, atc_services, heading_type\n"),
   (3, "  // AUXSV: has_auxsv, sec_altitude_type, sec_altitude\n")]

/-- Layout of the lines of an emitted uplink element before the information
frames. -/
def uplink_rows : List (Nat × String) :=
  [(1, ",  // frame_data_hex\n"),
   (1, ",  // frame_length\n"),
   (1, ",  // test_name\n"),
   (8, ",  // position_valid, lat, lon, utc_coupled, app_data_valid, slot_id, tisb_site_id, num_info_frames\n")]

/-- A positional initialiser laid out in lines: each line takes the next values
of the list, in order, separated by a comma and a blank, after the
indentation and before the text that ends the line. -/
def render_rows : List (Nat × String) → List (List Char) → List Char
  | [], _ => []
  | (k, trailer) :: rows, vals =>
    "        ".toList ++ ", ".toList.intercalate (vals.take k) ++ trailer.toList ++
      render_rows rows (vals.drop k)

/-- The lowercase hexadecimal digit of a value below 16. -/
def hexdigit (n : Nat) : Char := "0123456789abcdef".toList.getD n '?'

/-- The counter of the collection a frame of kind `t` goes to. -/
def count (t : frame_type_t) (s : Store) : Nat :=
  if t = .UAT_DOWNLINK then s.num_downlink_frames else s.num_uplink_frames

/-- Number of frames of kind `t` among the calls. -/
def frames_of (t : frame_type_t) (calls : List Call) : Nat :=
  (calls.filter (fun c => c.type = t)).length

/-- A decoder that returns the same two records for every frame. -/
def Decoder.const (d : uat_adsb_mdb) (u : uat_uplink_mdb) : Decoder :=
  ⟨fun _ => d, fun _ => u⟩

/-- A decoded downlink record with every field zero and an all-NUL callsign. -/
def adsb0 : uat_adsb_mdb where
  mdb_type := 0
  address_qualifier := 0
  address := 0
  has_sv := 0
  nic := 0
  position_valid := 0
  lat := ⟨0⟩
  lon := ⟨0⟩
  altitude_type := 0
  altitude := 0
  airground_state := 0
  ns_vel_valid := 0
  ns_vel := 0
  ew_vel_valid := 0
  ew_vel := 0
  track_type := 0
  track := 0
  speed_valid := 0
  speed := 0
  vert_rate_source := 0
  vert_rate := 0
  dimensions_valid := 0
  length := ⟨0⟩
  width := ⟨0⟩
  position_offset := 0
  utc_coupled := 0
  tisb_site_id := 0
  has_ms := 0
  emitter_category := 0
  callsign := List.replicate 9 NUL
  callsign_type := 0
  emergency_status := 0
  uat_version := 0
  sil := 0
  transmit_mso := 0
  nac_p := 0
  nac_v := 0
  nic_baro := 0
  has_cdti := 0
  has_acas := 0
  acas_ra_active := 0
  ident_active := 0
  atc_services := 0
  heading_type := 0
  has_auxsv := 0
  sec_altitude_type := 0
  sec_altitude := 0

/-- A decoded information frame with every field zero. -/
def info0 : uat_uplink_info_frame := ⟨0, 0, 0, ⟨0, 0, 0, 0, 0, 0, 0, 0, 0, 0, 0, 0⟩⟩

/-- A decoded uplink record with every field zero. -/
def uplink0 : uat_uplink_mdb where
  position_valid := 0
  lat := ⟨0⟩
  lon := ⟨0⟩
  utc_coupled := 0
  app_data_valid := 0
  slot_id := 0
  tisb_site_id := 0
  num_info_frames := 0
  info_frames := fun _ => info0

/-- A sample downlink call: an 18-byte frame decoded to `adsb0`. -/
def call_dl : Call := ⟨Decoder.const adsb0 uplink0, .UAT_DOWNLINK, List.replicate 18 0, 18⟩

/-- A sample uplink call: a 432-byte frame decoded to `uplink0`. -/
def call_ul : Call := ⟨Decoder.const adsb0 uplink0, .UAT_UPLINK, List.replicate 432 0, 432⟩

/-- The downlink entry written by `handle_frame` called on store `s`: the element
of `downlink_test_frames` at the index `num_downlink_frames` had before the call. -/
def captured_downlink (dec : Decoder) (frame : List Nat) (len : Nat) (s : Store) :
    uat_downlink_test_frame_t :=
  (handle_frame dec .UAT_DOWNLINK frame len s).downlink_test_frames s.num_downlink_frames

/-- The uplink entry written by `handle_frame` called on store `s`. -/
def captured_uplink (dec : Decoder) (frame : List Nat) (len : Nat) (s : Store) :
    uat_uplink_test_frame_t :=
  (handle_frame dec .UAT_UPLINK frame len s).uplink_test_frames s.num_uplink_frames

/-- A decoded uplink record reporting 11 information frames; frame `i` has length
`i + 1`, type `i + 20` and no FIS-B product. -/
def uplink11 : uat_uplink_mdb :=
  { uplink0 with
    num_info_frames := 11
    info_frames := fun i => { info0 with length := i + 1, type := i + 20 } }

/-- Every state-vector field of a stored downlink entry is zero. -/
def sv_zero (t : uat_downlink_test_frame_t) : Prop :=
  t.nic = 0 ∧ t.position_valid = 0 ∧ t.lat = ⟨0⟩ ∧ t.lon = ⟨0⟩ ∧ t.altitude_type = 0 ∧
  t.altitude = 0 ∧ t.airground_state = 0 ∧ t.ns_vel_valid = 0 ∧ t.ns_vel = 0 ∧
  t.ew_vel_valid = 0 ∧ t.ew_vel = 0 ∧ t.track_type = 0 ∧ t.track = 0 ∧ t.speed_valid = 0 ∧
  t.speed = 0 ∧ t.vert_rate_source = 0 ∧ t.vert_rate = 0 ∧ t.dimensions_valid = 0 ∧
  t.length = ⟨0⟩ ∧ t.width = ⟨0⟩ ∧ t.position_offset = 0 ∧ t.utc_coupled = 0 ∧
  t.tisb_site_id = 0

/-- Every mode-status field of a stored downlink entry is zero, the callsign
being the all-NUL array (the empty string). -/
def ms_zero (t : uat_downlink_test_frame_t) : Prop :=
  t.emitter_category = 0 ∧ t.callsign = List.replicate 9 NUL ∧ t.callsign_type = 0 ∧
  t.emergency_status = 0 ∧ t.uat_version = 0 ∧ t.sil = 0 ∧ t.transmit_mso = 0 ∧ t.nac_p = 0 ∧
  t.nac_v = 0 ∧ t.nic_baro = 0 ∧ t.has_cdti = 0 ∧ t.has_acas = 0 ∧ t.acas_ra_active = 0 ∧
  t.ident_active = 0 ∧ t.atc_services = 0 ∧ t.heading_type = 0

/-- Every auxiliary-state-vector field of a stored downlink entry is zero. -/
def auxsv_zero (t : uat_downlink_test_frame_t) : Prop :=
  t.sec_altitude_type = 0 ∧ t.sec_altitude = 0

/-- A decoded record with `has_sv = 0` whose state-vector fields hold left-over
values. -/
def adsb_stale_sv : uat_adsb_mdb :=
  { adsb0 with
    has_sv := 0, nic := 9, position_valid := 1, lat := ⟨0x4044000000000000⟩, altitude := 3500,
    track := 270, speed := 120, tisb_site_id := 3 }

/-- A store whose first downlink slot holds non-zero values beyond the count. -/
def store_dirty : Store :=
  { Store.init with
    downlink_test_frames := fun _ => { zero_downlink with nic := 7, altitude := 1200, speed := 55 } }

/-- The invariant on presence flags as read from the stored entry: a stored flag
of 0 means that the sub-record's stored fields are all zero. -/
def flag_invariant (t : uat_downlink_test_frame_t) : Prop :=
  (t.has_sv = 0 → sv_zero t) ∧ (t.has_ms = 0 → ms_zero t) ∧ (t.has_auxsv = 0 → auxsv_zero t)

/-- A decoded record with set flags, a callsign and non-zero mode-status and
auxiliary fields. -/
def adsb_full : uat_adsb_mdb :=
  { adsb0 with
    mdb_type := 1, address := 0xABCDEF, has_sv := 1, nic := 8, position_valid := 1,
    altitude_type := 1, altitude := 3500, track_type := 1, track := 270, speed_valid := 1,
    speed := 120, has_ms := 1, emitter_category := 5,
    callsign := "N123AB".toList ++ [NUL, NUL, NUL], callsign_type := 1, nac_p := 9,
    heading_type := 1, has_auxsv := 1, sec_altitude_type := 2, sec_altitude := 3600 }

/-- The stored state-vector fields are the decoder's; `bit` is applied to the
decoder's value for the one-bit fields and `u16` for the `uint16_t` fields
(`id` for plain equality). -/
def sv_copied (bit u16 : Int → Int) (mdb : uat_adsb_mdb) (t : uat_downlink_test_frame_t) :
    Prop :=
  t.nic = mdb.nic ∧ t.position_valid = bit mdb.position_valid ∧ t.lat = mdb.lat ∧
  t.lon = mdb.lon ∧ t.altitude_type = mdb.altitude_type ∧ t.altitude = mdb.altitude ∧
  t.airground_state = mdb.airground_state ∧ t.ns_vel_valid = bit mdb.ns_vel_valid ∧
  t.ns_vel = mdb.ns_vel ∧ t.ew_vel_valid = bit mdb.ew_vel_valid ∧ t.ew_vel = mdb.ew_vel ∧
  t.track_type = mdb.track_type ∧ t.track = u16 mdb.track ∧
  t.speed_valid = bit mdb.speed_valid ∧ t.speed = u16 mdb.speed ∧
  t.vert_rate_source = mdb.vert_rate_source ∧ t.vert_rate = mdb.vert_rate ∧
  t.dimensions_valid = bit mdb.dimensions_valid ∧ t.length = mdb.length ∧
  t.width = mdb.width ∧ t.position_offset = mdb.position_offset ∧
  t.utc_coupled = bit mdb.utc_coupled ∧ t.tisb_site_id = mdb.tisb_site_id

/-- A decoded uplink record with non-zero top-level fields. -/
def uplink_site : uat_uplink_mdb :=
  { uplink0 with position_valid := 1, utc_coupled := 1, app_data_valid := 1, slot_id := 17,
                 tisb_site_id := 5, num_info_frames := 2 }

/-- The value lies in the range of a 32-bit C `int`. -/
def is_int (v : Int) : Prop := -2147483648 ≤ v ∧ v < 2147483648

/-- The value lies in the range of a 32-bit `unsigned int`. -/
def is_uint (v : Nat) : Prop := v < 4294967296

instance (v : Int) : Decidable (is_int v) := by
  unfold is_int; infer_instance

instance (v : Nat) : Decidable (is_uint v) := by
  unfold is_uint; infer_instance

/-- The decoder outputs for the frame of a call are well typed in the fields that
go into the generated name. -/
def Call.wf (c : Call) : Prop :=
  is_int (c.dec.uat_decode_adsb_mdb c.frame).mdb_type ∧
  is_uint (c.dec.uat_decode_adsb_mdb c.frame).address ∧
  is_int (c.dec.uat_decode_uplink_mdb c.frame).tisb_site_id ∧
  is_int (c.dec.uat_decode_uplink_mdb c.frame).slot_id

/-- Value of a string of decimal digits. -/
def decVal (l : List Char) : Nat := l.foldl (fun a c => 10 * a + (c.toNat - 48)) 0

/-- The downlink name in the words of the specification: `Downlink_MDB`, the decimal
message type, `_Addr`, the address in uppercase hexadecimal zero-padded to at least 6
digits, `_`, the decimal ordinal. -/
def spec_downlink_name (mdb_type : Int) (address : Nat) (ordinal : Nat) : List Char :=
  "Downlink_MDB".toList ++ fmt_d mdb_type ++ "_Addr".toList ++ padLeft '0' 6 (fmt_X address)
    ++ "_".toList ++ fmt_d ordinal

/-- The uplink name in the words of the specification: `Uplink_Site`, the decimal site
id, `_Slot`, the decimal slot id, `_`, the decimal ordinal. -/
def spec_uplink_name (site slot : Int) (ordinal : Nat) : List Char :=
  "Uplink_Site".toList ++ fmt_d site ++ "_Slot".toList ++ fmt_d slot ++ "_".toList
    ++ fmt_d ordinal

instance (c : Call) : Decidable c.wf := by
  unfold Call.wf; infer_instance

/-- Every stored entry's name ends in `_` followed by the decimal digits of its
index in the collection. -/
def names_inv (s : Store) : Prop :=
  (∀ i, i < s.num_downlink_frames → ∃ body,
    (s.downlink_test_frames i).test_name = some (body ++ '_' :: Nat.toDigits 10 i)) ∧
  (∀ i, i < s.num_uplink_frames → ∃ body,
    (s.uplink_test_frames i).test_name = some (body ++ '_' :: Nat.toDigits 10 i))

/-- A downlink call whose decoder reports a negative message type. -/
def call_dl_neg : Call :=
  ⟨Decoder.const { adsb0 with mdb_type := -3, address := 0xA1B2C3 }
      { uplink0 with tisb_site_id := -1, slot_id := -2 },
    .UAT_DOWNLINK, List.replicate 18 0, 18⟩

/-- An uplink call whose decoder reports negative site and slot ids. -/
def call_ul_neg : Call :=
  ⟨Decoder.const { adsb0 with mdb_type := -3, address := 0xA1B2C3 }
      { uplink0 with tisb_site_id := -1, slot_id := -2 },
    .UAT_UPLINK, List.replicate 432 0, 432⟩

/-- The twelve `fisb_*` fields of a stored slot are zero. -/
def fisb_zero (t : info_frame_slot) : Prop :=
  t.fisb_product_id = 0 ∧ t.fisb_a_flag = 0 ∧ t.fisb_g_flag = 0 ∧ t.fisb_p_flag = 0 ∧
  t.fisb_s_flag = 0 ∧ t.fisb_hours = 0 ∧ t.fisb_minutes = 0 ∧ t.fisb_seconds = 0 ∧
  t.fisb_seconds_valid = 0 ∧ t.fisb_month = 0 ∧ t.fisb_day = 0 ∧ t.fisb_monthday_valid = 0

/-- The twelve `fisb_*` fields of a stored slot equal the fields of the decoder's
FIS-B product record. -/
def fisb_copied (f : fisb_apdu) (t : info_frame_slot) : Prop :=
  t.fisb_product_id = f.product_id ∧ t.fisb_a_flag = f.a_flag ∧ t.fisb_g_flag = f.g_flag ∧
  t.fisb_p_flag = f.p_flag ∧ t.fisb_s_flag = f.s_flag ∧ t.fisb_hours = f.hours ∧
  t.fisb_minutes = f.minutes ∧ t.fisb_seconds = f.seconds ∧
  t.fisb_seconds_valid = f.seconds_valid ∧ t.fisb_month = f.month ∧ t.fisb_day = f.day ∧
  t.fisb_monthday_valid = f.monthday_valid

/-- A decoded uplink record with two information frames: frame 0 carries a FIS-B
product, frame 1 does not but has left-over values in its product record. -/
def uplink_fisb : uat_uplink_mdb :=
  { uplink0 with
    slot_id := 4, tisb_site_id := 9, num_info_frames := 2
    info_frames := fun i =>
      if i = 0 then ⟨10, 1, 1, ⟨413, 1, 0, 1, 0, 12, 30, 15, 1, 6, 21, 1⟩⟩
      else ⟨5, 2, 0, ⟨99, 1, 1, 1, 1, 7, 7, 7, 1, 7, 7, 1⟩⟩ }

/-- The store after one downlink and one uplink capture. -/
def store_one_each : Store := run [call_dl_neg, call_ul_neg] Store.init

/-- The body of an array initialiser in the words of the specification: the
elements in order, each on its lines, a comma after every element but the last. -/
def spec_array_body : List (List Char) → List Char
  | [] => []
  | [e] => e ++ ['\n']
  | e :: e2 :: es => e ++ [',', '\n'] ++ spec_array_body (e2 :: es)

/-- The elements of the downlink array, one per stored entry, in index order. -/
def downlink_elements (s : Store) : List (List Char) :=
  (List.range s.num_downlink_frames).map fun i => emit_downlink_frame (s.downlink_test_frames i)

/-- The elements of the uplink array, one per stored entry, in index order. -/
def uplink_elements (s : Store) : List (List Char) :=
  (List.range s.num_uplink_frames).map fun i => emit_uplink_frame (s.uplink_test_frames i)

/-- The fifteen fields of an information-frame slot in declaration order. -/
def spec_slot_fields (t : info_frame_slot) : List Int :=
  [t.length, t.type, t.is_fisb, t.fisb_product_id, t.fisb_a_flag, t.fisb_g_flag, t.fisb_p_flag,
   t.fisb_s_flag, t.fisb_hours, t.fisb_minutes, t.fisb_seconds, t.fisb_seconds_valid,
   t.fisb_month, t.fisb_day, t.fisb_monthday_valid]

/-- One emitted slot in the words of the specification: a line break, the
indentation, and the integer fields in decimal between braces, separated by
a comma and a blank. -/
def spec_slot_text (fields : List Int) : List Char :=
  "\n            \x7b".toList ++ ", ".toList.intercalate (fields.map fmt_d) ++ "\x7d".toList

/-- The slots of the emitted information-frame sub-array of an entry: the field
lists of elements 0 to 7 of its array. -/
def emitted_slots (t : uat_uplink_test_frame_t) : List (List Int) :=
  (List.range 8).map fun j => spec_slot_fields (t.info_frames.getD j zero_slot)

/-- A store with one uplink entry decoded as `uplink_fisb`. -/
def store_fisb : Store :=
  run [⟨Decoder.const adsb0 uplink_fisb, .UAT_UPLINK, [1, 2], 2⟩] Store.init

/-- Two calls deliver the same capture: same kind, same raw bytes and length,
and the same decoder output for the frame's kind. -/
def same_capture (c d : Call) : Prop :=
  c.type = d.type ∧ c.frame = d.frame ∧ c.len = d.len ∧
  (c.type = .UAT_DOWNLINK → c.dec.uat_decode_adsb_mdb c.frame = d.dec.uat_decode_adsb_mdb d.frame) ∧
  (c.type = .UAT_UPLINK →
    c.dec.uat_decode_uplink_mdb c.frame = d.dec.uat_decode_uplink_mdb d.frame)

/-- Two stores hold the same fixtures: equal counts and equal entries below
the counts (what lies in the arrays beyond the counts may differ). -/
def same_fixtures (s t : Store) : Prop :=
  s.num_downlink_frames = t.num_downlink_frames ∧ s.num_uplink_frames = t.num_uplink_frames ∧
  (∀ i, i < s.num_downlink_frames → s.downlink_test_frames i = t.downlink_test_frames i) ∧
  (∀ i, i < s.num_uplink_frames → s.uplink_test_frames i = t.uplink_test_frames i)

/-- A decoder that agrees with `Decoder.const adsb0 uplink0` on the 18-byte zero
frame only. -/
def dec_other : Decoder :=
  ⟨fun f => if f = List.replicate 18 0 then adsb0 else adsb_full,
   fun f => if f = List.replicate 18 0 then uplink0 else uplink_site⟩

/-- An environment in which everything succeeds and the source delivers two
frames in one batch. -/
def env_ok : Env := ⟨true, [(2, [call_dl_neg, call_ul_neg])], fun _ => true⟩

/-- An environment in which only the header file cannot be opened. -/
def env_no_header : Env :=
  ⟨true, [(2, [call_dl_neg, call_ul_neg])],
    fun path => decide (path ≠ "scripts//uat_test_data.h".toList)⟩

/-- The decoder output of the end-to-end scenario: message type 0, address
`0xABCDEF`, a state vector with latitude 40.0 and longitude -80.0, no mode
status and no auxiliary state vector. -/
def adsb_e2e : uat_adsb_mdb :=
  { adsb0 with
    mdb_type := 0, address := 0xABCDEF, has_sv := 1, position_valid := 1,
    lat := ⟨0x4044000000000000⟩, lon := ⟨0xC054000000000000⟩, has_ms := 0, has_auxsv := 0 }

/-- An 18-byte downlink frame with address bytes `AB CD EF`. -/
def frame_e2e : List Nat := [0, 0xAB, 0xCD, 0xEF] ++ List.replicate 14 0

/-- The declarations block of the source artifact: what `output_test_header`
writes after its five opening lines (the enumeration constants and the two
structure declarations, lines 290-403). -/
def source_declarations : List String := output_test_header_lines.drop 5

/-- The declarations block of the header artifact: what `output_header_file`
writes after its five opening lines and before the function declarations
(lines 552-665). -/
def header_declarations : List String := (header_file_lines.drop 5).take 109

/-- The fourteen one-bit flags of a stored downlink entry are each 0 or 1. -/
def bit_flags_01 (t : uat_downlink_test_frame_t) : Prop :=
  (t.has_ms = 0 ∨ t.has_ms = 1) ∧ (t.has_auxsv = 0 ∨ t.has_auxsv = 1) ∧
  (t.position_valid = 0 ∨ t.position_valid = 1) ∧ (t.ns_vel_valid = 0 ∨ t.ns_vel_valid = 1) ∧
  (t.ew_vel_valid = 0 ∨ t.ew_vel_valid = 1) ∧ (t.speed_valid = 0 ∨ t.speed_valid = 1) ∧
  (t.dimensions_valid = 0 ∨ t.dimensions_valid = 1) ∧ (t.utc_coupled = 0 ∨ t.utc_coupled = 1) ∧
  (t.has_cdti = 0 ∨ t.has_cdti = 1) ∧ (t.has_acas = 0 ∨ t.has_acas = 1) ∧
  (t.acas_ra_active = 0 ∨ t.acas_ra_active = 1) ∧ (t.ident_active = 0 ∨ t.ident_active = 1) ∧
  (t.atc_services = 0 ∨ t.atc_services = 1) ∧ (t.heading_type = 0 ∨ t.heading_type = 1)

/-- All fifteen presence, validity and capability flags of a stored downlink
entry are 0 or 1. -/
def all_flags_01 (t : uat_downlink_test_frame_t) : Prop :=
  (t.has_sv = 0 ∨ t.has_sv = 1) ∧ bit_flags_01 t

/-- The stored callsign array holds a terminated string of at most 8
characters. -/
def callsign_terminated (t : uat_downlink_test_frame_t) : Prop :=
  t.callsign.length = 9 ∧ NUL ∈ t.callsign ∧ (c_str t.callsign).length ≤ 8

/-- Entries at and above the counts are still the zero entries of static
storage: nothing was ever written there. -/
def untouched_inv (s : Store) : Prop :=
  (∀ i, s.num_downlink_frames ≤ i → s.downlink_test_frames i = zero_downlink) ∧
  (∀ i, s.num_uplink_frames ≤ i → s.uplink_test_frames i = zero_uplink)

/-- Modelled from the spec: the values of a Boolean flag of the decoder's record
read as a C integer (`uat_decode.h` is not part of the sources).  A clear flag is
0; a set flag is 1, or -1 where the flag is declared as a signed one-bit field. -/
def is_flag (v : Int) : Prop := v = 0 ∨ v = 1 ∨ v = -1

/-- A flag or two-valued code whose value is 0 or 1. -/
def is_bit (v : Int) : Prop := v = 0 ∨ v = 1

instance (v : Int) : Decidable (is_flag v) := by
  unfold is_flag; infer_instance

instance (v : Int) : Decidable (is_bit v) := by
  unfold is_bit; infer_instance

/-- Modelled from the spec: the value ranges of the decoder's downlink record
(`uat_decode.h` is not part of the sources).  The presence, validity and
capability flags are Boolean flags with values in `flag` (`is_bit`, or `is_flag`
to admit -1 for a set flag), the heading reference is 0 (true) or 1 (magnetic),
and `track` and `speed` are unsigned 16-bit values. -/
def mdb_typed (flag : Int → Prop) (mdb : uat_adsb_mdb) : Prop :=
  flag mdb.has_sv ∧ flag mdb.position_valid ∧ flag mdb.ns_vel_valid ∧
  flag mdb.ew_vel_valid ∧ flag mdb.speed_valid ∧ flag mdb.dimensions_valid ∧
  flag mdb.utc_coupled ∧ flag mdb.has_ms ∧ flag mdb.has_cdti ∧ flag mdb.has_acas ∧
  flag mdb.acas_ra_active ∧ flag mdb.ident_active ∧ flag mdb.atc_services ∧
  flag mdb.has_auxsv ∧ is_bit mdb.heading_type ∧
  0 ≤ mdb.track ∧ mdb.track < 65536 ∧ 0 ≤ mdb.speed ∧ mdb.speed < 65536

instance (flag : Int → Prop) [DecidablePred flag] (mdb : uat_adsb_mdb) :
    Decidable (mdb_typed flag mdb) := by
  unfold mdb_typed; infer_instance

/-- Modelled from the spec: the decoder's callsign is a fixed 8-character field,
space- or null-padded.  In the 9-byte character array of the record (mirrored by
`char callsign[9]`, line 50) the field is followed by its terminator, so a NUL
lies among the first 9 bytes. -/
def callsign_typed (mdb : uat_adsb_mdb) : Prop := NUL ∈ mdb.callsign.take 9

instance (mdb : uat_adsb_mdb) : Decidable (callsign_typed mdb) := by
  unfold callsign_typed; infer_instance

/-- The raw frame of a call fits the hex buffer of its kind: at most 48 bytes for
a downlink frame (`frame_data_hex[97]`) and at most 552 for an uplink frame
(`frame_data_hex[1105]`). -/
def Call.fits (c : Call) : Prop :=
  (c.type = .UAT_DOWNLINK → c.len ≤ 48) ∧ (c.type = .UAT_UPLINK → c.len ≤ 552)

instance (c : Call) : Decidable c.fits := by
  unfold Call.fits; infer_instance

/-- Every entry below a count was built by `handle_frame` for its own index from
a frame that fits the hex buffer. -/
def entries_fit (s : Store) : Prop :=
  (∀ i, i < s.num_downlink_frames → ∃ mdb frame len, len ≤ 48 ∧
    s.downlink_test_frames i = downlink_entry mdb frame len i) ∧
  (∀ i, i < s.num_uplink_frames → ∃ mdb frame len, len ≤ 552 ∧
    s.uplink_test_frames i = uplink_entry mdb frame len i)

/-- A decoded record, with every sub-record present, whose set flags read -1, the
value of a set signed one-bit field. -/
def adsb_signed : uat_adsb_mdb :=
  { adsb0 with
    mdb_type := 1, address := 0xABCDEF, has_sv := -1, nic := 8, position_valid := -1,
    altitude_type := 1, altitude := 3500, track_type := 1, track := 270, speed_valid := -1,
    speed := 120, has_ms := -1, emitter_category := 5,
    callsign := "N123AB".toList ++ [NUL, NUL, NUL], callsign_type := 1, nac_p := 9,
    has_cdti := -1, heading_type := 1, has_auxsv := -1, sec_altitude_type := 2,
    sec_altitude := 3600 }

/-! ## The emitted accessors -/

/-- A token of the emitted C text: an identifier or keyword, a decimal number,
or a punctuation character. -/
inductive Tok where
  | ident (s : List Char)
  | num (n : Nat)
  | sym (c : Char)
  deriving DecidableEq

/-- State of the scanner: the tokens read so far (latest first), the characters
of the word being read (latest first), whether the previous character was a `/`
that may open a comment, and whether the scanner is inside a `//` comment. -/
structure Scan where
  toks : List Tok
  word : List Char
  slash : Bool
  comment : Bool
  deriving DecidableEq

/-- The token of a finished word: a number when all its characters are digits,
an identifier otherwise. -/
def word_token (w : List Char) : Tok :=
  if w.all Char.isDigit then .num (decVal w) else .ident w

/-- The word being read, if any, becomes a token. -/
def Scan.flush (st : Scan) : Scan :=
  if st.word.isEmpty then st
  else { st with toks := word_token st.word.reverse :: st.toks, word := [] }

/-- One character of the scan: `//` opens a comment that runs to the end of the
line, letters, digits and `_` extend the current word, blanks separate, and every
other character is a punctuation token. -/
def scan_step (st : Scan) (c : Char) : Scan :=
  if st.comment then
    if c = '\n' then { st with comment := false } else st
  else if c = '/' then
    if st.slash then { st with slash := false, comment := true }
    else { st.flush with slash := true }
  else
    let st := if st.slash then { st with toks := .sym '/' :: st.toks, slash := false } else st
    if is_ident_char c then { st with word := c :: st.word }
    else if c.isWhitespace then st.flush
    else { st.flush with toks := .sym c :: st.flush.toks }

/-- The tokens of a C text. -/
def c_tokens (text : List Char) : List Tok :=
  (text.foldl scan_step ⟨[], [], false, false⟩).flush.toks.reverse

/-- Expressions of the C subset the emitted accessors use. -/
inductive CExpr where
  | var (x : List Char)
  | lit (n : Int)
  | null
  | lt (a b : CExpr)
  | ge (a b : CExpr)
  | or (a b : CExpr)
  | addr_elem (a : List Char) (i : CExpr)
  deriving DecidableEq

/-- Statements of the subset: `return e;` and `if (c) { return e; }`. -/
inductive CStmt where
  | ret (e : CExpr)
  | if_ret (c e : CExpr)
  deriving DecidableEq

/-- A function definition: its name, the names of its parameters, its body. -/
structure CFun where
  name : List Char
  params : List (List Char)
  body : List CStmt
  deriving DecidableEq

/-- A primary expression: `NULL`, an identifier or a number. -/
def parse_primary : List Tok → Option (CExpr × List Tok)
  | .ident s :: rest =>
    if s = "NULL".toList then some (.null, rest) else some (.var s, rest)
  | .num n :: rest => some (.lit n, rest)
  | _ => none

/-- A unary expression: `&a[i]` with a primary index, or a primary. -/
def parse_unary : List Tok → Option (CExpr × List Tok)
  | .sym c :: .ident a :: .sym l :: rest =>
    if c = '&' ∧ l = '[' then
      match parse_primary rest with
      | some (i, .sym r :: rest2) => if r = ']' then some (.addr_elem a i, rest2) else none
      | _ => none
    else none
  | ts => parse_primary ts

/-- A relational expression: `a < b`, `a >= b`, or a unary expression. -/
def parse_rel (ts : List Tok) : Option (CExpr × List Tok) :=
  match parse_unary ts with
  | some (a, .sym c :: .sym d :: rest) =>
    if c = '<' then (parse_unary (.sym d :: rest)).map fun r => (.lt a r.1, r.2)
    else if c = '>' ∧ d = '=' then (parse_unary rest).map fun r => (.ge a r.1, r.2)
    else some (a, .sym c :: .sym d :: rest)
  | some (a, .sym c :: rest) =>
    if c = '<' then (parse_unary rest).map fun r => (.lt a r.1, r.2)
    else some (a, .sym c :: rest)
  | r => r

/-- An expression: relational expressions joined by `||`. -/
def parse_or : Nat → List Tok → Option (CExpr × List Tok)
  | 0, _ => none
  | fuel + 1, ts =>
    match parse_rel ts with
    | some (a, .sym c :: .sym d :: rest) =>
      if c = '|' ∧ d = '|' then (parse_or fuel rest).map fun r => (.or a r.1, r.2)
      else some (a, .sym c :: .sym d :: rest)
    | r => r

/-- An expression of a token list. -/
def parse_expr (ts : List Tok) : Option (CExpr × List Tok) := parse_or (ts.length + 1) ts

/-- `return e;` -/
def parse_return : List Tok → Option (CExpr × List Tok)
  | .ident k :: rest =>
    if k = "return".toList then
      match parse_expr rest with
      | some (e, .sym c :: rest2) => if c = ';' then some (e, rest2) else none
      | _ => none
    else none
  | _ => none

/-- A statement: `return e;` or `if (c) { return e; }`. -/
def parse_stmt : List Tok → Option (CStmt × List Tok)
  | .ident k :: .sym o :: rest =>
    if k = "if".toList ∧ o = '(' then
      match parse_expr rest with
      | some (c, .sym p :: .sym b :: rest2) =>
        if p = ')' ∧ b = '\x7b' then
          match parse_return rest2 with
          | some (e, .sym q :: rest3) => if q = '\x7d' then some (.if_ret c e, rest3) else none
          | _ => none
        else none
      | _ => none
    else (parse_return (.ident k :: .sym o :: rest)).map fun r => (.ret r.1, r.2)
  | ts => (parse_return ts).map fun r => (.ret r.1, r.2)

/-- The statements of a function body up to its closing brace. -/
def parse_body : Nat → List Tok → Option (List CStmt × List Tok)
  | 0, _ => none
  | fuel + 1, ts =>
    match ts with
    | .sym c :: rest =>
      if c = '\x7d' then some ([], rest) else none
    | _ =>
      match parse_stmt ts with
      | some (st, rest) => (parse_body fuel rest).map fun r => (st :: r.1, r.2)
      | none => none

/-- The last token of a declarator, an identifier: the declared name. -/
def declared_name (ts : List Tok) : Option (List Char) :=
  match ts.reverse with
  | .ident s :: _ => some s
  | _ => none

/-- The parameters between the parentheses, separated by commas: the names. -/
def param_names (ts : List Tok) : List (List Char) :=
  ((ts.splitOn (.sym ',')).filterMap declared_name)

/-- A function definition: return type and name, parameters in parentheses, body
in braces. -/
def parse_fun (ts : List Tok) : Option (CFun × List Tok) :=
  match declared_name (ts.takeWhile (· ≠ .sym '(')), ts.dropWhile (· ≠ .sym '(') with
  | some name, _ :: rest =>
    match rest.dropWhile (· ≠ .sym ')') with
    | _ :: .sym b :: rest2 =>
      if b = '\x7b' then
        (parse_body (rest2.length + 1) rest2).map fun r =>
          (⟨name, param_names (rest.takeWhile (· ≠ .sym ')')), r.1⟩, r.2)
      else none
    | _ => none
  | _, _ => none

/-- The function definitions of a token list. -/
def parse_funs : Nat → List Tok → Option (List CFun)
  | 0, _ => none
  | _ + 1, [] => some []
  | fuel + 1, t :: ts =>
    match parse_fun (t :: ts) with
    | some (f, rest) => (parse_funs fuel rest).map fun fs => f :: fs
    | none => none

/-- The function definitions of a C text. -/
def c_parse (text : List Char) : Option (List CFun) :=
  parse_funs ((c_tokens text).length + 1) (c_tokens text)

/-- A global declared by a line of the emitted data: `static const int NAME = N;`
declares the integer constant `NAME`, `static const T NAME[] = {` the array `NAME`. -/
inductive CGlobal where
  | const (name : List Char) (v : Int)
  | array (name : List Char)
  deriving DecidableEq

/-- The global a line declares, if it has one of the two forms. -/
def parse_global : List Tok → Option CGlobal
  | [.ident a, .ident b, .ident c, .ident n, .sym e, .num v, .sym s] =>
    if a = "static".toList ∧ b = "const".toList ∧ c = "int".toList ∧ e = '=' ∧ s = ';' then
      some (.const n v)
    else none
  | [.ident a, .ident b, .ident _, .ident n, .sym l, .sym r, .sym e, .sym o] =>
    if a = "static".toList ∧ b = "const".toList ∧ l = '[' ∧ r = ']' ∧ e = '=' ∧ o = '\x7b' then
      some (.array n)
    else none
  | _ => none

/-- The globals declared by a list of lines. -/
def c_globals (lines : List (List Char)) : List CGlobal :=
  lines.filterMap fun l => parse_global (c_tokens l)

/-- The lines of `output_downlink_data` and `output_uplink_data` that declare a
global: the opening line of each array (lines 409 and 460) and the line of each
count constant (lines 454 and 500). -/
def global_declarations (s : Store) : List (List Char) :=
  [sprintf "static const uat_downlink_test_frame_t uat_downlink_test_frames[] = \x7b\n" [],
   sprintf "static const int uat_downlink_test_frames_count = %d;\n\n"
     [.int s.num_downlink_frames],
   sprintf "static const uat_uplink_test_frame_t uat_uplink_test_frames[] = \x7b\n" [],
   sprintf "static const int uat_uplink_test_frames_count = %d;\n\n" [.int s.num_uplink_frames]]

/-- Values of the subset: an `int`, the null pointer, an array (the pointer to
its first element), or the pointer to element `i` of the array `a`. -/
inductive CVal where
  | int (v : Int)
  | null
  | array (a : List Char)
  | elem (a : List Char) (i : Int)
  deriving DecidableEq

/-- The value of the integer constant `x`, if `x` is declared as one. -/
def const_value (x : List Char) : List CGlobal → Option Int
  | [] => none
  | .const n v :: gs => if n = x then some v else const_value x gs
  | .array _ :: gs => const_value x gs

/-- Whether `x` is declared as an array. -/
def is_array (x : List Char) : List CGlobal → Bool
  | [] => false
  | .array n :: gs => if n = x then true else is_array x gs
  | .const _ _ :: gs => is_array x gs

/-- The value of a parameter. -/
def local_value (x : List Char) : List (List Char × Int) → Option Int
  | [] => none
  | (n, v) :: ls => if n = x then some v else local_value x ls

/-- Evaluation of an expression; `none` when it has no value in the subset. -/
def c_eval (gs : List CGlobal) (ls : List (List Char × Int)) : CExpr → Option CVal
  | .var x =>
    match local_value x ls with
    | some v => some (.int v)
    | none =>
      match const_value x gs with
      | some v => some (.int v)
      | none => if is_array x gs then some (.array x) else none
  | .lit n => some (.int n)
  | .null => some .null
  | .lt a b =>
    match c_eval gs ls a, c_eval gs ls b with
    | some (.int x), some (.int y) => some (.int (if x < y then 1 else 0))
    | _, _ => none
  | .ge a b =>
    match c_eval gs ls a, c_eval gs ls b with
    | some (.int x), some (.int y) => some (.int (if x ≥ y then 1 else 0))
    | _, _ => none
  | .or a b =>
    match c_eval gs ls a with
    | some (.int x) =>
      if x ≠ 0 then some (.int 1)
      else
        match c_eval gs ls b with
        | some (.int y) => some (.int (if y ≠ 0 then 1 else 0))
        | _ => none
    | _ => none
  | .addr_elem a i =>
    match c_eval gs ls i with
    | some (.int k) => if is_array a gs then some (.elem a k) else none
    | _ => none

/-- Execution of a function body: the value of the first `return` reached. -/
def c_exec (gs : List CGlobal) (ls : List (List Char × Int)) : List CStmt → Option CVal
  | [] => none
  | .ret e :: _ => c_eval gs ls e
  | .if_ret c e :: rest =>
    match c_eval gs ls c with
    | some (.int x) => if x ≠ 0 then c_eval gs ls e else c_exec gs ls rest
    | _ => none

/-- The definition of the function `name` in a program. -/
def c_find (name : List Char) : List CFun → Option CFun
  | [] => none
  | f :: fs => if f.name = name then some f else c_find name fs

/-- A call of the function `name` of the program with `int` arguments. -/
def c_call (prog : List CFun) (gs : List CGlobal) (name : List Char) (args : List Int) :
    Option CVal :=
  match c_find name prog with
  | some f => if f.params.length = args.length then c_exec gs (f.params.zip args) f.body else none
  | none => none

/-! ## Hex codec: proofs -/

set_option maxRecDepth 100000 in
theorem sprintf_02x_all : ∀ b, b < 256 →
    sprintf "%02x" [.uint b] = [hexdigit (b / 16), hexdigit (b % 16)] := by
  decide

theorem hexdigit_scan : ∀ n, n < 16 →
    isspace (hexdigit n) = false ∧ hexdigit n ≠ '-' ∧ hexdigit n ≠ '+' ∧
      hexVal (hexdigit n) = some n ∧ hexdigit n ∈ "0123456789abcdef".toList := by
  decide

theorem bytes_to_hex_string_cons (b : Nat) (bs : List Nat) (n : Nat) (hb : b < 256) :
    bytes_to_hex_string (b :: bs) (n + 1)
      = hexdigit (b / 16) :: hexdigit (b % 16) :: bytes_to_hex_string bs n := by
  simp [bytes_to_hex_string, sprintf_02x_all b hb]

theorem hex_length (bs : List Nat) (h : ∀ x ∈ bs, x < 256) :
    (bytes_to_hex_string bs bs.length).length = 2 * bs.length := by
  induction bs with
  | nil => simp [bytes_to_hex_string]
  | cons b bs ih =>
    have hb : b < 256 := h b (by simp)
    have ht : ∀ x ∈ bs, x < 256 := fun x hx => h x (by simp [hx])
    rw [List.length_cons, bytes_to_hex_string_cons b bs _ hb]
    simp [ih ht]
    omega

theorem hex_chars (bs : List Nat) (h : ∀ x ∈ bs, x < 256) :
    ∀ c ∈ bytes_to_hex_string bs bs.length, c ∈ "0123456789abcdef".toList := by
  induction bs with
  | nil => simp [bytes_to_hex_string]
  | cons b bs ih =>
    have hb : b < 256 := h b (by simp)
    have ht : ∀ x ∈ bs, x < 256 := fun x hx => h x (by simp [hx])
    rw [List.length_cons, bytes_to_hex_string_cons b bs _ hb]
    intro c hc
    rcases List.mem_cons.1 hc with rfl | hc
    · exact (hexdigit_scan (b / 16) (by omega)).2.2.2.2
    rcases List.mem_cons.1 hc with rfl | hc
    · exact (hexdigit_scan (b % 16) (by omega)).2.2.2.2
    · exact ih ht c hc

theorem hex_drop (bs : List Nat) (h : ∀ x ∈ bs, x < 256) (i : Nat) :
    (bytes_to_hex_string bs bs.length).drop (i * 2)
      = bytes_to_hex_string (bs.drop i) (bs.drop i).length := by
  induction bs generalizing i with
  | nil => simp [bytes_to_hex_string]
  | cons b bs ih =>
    have hb : b < 256 := h b (by simp)
    have ht : ∀ x ∈ bs, x < 256 := fun x hx => h x (by simp [hx])
    cases i with
    | zero => simp
    | succ i =>
      rw [List.length_cons, bytes_to_hex_string_cons b bs _ hb]
      have : (i + 1) * 2 = i * 2 + 1 + 1 := by ring
      rw [this]
      simpa using ih ht i

theorem hex_at (bs : List Nat) (h : ∀ x ∈ bs, x < 256) (i : Nat) (hi : i < bs.length) :
    ∃ rest, (bytes_to_hex_string bs bs.length).drop (i * 2)
      = hexdigit (bs[i] / 16) :: hexdigit (bs[i] % 16) :: rest := by
  rw [hex_drop bs h i]
  have hd : bs.drop i = bs[i] :: bs.drop (i + 1) := List.drop_eq_getElem_cons hi
  rw [hd, List.length_cons, bytes_to_hex_string_cons _ _ _ (h _ (List.getElem_mem _))]
  exact ⟨_, rfl⟩

theorem sscanf_hex_pair (x : Nat) (hx : x < 256) (rest : List Char) :
    sscanf_2hhx (hexdigit (x / 16) :: hexdigit (x % 16) :: rest) = some x := by
  obtain ⟨a1, a2, a3, a4, _⟩ := hexdigit_scan (x / 16) (by omega)
  obtain ⟨_, _, _, b4, _⟩ := hexdigit_scan (x % 16) (by omega)
  simp only [sscanf_2hhx, List.dropWhile, a1, a2, a3, a4, b4, if_false]
  simp
  omega

theorem set_take_drop (b buf : List Nat) (k : Nat) (hk : k < b.length)
    (hbuf : buf.length = b.length) :
    (b.take k ++ buf.drop k).set k b[k] = b.take (k + 1) ++ buf.drop (k + 1) := by
  have hlen : (b.take k).length = k := by simp; omega
  have hd : buf.drop k = buf[k] :: buf.drop (k + 1) := List.drop_eq_getElem_cons (by omega)
  have h0 : k - (b.take k).length = 0 := by omega
  rw [hd, List.set_append_right _ _ (by omega), h0, List.set_cons_zero]
  have ht : b.take (k + 1) = b.take k ++ [b[k]] := by
    rw [List.take_succ, List.getElem?_eq_getElem hk]
    rfl
  rw [ht, List.append_assoc]
  rfl

theorem hex_string_to_bytes_loop (b : List Nat) (hb : ∀ x ∈ b, x < 256) (buf : List Nat)
    (hbuf : buf.length = b.length) (k : Nat) (hk : k ≤ b.length) :
    hex_string_to_bytes (bytes_to_hex_string b b.length) buf k = b.take k ++ buf.drop k := by
  induction k with
  | zero => simp [hex_string_to_bytes]
  | succ k ih =>
    have hk2 : k < b.length := hk
    have ih2 := ih (by omega)
    unfold hex_string_to_bytes at ih2 ⊢
    rw [List.range_succ, List.foldl_append, ih2]
    obtain ⟨rest, hrest⟩ := hex_at b hb k hk2
    simp only [List.foldl_cons, List.foldl_nil, hrest,
      sscanf_hex_pair b[k] (hb _ (List.getElem_mem _)) rest]
    exact set_take_drop b buf k hk2 hbuf

/-! ## Hex codec: claims -/

/-- C1: decoding the hex string of a byte sequence `b` with `hex_string_to_bytes`,
reading `len(b)` bytes into a buffer of that size, gives back exactly `b`. -/
theorem hex_roundtrip (b buf : List Nat) (hb : ∀ x ∈ b, x < 256)
    (hbuf : buf.length = b.length) :
    hex_string_to_bytes (bytes_to_hex_string b b.length) buf b.length = b := by
  rw [hex_string_to_bytes_loop b hb buf hbuf b.length (Nat.le_refl _)]
  simp [← hbuf]

theorem hex_roundtrip_witness :
    (∀ x ∈ [0, 171, 255, 16], x < 256) ∧ [7, 7, 7, 7].length = [0, 171, 255, 16].length ∧
      hex_string_to_bytes (bytes_to_hex_string [0, 171, 255, 16] [0, 171, 255, 16].length)
        [7, 7, 7, 7] [0, 171, 255, 16].length = [0, 171, 255, 16] :=
  ⟨by decide, by decide, hex_roundtrip [0, 171, 255, 16] [7, 7, 7, 7] (by decide) (by decide)⟩

/-- C2: for a byte sequence of length `L`, `bytes_to_hex_string` gives exactly `2 * L`
characters, each one of `0-9a-f` (so no separators), where character `2 * i` is the
hex digit of `b[i] / 16` and character `2 * i + 1` the hex digit of `b[i] % 16`. -/
theorem bytes_to_hex_string_spec (b : List Nat) (hb : ∀ x ∈ b, x < 256) :
    (bytes_to_hex_string b b.length).length = 2 * b.length ∧
      (∀ c ∈ bytes_to_hex_string b b.length, c ∈ "0123456789abcdef".toList) ∧
      ∀ i (hi : i < b.length),
        (bytes_to_hex_string b b.length)[2 * i]? = some (hexdigit (b[i] / 16)) ∧
        (bytes_to_hex_string b b.length)[2 * i + 1]? = some (hexdigit (b[i] % 16)) := by
  refine ⟨hex_length b hb, hex_chars b hb, fun i hi => ?_⟩
  obtain ⟨rest, hrest⟩ := hex_at b hb i hi
  have h0 := congrArg (fun l => l[0]?) hrest
  have h1 := congrArg (fun l => l[1]?) hrest
  simp only [List.getElem?_drop] at h0 h1
  rw [Nat.mul_comm] at h0 h1
  exact ⟨by simpa using h0, by simpa using h1⟩

theorem bytes_to_hex_string_spec_witness :
    (∀ x ∈ [1, 171], x < 256) ∧
    ((bytes_to_hex_string [1, 171] [1, 171].length).length = 2 * [1, 171].length ∧
      (∀ c ∈ bytes_to_hex_string [1, 171] [1, 171].length, c ∈ "0123456789abcdef".toList) ∧
      ∀ i (hi : i < [1, 171].length),
        (bytes_to_hex_string [1, 171] [1, 171].length)[2 * i]?
          = some (hexdigit ([1, 171][i] / 16)) ∧
        (bytes_to_hex_string [1, 171] [1, 171].length)[2 * i + 1]?
          = some (hexdigit ([1, 171][i] % 16))) :=
  ⟨by decide, bytes_to_hex_string_spec [1, 171] (by decide)⟩

/-! ## The store: counters and capacity -/

theorem handle_frame_full (dec : Decoder) (t : frame_type_t) (frame : List Nat) (len : Nat)
    (s : Store) (h : 1000 ≤ count t s) : handle_frame dec t frame len s = s := by
  cases t <;> simp_all [handle_frame, count]

theorem count_handle_frame (dec : Decoder) (t u : frame_type_t) (frame : List Nat) (len : Nat)
    (s : Store) :
    count t (handle_frame dec u frame len s)
      = if u = t ∧ count t s < 1000 then count t s + 1 else count t s := by
  cases t <;> cases u <;> simp only [handle_frame, count] <;> split_ifs <;>
    first | rfl | omega | simp_all

theorem run_append (xs ys : List Call) (s : Store) : run (xs ++ ys) s = run ys (run xs s) := by
  simp [run, List.foldl_append]

theorem run_snoc (xs : List Call) (c : Call) (s : Store) :
    run (xs ++ [c]) s = handle_frame c.dec c.type c.frame c.len (run xs s) := by
  simp [run, List.foldl_append]

theorem frames_of_snoc (t : frame_type_t) (xs : List Call) (c : Call) :
    frames_of t (xs ++ [c]) = frames_of t xs + if c.type = t then 1 else 0 := by
  unfold frames_of
  rw [List.filter_append, List.length_append]
  by_cases h : c.type = t <;> simp [h]

theorem count_run (t : frame_type_t) (calls : List Call) :
    count t (run calls Store.init) = min 1000 (frames_of t calls) := by
  induction calls using List.reverseRecOn with
  | nil => cases t <;> simp [run, count, frames_of, Store.init]
  | append_singleton xs c ih =>
    rw [run_snoc, count_handle_frame, ih, frames_of_snoc]
    by_cases h : c.type = t <;> simp only [h, true_and, false_and, if_true, if_false]
    · split_ifs <;> omega
    · rfl

theorem frames_of_replicate (t : frame_type_t) (n : Nat) (c : Call) (h : c.type = t) :
    frames_of t (List.replicate n c) = n := by
  induction n with
  | zero => rfl
  | succ n ih =>
    rw [List.replicate_succ]
    unfold frames_of at ih ⊢
    rw [List.filter_cons_of_pos (by simpa using h), List.length_cons, ih]

theorem count_full_dl : count .UAT_DOWNLINK (run (List.replicate 1000 call_dl) Store.init) = 1000 := by
  rw [count_run, frames_of_replicate .UAT_DOWNLINK 1000 call_dl rfl]
  rfl

theorem count_full_ul : count .UAT_UPLINK (run (List.replicate 1000 call_ul) Store.init) = 1000 := by
  rw [count_run, frames_of_replicate .UAT_UPLINK 1000 call_ul rfl]
  rfl

/-- C3: from the empty store, a sequence of calls holding `N <= 1000` frames of one
kind leaves that kind's count at `N`; and a further capture of that kind when the
count is at capacity leaves the count and every stored entry as they were. -/
theorem capture_count (calls : List Call) (t : frame_type_t) :
    (frames_of t calls ≤ 1000 → count t (run calls Store.init) = frames_of t calls) ∧
    ∀ c : Call, c.type = t → count t (run calls Store.init) = 1000 →
      count t (run (calls ++ [c]) Store.init) = count t (run calls Store.init) ∧
      (∀ i, (run (calls ++ [c]) Store.init).downlink_test_frames i
          = (run calls Store.init).downlink_test_frames i) ∧
      (∀ i, (run (calls ++ [c]) Store.init).uplink_test_frames i
          = (run calls Store.init).uplink_test_frames i) := by
  constructor
  · intro h
    rw [count_run]
    omega
  · intro c hc hfull
    have hs : run (calls ++ [c]) Store.init = run calls Store.init := by
      rw [run_snoc, hc]
      exact handle_frame_full _ _ _ _ _ (by omega)
    rw [hs]
    exact ⟨rfl, fun _ => rfl, fun _ => rfl⟩

theorem capture_count_witness :
    frames_of .UAT_DOWNLINK (List.replicate 1000 call_dl) ≤ 1000 ∧
    count .UAT_DOWNLINK (run (List.replicate 1000 call_dl) Store.init) = 1000 ∧
    count .UAT_DOWNLINK (run (List.replicate 1000 call_dl ++ [call_dl]) Store.init) = 1000 :=
  have h := capture_count (List.replicate 1000 call_dl) .UAT_DOWNLINK
  ⟨by rw [frames_of_replicate .UAT_DOWNLINK 1000 call_dl rfl],
   (h.1 (by rw [frames_of_replicate .UAT_DOWNLINK 1000 call_dl rfl])).trans
     (frames_of_replicate .UAT_DOWNLINK 1000 call_dl rfl),
   ((h.2 call_dl rfl count_full_dl).1).trans count_full_dl⟩

/-- C4: when the target collection already holds 1000 entries, `handle_frame` leaves
the whole store as it was (both counts, every entry of both arrays), for every
frame and every decoder. -/
theorem handle_frame_at_capacity (dec : Decoder) (t : frame_type_t) (frame : List Nat)
    (len : Nat) (s : Store) (h : count t s = 1000) :
    handle_frame dec t frame len s = s :=
  handle_frame_full dec t frame len s (by omega)

theorem handle_frame_at_capacity_witness :
    count .UAT_UPLINK (run (List.replicate 1000 call_ul) Store.init) = 1000 ∧
    handle_frame call_ul.dec .UAT_UPLINK [1, 2, 3] 3 (run (List.replicate 1000 call_ul) Store.init)
      = run (List.replicate 1000 call_ul) Store.init :=
  ⟨count_full_ul, handle_frame_at_capacity _ _ _ _ _ count_full_ul⟩

/-! ## The stored entry -/

theorem handle_frame_downlink (dec : Decoder) (frame : List Nat) (len : Nat) (s : Store)
    (h : s.num_downlink_frames < 1000) :
    (handle_frame dec .UAT_DOWNLINK frame len s).downlink_test_frames s.num_downlink_frames
      = downlink_entry (dec.uat_decode_adsb_mdb frame) frame len s.num_downlink_frames := by
  have h2 : ¬ s.num_downlink_frames ≥ 1000 := by omega
  simp [handle_frame, h2]

theorem handle_frame_uplink (dec : Decoder) (frame : List Nat) (len : Nat) (s : Store)
    (h : s.num_uplink_frames < 1000) :
    (handle_frame dec .UAT_UPLINK frame len s).uplink_test_frames s.num_uplink_frames
      = uplink_entry (dec.uat_decode_uplink_mdb frame) frame len s.num_uplink_frames := by
  have h2 : ¬ s.num_uplink_frames ≥ 1000 := by omega
  simp [handle_frame, h2]

theorem foldl_set_length {α : Type} (g : Nat → α → α) (d : α) (k : Nat) (l : List α) :
    ((List.range k).foldl (fun a i => a.set i (g i (a.getD i d))) l).length = l.length := by
  induction k with
  | zero => rfl
  | succ k ih =>
    rw [List.range_succ, List.foldl_append]
    simp only [List.foldl_cons, List.foldl_nil, List.length_set, ih]

theorem foldl_set_get {α : Type} (g : Nat → α → α) (d : α) (k : Nat) (l : List α) (j : Nat) :
    ((List.range k).foldl (fun a i => a.set i (g i (a.getD i d))) l)[j]?
      = if j < k then (l[j]?).map (g j) else l[j]? := by
  induction k generalizing j with
  | zero => rfl
  | succ k ih =>
    rw [List.range_succ, List.foldl_append]
    simp only [List.foldl_cons, List.foldl_nil, List.getElem?_set, foldl_set_length]
    by_cases hjk : k = j
    · subst hjk
      have hkk := ih k
      simp only [Nat.lt_irrefl, if_false] at hkk
      by_cases hl : k < l.length
      · simp only [hl, if_true, Nat.lt_succ_self]
        rw [List.getD_eq_getElem?_getD, hkk, List.getElem?_eq_getElem hl]
        rfl
      · have hn : l[k]? = none := List.getElem?_eq_none (by omega)
        simp [hl, hn]
    · simp only [hjk, if_false, ih]
      by_cases h1 : j < k
      · simp [h1, Nat.lt_succ_of_lt h1]
      · have : ¬ j < k + 1 := by omega
        simp [h1, this]

theorem copy_info_frame_head (src : uat_uplink_info_frame) (dst : info_frame_slot) :
    (copy_info_frame src dst).length = src.length ∧ (copy_info_frame src dst).type = src.type ∧
      (copy_info_frame src dst).is_fisb = src.is_fisb := by
  unfold copy_info_frame
  split_ifs <;> exact ⟨rfl, rfl, rfl⟩

theorem uplink_entry_slots (mdb : uat_uplink_mdb) (frame : List Nat) (len n j : Nat) :
    (uplink_entry mdb frame len n).info_frames[j]?
      = if j < (frames_to_copy mdb).toNat
        then ((List.replicate 8 zero_slot)[j]?).map (copy_info_frame (mdb.info_frames j))
        else (List.replicate 8 zero_slot)[j]? := by
  simp only [uplink_entry, copy_info_frames, zero_uplink]
  exact foldl_set_get (fun i => copy_info_frame (mdb.info_frames i)) zero_slot _ _ j

theorem replicate8_get (j : Nat) (hj : j < 8) :
    (List.replicate 8 zero_slot)[j]? = some zero_slot := by
  rw [List.getElem?_replicate]
  simp [hj]

theorem entry_flags (mdb : uat_adsb_mdb) (frame : List Nat) (len n : Nat) :
    (downlink_entry mdb frame len n).has_sv = mdb.has_sv % 256 ∧
      (downlink_entry mdb frame len n).has_ms = mdb.has_ms % 2 ∧
      (downlink_entry mdb frame len n).has_auxsv = mdb.has_auxsv % 2 := by
  simp only [downlink_entry]
  split_ifs <;> exact ⟨rfl, rfl, rfl⟩

theorem entry_sv_zero (mdb : uat_adsb_mdb) (frame : List Nat) (len n : Nat)
    (h : mdb.has_sv = 0) : sv_zero (downlink_entry mdb frame len n) := by
  simp only [downlink_entry, h, ne_eq, not_true_eq_false, if_false]
  split_ifs <;> exact ⟨rfl, rfl, rfl, rfl, rfl, rfl, rfl, rfl, rfl, rfl, rfl, rfl, rfl, rfl, rfl,
    rfl, rfl, rfl, rfl, rfl, rfl, rfl, rfl⟩

theorem entry_ms_zero (mdb : uat_adsb_mdb) (frame : List Nat) (len n : Nat)
    (h : mdb.has_ms = 0) : ms_zero (downlink_entry mdb frame len n) := by
  simp only [downlink_entry, h, ne_eq, not_true_eq_false, if_false]
  split_ifs <;> exact ⟨rfl, rfl, rfl, rfl, rfl, rfl, rfl, rfl, rfl, rfl, rfl, rfl, rfl, rfl, rfl,
    rfl⟩

theorem entry_auxsv_zero (mdb : uat_adsb_mdb) (frame : List Nat) (len n : Nat)
    (h : mdb.has_auxsv = 0) : auxsv_zero (downlink_entry mdb frame len n) := by
  simp only [downlink_entry, h, ne_eq, not_true_eq_false, if_false]
  split_ifs <;> exact ⟨rfl, rfl⟩

theorem takeWhile_append_replicate (p : Char → Bool) (l : List Char) (k : Nat) (c : Char)
    (hc : p c = false) :
    (l.takeWhile p ++ List.replicate k c).takeWhile p = l.takeWhile p := by
  induction l with
  | nil =>
    cases k with
    | zero => rfl
    | succ k => simp [List.replicate_succ, List.takeWhile, hc]
  | cons a l ih =>
    by_cases ha : p a
    · simp only [List.takeWhile_cons, ha, if_true, List.cons_append]
      rw [ih]
    · simp only [List.takeWhile_cons, ha, Bool.false_eq_true, if_false, List.nil_append]
      cases k with
      | zero => rfl
      | succ k => simp [List.replicate_succ, List.takeWhile, hc]

theorem c_str_strncpy (src : List Char) (n : Nat) :
    c_str (strncpy src n) = c_str (src.take n) := by
  unfold c_str strncpy
  exact takeWhile_append_replicate _ _ _ NUL (by simp)

theorem entry_sv_copied (mdb : uat_adsb_mdb) (frame : List Nat) (len n : Nat)
    (h : mdb.has_sv ≠ 0) :
    sv_copied (fun v => v % 2) (fun v => v % 65536) mdb (downlink_entry mdb frame len n) := by
  simp only [downlink_entry, h, ne_eq, not_false_eq_true, if_true]
  split_ifs <;> exact ⟨rfl, rfl, rfl, rfl, rfl, rfl, rfl, rfl, rfl, rfl, rfl, rfl, rfl, rfl, rfl,
    rfl, rfl, rfl, rfl, rfl, rfl, rfl, rfl⟩

theorem toDigitsCore_acc (b : Nat) (f n : Nat) (ds : List Char) :
    Nat.toDigitsCore b f n ds = Nat.toDigitsCore b f n [] ++ ds := by
  induction f generalizing n ds with
  | zero => rfl
  | succ f ih =>
    simp only [Nat.toDigitsCore]
    split_ifs
    · rfl
    · rw [ih (n / b) (Nat.digitChar (n % b) :: ds), ih (n / b) [Nat.digitChar (n % b)]]
      simp

theorem digitChar_val : ∀ k, k < 10 →
    (Nat.digitChar k).toNat - 48 = k ∧ Nat.digitChar k ≠ '_' := by
  decide

theorem decVal_snoc (l : List Char) (c : Char) :
    decVal (l ++ [c]) = 10 * decVal l + (c.toNat - 48) := by
  simp [decVal, List.foldl_append]

theorem decVal_toDigitsCore (f n : Nat) (h : n < f) :
    decVal (Nat.toDigitsCore 10 f n []) = n := by
  induction f generalizing n with
  | zero => omega
  | succ f ih =>
    simp only [Nat.toDigitsCore]
    have hd := (digitChar_val (n % 10) (Nat.mod_lt _ (by decide))).1
    split_ifs with h0
    · simp only [decVal, List.foldl_cons, List.foldl_nil, hd]
      omega
    · rw [toDigitsCore_acc, decVal_snoc, ih (n / 10) (by omega), hd]
      omega

theorem toDigitsCore_no_sep (f n : Nat) :
    ∀ c ∈ Nat.toDigitsCore 10 f n [], c ≠ '_' := by
  induction f generalizing n with
  | zero => simp [Nat.toDigitsCore]
  | succ f ih =>
    have hd := (digitChar_val (n % 10) (Nat.mod_lt _ (by decide))).2
    simp only [Nat.toDigitsCore]
    split_ifs with h0
    · intro c hc
      rw [List.mem_singleton] at hc
      rw [hc]; exact hd
    · rw [toDigitsCore_acc]
      intro c hc
      rcases List.mem_append.1 hc with h | h
      · exact ih _ c h
      · rw [List.mem_singleton] at h
        rw [h]; exact hd

theorem toDigits_inj (i j : Nat) (h : Nat.toDigits 10 i = Nat.toDigits 10 j) : i = j := by
  have hi := decVal_toDigitsCore (i + 1) i (by omega)
  have hj := decVal_toDigitsCore (j + 1) j (by omega)
  unfold Nat.toDigits at h
  rw [h] at hi
  omega

theorem toDigits_length (b n e : Nat) (hb : 2 ≤ b) (he : 0 < e) (h : n < b ^ e) :
    (Nat.toDigits b n).length ≤ e :=
  Nat.toDigitsCore_length b hb (n + 1) n e h he

theorem fmt_d_length (v : Int) (h : is_int v) : (fmt_d v).length ≤ 11 := by
  unfold is_int at h
  unfold fmt_d
  split_ifs
  · have := toDigits_length 10 (-v).toNat 10 (by decide) (by decide) (by norm_num; omega)
    simp only [List.length_cons]
    omega
  · have := toDigits_length 10 v.toNat 10 (by decide) (by decide) (by norm_num; omega)
    omega

theorem fmt_d_nat (n : Nat) : fmt_d (n : Int) = Nat.toDigits 10 n := by
  unfold fmt_d
  simp

theorem padLeft_zero (c : Char) (l : List Char) : padLeft c 0 l = l := by
  simp [padLeft]

theorem padLeft_length (c : Char) (w : Nat) (l : List Char) :
    (padLeft c w l).length = max w l.length := by
  simp [padLeft]
  omega

theorem fmt_X_length (a : Nat) (h : is_uint a) : (padLeft '0' 6 (fmt_X a)).length ≤ 8 := by
  unfold is_uint at h
  have := toDigits_length 16 a 8 (by decide) (by decide) (by norm_num; omega)
  rw [padLeft_length]
  simp only [fmt_X, List.length_map]
  omega

theorem fmt_d_toString (v : Int) : fmt_d v = (toString v).toList := by
  cases v with
  | ofNat n =>
    simp [fmt_d, toString, Nat.repr, List.asString]
  | negSucc n =>
    simp [fmt_d, toString, Nat.repr, List.asString, Int.negSucc_lt_zero]
    rfl

theorem snprintf_downlink (m : Int) (a k : Nat) (hm : is_int m) (ha : is_uint a)
    (hk : k ≤ 1000) :
    snprintf 256 "Downlink_MDB%d_Addr%06X_%d" [.int m, .uint a, .int k]
      = spec_downlink_name m a k := by
  have hf : sprintf "Downlink_MDB%d_Addr%06X_%d" [.int m, .uint a, .int k]
      = spec_downlink_name m a k := by
    simp [sprintf, formatAux, convert, padLeft_zero, spec_downlink_name]
  have h1 := fmt_d_length m hm
  have h2 := fmt_X_length a ha
  have h3 := fmt_d_length (k : Int) (by unfold is_int; omega)
  unfold snprintf
  rw [hf]
  apply List.take_of_length_le
  simp only [spec_downlink_name, List.length_append]
  have e1 : "Downlink_MDB".toList.length = 12 := rfl
  have e2 : "_Addr".toList.length = 5 := rfl
  have e3 : "_".toList.length = 1 := rfl
  omega

theorem snprintf_uplink (site slot : Int) (k : Nat) (h1 : is_int site) (h2 : is_int slot)
    (hk : k ≤ 1000) :
    snprintf 256 "Uplink_Site%d_Slot%d_%d" [.int site, .int slot, .int k]
      = spec_uplink_name site slot k := by
  have hf : sprintf "Uplink_Site%d_Slot%d_%d" [.int site, .int slot, .int k]
      = spec_uplink_name site slot k := by
    simp [sprintf, formatAux, convert, padLeft_zero, spec_uplink_name]
  have l1 := fmt_d_length site h1
  have l2 := fmt_d_length slot h2
  have l3 := fmt_d_length (k : Int) (by unfold is_int; omega)
  unfold snprintf
  rw [hf]
  apply List.take_of_length_le
  simp only [spec_uplink_name, List.length_append]
  have e1 : "Uplink_Site".toList.length = 11 := rfl
  have e2 : "_Slot".toList.length = 5 := rfl
  have e3 : "_".toList.length = 1 := rfl
  omega

theorem entry_test_name (mdb : uat_adsb_mdb) (frame : List Nat) (len n : Nat) :
    (downlink_entry mdb frame len n).test_name
      = some (snprintf 256 "Downlink_MDB%d_Addr%06X_%d"
          [.int mdb.mdb_type, .uint mdb.address, .int n]) := by
  simp only [downlink_entry]
  split_ifs <;> rfl

/-- C9: the generated name of a captured entry is determined by its discriminating
fields and the collection's count before insertion: for downlink `Downlink_MDB`, the
decimal `mdb_type`, `_Addr`, the address in uppercase hexadecimal zero-padded to at
least 6 digits, `_` and the decimal ordinal; for uplink `Uplink_Site`, the decimal
site id, `_Slot`, the decimal slot id, `_` and the decimal ordinal. -/
theorem generated_name (dec : Decoder) (frame : List Nat) (len : Nat) (s : Store) :
    (s.num_downlink_frames < 1000 → is_int (dec.uat_decode_adsb_mdb frame).mdb_type →
      is_uint (dec.uat_decode_adsb_mdb frame).address →
      (captured_downlink dec frame len s).test_name
        = some (spec_downlink_name (dec.uat_decode_adsb_mdb frame).mdb_type
            (dec.uat_decode_adsb_mdb frame).address s.num_downlink_frames)) ∧
    (s.num_uplink_frames < 1000 → is_int (dec.uat_decode_uplink_mdb frame).tisb_site_id →
      is_int (dec.uat_decode_uplink_mdb frame).slot_id →
      (captured_uplink dec frame len s).test_name
        = some (spec_uplink_name (dec.uat_decode_uplink_mdb frame).tisb_site_id
            (dec.uat_decode_uplink_mdb frame).slot_id s.num_uplink_frames)) := by
  constructor
  · intro hcap hm ha
    unfold captured_downlink
    rw [handle_frame_downlink dec frame len s hcap, entry_test_name,
      snprintf_downlink _ _ _ hm ha (by omega)]
  · intro hcap h1 h2
    unfold captured_uplink
    rw [handle_frame_uplink dec frame len s hcap]
    simp only [uplink_entry]
    rw [snprintf_uplink _ _ _ h1 h2 (by omega)]

theorem generated_name_witness :
    Store.init.num_downlink_frames < 1000 ∧ is_int adsb_full.mdb_type ∧
    is_uint adsb_full.address ∧
    (captured_downlink (Decoder.const adsb_full uplink_site) [1, 2, 3] 3 Store.init).test_name
      = some "Downlink_MDB1_AddrABCDEF_0".toList ∧
    Store.init.num_uplink_frames < 1000 ∧ is_int uplink_site.tisb_site_id ∧
    is_int uplink_site.slot_id ∧
    (captured_uplink (Decoder.const adsb_full uplink_site) [1, 2, 3] 3 Store.init).test_name
      = some "Uplink_Site5_Slot17_0".toList :=
  have h := generated_name (Decoder.const adsb_full uplink_site) [1, 2, 3] 3 Store.init
  ⟨by decide, by decide, by decide, (h.1 (by decide) (by decide) (by decide)).trans (by decide),
   by decide, by decide, by decide, (h.2 (by decide) (by decide) (by decide)).trans (by decide)⟩

theorem sep_suffix (x y u v : List Char) (hx : ∀ c ∈ x, c ≠ '_') (hy : ∀ c ∈ y, c ≠ '_')
    (h : x ++ '_' :: u = y ++ '_' :: v) : x = y := by
  induction x generalizing y with
  | nil =>
    cases y with
    | nil => rfl
    | cons c y =>
      simp only [List.nil_append, List.cons_append, List.cons.injEq] at h
      exact absurd h.1.symm (hy c (by simp))
  | cons a x ih =>
    cases y with
    | nil =>
      simp only [List.nil_append, List.cons_append, List.cons.injEq] at h
      exact absurd h.1 (hx a (by simp))
    | cons c y =>
      simp only [List.cons_append, List.cons.injEq] at h
      rw [h.1, ih y (fun c hc => hx c (by simp [hc])) (fun c hc => hy c (by simp [hc])) h.2]

theorem ordinal_of_name (b1 b2 : List Char) (i j : Nat)
    (h : b1 ++ '_' :: Nat.toDigits 10 i = b2 ++ '_' :: Nat.toDigits 10 j) : i = j := by
  have hr := congrArg List.reverse h
  simp only [List.reverse_append, List.reverse_cons, List.append_assoc, List.singleton_append]
    at hr
  have hs := sep_suffix _ _ _ _
    (fun c hc => toDigitsCore_no_sep _ _ c (List.mem_reverse.1 hc))
    (fun c hc => toDigitsCore_no_sep _ _ c (List.mem_reverse.1 hc)) hr
  exact toDigits_inj i j (List.reverse_injective hs)

theorem spec_downlink_name_ends (m : Int) (a k : Nat) :
    ∃ body, spec_downlink_name m a k = body ++ '_' :: Nat.toDigits 10 k := by
  refine ⟨"Downlink_MDB".toList ++ fmt_d m ++ "_Addr".toList ++ padLeft '0' 6 (fmt_X a), ?_⟩
  have e : "_".toList = ['_'] := rfl
  rw [spec_downlink_name, fmt_d_nat, e, List.append_assoc]
  rfl

theorem spec_uplink_name_ends (site slot : Int) (k : Nat) :
    ∃ body, spec_uplink_name site slot k = body ++ '_' :: Nat.toDigits 10 k := by
  refine ⟨"Uplink_Site".toList ++ fmt_d site ++ "_Slot".toList ++ fmt_d slot, ?_⟩
  have e : "_".toList = ['_'] := rfl
  rw [spec_uplink_name, fmt_d_nat, e, List.append_assoc]
  rfl

theorem handle_frame_downlink_store (dec : Decoder) (frame : List Nat) (len : Nat) (s : Store)
    (h : s.num_downlink_frames < 1000) :
    handle_frame dec .UAT_DOWNLINK frame len s
      = ⟨Function.update s.downlink_test_frames s.num_downlink_frames
          (downlink_entry (dec.uat_decode_adsb_mdb frame) frame len s.num_downlink_frames),
         s.uplink_test_frames, s.num_downlink_frames + 1, s.num_uplink_frames⟩ := by
  have h2 : ¬ s.num_downlink_frames ≥ 1000 := by omega
  simp [handle_frame, h2]

theorem handle_frame_uplink_store (dec : Decoder) (frame : List Nat) (len : Nat) (s : Store)
    (h : s.num_uplink_frames < 1000) :
    handle_frame dec .UAT_UPLINK frame len s
      = ⟨s.downlink_test_frames,
         Function.update s.uplink_test_frames s.num_uplink_frames
          (uplink_entry (dec.uat_decode_uplink_mdb frame) frame len s.num_uplink_frames),
         s.num_downlink_frames, s.num_uplink_frames + 1⟩ := by
  have h2 : ¬ s.num_uplink_frames ≥ 1000 := by omega
  simp [handle_frame, h2]

theorem names_inv_step (c : Call) (s : Store) (hs : names_inv s) (hc : c.wf) :
    names_inv (handle_frame c.dec c.type c.frame c.len s) := by
  obtain ⟨hd, hu⟩ := hs
  obtain ⟨w1, w2, w3, w4⟩ := hc
  cases ht : c.type with
  | UAT_DOWNLINK =>
    by_cases hfull : s.num_downlink_frames ≥ 1000
    · rw [handle_frame_full _ _ _ _ _ (by simpa [count] using hfull)]
      exact ⟨hd, hu⟩
    · have hlt : s.num_downlink_frames < 1000 := by omega
      rw [handle_frame_downlink_store _ _ _ _ hlt]
      refine ⟨fun i hi => ?_, hu⟩
      dsimp only at hi ⊢
      by_cases hin : i = s.num_downlink_frames
      · subst hin
        rw [Function.update_same, entry_test_name, snprintf_downlink _ _ _ w1 w2 (by omega)]
        obtain ⟨body, hb⟩ := spec_downlink_name_ends
          (c.dec.uat_decode_adsb_mdb c.frame).mdb_type
          (c.dec.uat_decode_adsb_mdb c.frame).address s.num_downlink_frames
        exact ⟨body, by rw [hb]⟩
      · rw [Function.update_noteq hin]
        exact hd i (by omega)
  | UAT_UPLINK =>
    by_cases hfull : s.num_uplink_frames ≥ 1000
    · rw [handle_frame_full _ _ _ _ _ (by simpa [count] using hfull)]
      exact ⟨hd, hu⟩
    · have hlt : s.num_uplink_frames < 1000 := by omega
      rw [handle_frame_uplink_store _ _ _ _ hlt]
      refine ⟨hd, fun i hi => ?_⟩
      dsimp only at hi ⊢
      by_cases hin : i = s.num_uplink_frames
      · subst hin
        rw [Function.update_same]
        simp only [uplink_entry]
        rw [snprintf_uplink _ _ _ w3 w4 (by omega)]
        obtain ⟨body, hb⟩ := spec_uplink_name_ends
          (c.dec.uat_decode_uplink_mdb c.frame).tisb_site_id
          (c.dec.uat_decode_uplink_mdb c.frame).slot_id s.num_uplink_frames
        exact ⟨body, by rw [hb]⟩
      · rw [Function.update_noteq hin]
        exact hu i (by omega)

theorem names_inv_run (calls : List Call) (hwf : ∀ c ∈ calls, c.wf) :
    names_inv (run calls Store.init) := by
  induction calls using List.reverseRecOn with
  | nil => exact ⟨fun i hi => absurd hi (Nat.not_lt_zero i), fun i hi => absurd hi (Nat.not_lt_zero i)⟩
  | append_singleton xs c ih =>
    rw [run_snoc]
    exact names_inv_step c _ (ih (fun d hd => hwf d (by simp [hd]))) (hwf c (by simp))

/-- C10: in every store reached from the empty store by a sequence of `handle_frame`
calls (whose decoder outputs are C `int` / `unsigned` values, negative ones
included), two distinct entries of the same collection have different names. -/
theorem names_unique (calls : List Call) (hwf : ∀ c ∈ calls, c.wf) :
    (∀ i j, i < (run calls Store.init).num_downlink_frames →
      j < (run calls Store.init).num_downlink_frames → i ≠ j →
      ((run calls Store.init).downlink_test_frames i).test_name
        ≠ ((run calls Store.init).downlink_test_frames j).test_name) ∧
    (∀ i j, i < (run calls Store.init).num_uplink_frames →
      j < (run calls Store.init).num_uplink_frames → i ≠ j →
      ((run calls Store.init).uplink_test_frames i).test_name
        ≠ ((run calls Store.init).uplink_test_frames j).test_name) := by
  obtain ⟨hd, hu⟩ := names_inv_run calls hwf
  constructor
  · intro i j hi hj hij heq
    obtain ⟨b1, h1⟩ := hd i hi
    obtain ⟨b2, h2⟩ := hd j hj
    rw [h1, h2] at heq
    exact hij (ordinal_of_name b1 b2 i j (Option.some.inj heq))
  · intro i j hi hj hij heq
    obtain ⟨b1, h1⟩ := hu i hi
    obtain ⟨b2, h2⟩ := hu j hj
    rw [h1, h2] at heq
    exact hij (ordinal_of_name b1 b2 i j (Option.some.inj heq))

theorem names_unique_witness :
    (∀ c ∈ [call_dl_neg, call_ul_neg, call_dl_neg, call_ul_neg], c.wf) ∧
    ((run [call_dl_neg, call_ul_neg, call_dl_neg, call_ul_neg] Store.init).downlink_test_frames
        0).test_name
      ≠ ((run [call_dl_neg, call_ul_neg, call_dl_neg, call_ul_neg]
          Store.init).downlink_test_frames 1).test_name ∧
    ((run [call_dl_neg, call_ul_neg, call_dl_neg, call_ul_neg] Store.init).uplink_test_frames
        0).test_name
      ≠ ((run [call_dl_neg, call_ul_neg, call_dl_neg, call_ul_neg]
          Store.init).uplink_test_frames 1).test_name :=
  have h := names_unique [call_dl_neg, call_ul_neg, call_dl_neg, call_ul_neg] (by decide)
  ⟨by decide, h.1 0 1 (by decide) (by decide) (by decide),
    h.2 0 1 (by decide) (by decide) (by decide)⟩

theorem sample_names :
    ((run [call_dl_neg, call_ul_neg, call_dl_neg, call_ul_neg] Store.init).downlink_test_frames
        1).test_name = some "Downlink_MDB-3_AddrA1B2C3_1".toList ∧
    ((run [call_dl_neg, call_ul_neg, call_dl_neg, call_ul_neg] Store.init).uplink_test_frames
        1).test_name = some "Uplink_Site-1_Slot-2_1".toList := by
  decide

/-! ## Frame effects of a capture -/

/-- C12: a `handle_frame` call with the target count `k < 1000` leaves entries
`0 .. k-1` of that collection unchanged, writes the new entry at index `k` and raises
the count to `k + 1`; and no call, successful or not, changes an entry below the
count or lowers a count. -/
theorem append_only (dec : Decoder) (frame : List Nat) (len : Nat) (s : Store) :
    (s.num_downlink_frames < 1000 →
      (∀ i, i < s.num_downlink_frames →
        (handle_frame dec .UAT_DOWNLINK frame len s).downlink_test_frames i
          = s.downlink_test_frames i) ∧
      (handle_frame dec .UAT_DOWNLINK frame len s).downlink_test_frames s.num_downlink_frames
        = downlink_entry (dec.uat_decode_adsb_mdb frame) frame len s.num_downlink_frames ∧
      (handle_frame dec .UAT_DOWNLINK frame len s).num_downlink_frames
        = s.num_downlink_frames + 1) ∧
    (s.num_uplink_frames < 1000 →
      (∀ i, i < s.num_uplink_frames →
        (handle_frame dec .UAT_UPLINK frame len s).uplink_test_frames i
          = s.uplink_test_frames i) ∧
      (handle_frame dec .UAT_UPLINK frame len s).uplink_test_frames s.num_uplink_frames
        = uplink_entry (dec.uat_decode_uplink_mdb frame) frame len s.num_uplink_frames ∧
      (handle_frame dec .UAT_UPLINK frame len s).num_uplink_frames
        = s.num_uplink_frames + 1) ∧
    (∀ t : frame_type_t,
      (∀ i, i < s.num_downlink_frames →
        (handle_frame dec t frame len s).downlink_test_frames i = s.downlink_test_frames i) ∧
      (∀ i, i < s.num_uplink_frames →
        (handle_frame dec t frame len s).uplink_test_frames i = s.uplink_test_frames i) ∧
      s.num_downlink_frames ≤ (handle_frame dec t frame len s).num_downlink_frames ∧
      s.num_uplink_frames ≤ (handle_frame dec t frame len s).num_uplink_frames) := by
  have hd : s.num_downlink_frames < 1000 →
      (∀ i, i < s.num_downlink_frames →
        (handle_frame dec .UAT_DOWNLINK frame len s).downlink_test_frames i
          = s.downlink_test_frames i) ∧
      (handle_frame dec .UAT_DOWNLINK frame len s).num_downlink_frames
        = s.num_downlink_frames + 1 ∧
      (handle_frame dec .UAT_DOWNLINK frame len s).uplink_test_frames = s.uplink_test_frames ∧
      (handle_frame dec .UAT_DOWNLINK frame len s).num_uplink_frames = s.num_uplink_frames := by
    intro h
    rw [handle_frame_downlink_store dec frame len s h]
    exact ⟨fun i hi => Function.update_noteq (Nat.ne_of_lt hi) _ _, rfl, rfl, rfl⟩
  have hu : s.num_uplink_frames < 1000 →
      (∀ i, i < s.num_uplink_frames →
        (handle_frame dec .UAT_UPLINK frame len s).uplink_test_frames i
          = s.uplink_test_frames i) ∧
      (handle_frame dec .UAT_UPLINK frame len s).num_uplink_frames
        = s.num_uplink_frames + 1 ∧
      (handle_frame dec .UAT_UPLINK frame len s).downlink_test_frames
        = s.downlink_test_frames ∧
      (handle_frame dec .UAT_UPLINK frame len s).num_downlink_frames
        = s.num_downlink_frames := by
    intro h
    rw [handle_frame_uplink_store dec frame len s h]
    exact ⟨fun i hi => Function.update_noteq (Nat.ne_of_lt hi) _ _, rfl, rfl, rfl⟩
  refine ⟨fun h => ⟨(hd h).1, handle_frame_downlink dec frame len s h, (hd h).2.1⟩,
    fun h => ⟨(hu h).1, handle_frame_uplink dec frame len s h, (hu h).2.1⟩, fun t => ?_⟩
  cases t with
  | UAT_DOWNLINK =>
    by_cases h : s.num_downlink_frames < 1000
    · obtain ⟨h1, h2, h3, h4⟩ := hd h
      exact ⟨h1, fun i _ => by rw [h3], by omega, by omega⟩
    · rw [handle_frame_full dec .UAT_DOWNLINK frame len s (by simp only [count]; simp; omega)]
      exact ⟨fun _ _ => rfl, fun _ _ => rfl, Nat.le_refl _, Nat.le_refl _⟩
  | UAT_UPLINK =>
    by_cases h : s.num_uplink_frames < 1000
    · obtain ⟨h1, h2, h3, h4⟩ := hu h
      exact ⟨fun i _ => by rw [h3], h1, by omega, by omega⟩
    · rw [handle_frame_full dec .UAT_UPLINK frame len s (by simp only [count]; simp; omega)]
      exact ⟨fun _ _ => rfl, fun _ _ => rfl, Nat.le_refl _, Nat.le_refl _⟩

theorem append_only_witness :
    store_one_each.num_downlink_frames < 1000 ∧ store_one_each.num_uplink_frames < 1000 ∧
    (handle_frame call_dl.dec .UAT_DOWNLINK call_dl.frame 18 store_one_each).downlink_test_frames 0
      = store_one_each.downlink_test_frames 0 ∧
    (handle_frame call_dl.dec .UAT_DOWNLINK call_dl.frame 18 store_one_each).num_downlink_frames
      = 2 ∧
    (handle_frame call_ul.dec .UAT_UPLINK call_ul.frame 432 store_one_each).uplink_test_frames 0
      = store_one_each.uplink_test_frames 0 ∧
    (handle_frame call_ul.dec .UAT_UPLINK call_ul.frame 432 store_one_each).num_uplink_frames
      = 2 :=
  have hd := (append_only call_dl.dec call_dl.frame 18 store_one_each).1 (by decide)
  have hu := (append_only call_ul.dec call_ul.frame 432 store_one_each).2.1 (by decide)
  ⟨by decide, by decide, hd.1 0 (by decide), hd.2.2.trans (by decide), hu.1 0 (by decide),
    hu.2.2.trans (by decide)⟩

/-- C13: a `handle_frame` call with a downlink frame leaves the uplink array and its
count unchanged, and a call with an uplink frame leaves the downlink array and its
count unchanged, whether or not the capture succeeds. -/
theorem collections_independent (dec : Decoder) (frame : List Nat) (len : Nat) (s : Store) :
    (handle_frame dec .UAT_DOWNLINK frame len s).uplink_test_frames = s.uplink_test_frames ∧
    (handle_frame dec .UAT_DOWNLINK frame len s).num_uplink_frames = s.num_uplink_frames ∧
    (handle_frame dec .UAT_UPLINK frame len s).downlink_test_frames
      = s.downlink_test_frames ∧
    (handle_frame dec .UAT_UPLINK frame len s).num_downlink_frames
      = s.num_downlink_frames := by
  have hd : (handle_frame dec .UAT_DOWNLINK frame len s).uplink_test_frames
        = s.uplink_test_frames ∧
      (handle_frame dec .UAT_DOWNLINK frame len s).num_uplink_frames
        = s.num_uplink_frames := by
    by_cases h : s.num_downlink_frames < 1000
    · rw [handle_frame_downlink_store dec frame len s h]
      exact ⟨rfl, rfl⟩
    · rw [handle_frame_full dec .UAT_DOWNLINK frame len s (by simp only [count]; simp; omega)]
      exact ⟨rfl, rfl⟩
  have hu : (handle_frame dec .UAT_UPLINK frame len s).downlink_test_frames
        = s.downlink_test_frames ∧
      (handle_frame dec .UAT_UPLINK frame len s).num_downlink_frames
        = s.num_downlink_frames := by
    by_cases h : s.num_uplink_frames < 1000
    · rw [handle_frame_uplink_store dec frame len s h]
      exact ⟨rfl, rfl⟩
    · rw [handle_frame_full dec .UAT_UPLINK frame len s (by simp only [count]; simp; omega)]
      exact ⟨rfl, rfl⟩
  exact ⟨hd.1, hd.2, hu.1, hu.2⟩

/-! ## FIS-B gating -/

theorem copy_info_frame_fisb (src : uat_uplink_info_frame) :
    (src.is_fisb = 0 → fisb_zero (copy_info_frame src zero_slot)) ∧
    (src.is_fisb ≠ 0 → fisb_copied src.fisb (copy_info_frame src zero_slot)) := by
  constructor
  · intro h
    simp only [copy_info_frame, h, ne_eq, not_true_eq_false, if_false]
    exact ⟨rfl, rfl, rfl, rfl, rfl, rfl, rfl, rfl, rfl, rfl, rfl, rfl⟩
  · intro h
    simp only [copy_info_frame, h, ne_eq, not_false_eq_true, if_true]
    exact ⟨rfl, rfl, rfl, rfl, rfl, rfl, rfl, rfl, rfl, rfl, rfl, rfl⟩

/-! ## Emission: the arrays -/

theorem emit_separator_inner (i n : Nat) (h : i + 1 < n) : emit_separator i n = [',', '\n'] := by
  have h2 : (i : Int) < (n : Int) - 1 := by omega
  simp only [emit_separator, h2, if_true]
  rfl

theorem emit_separator_last (n : Nat) : emit_separator n (n + 1) = ['\n'] := by
  have h2 : ¬ ((n : Int) < ((n + 1 : Nat) : Int) - 1) := by omega
  simp only [emit_separator, h2, if_false]
  rfl

theorem flatMap_congr_mem {α β : Type} (l : List α) (f g : α → List β)
    (h : ∀ x ∈ l, f x = g x) : l.flatMap f = l.flatMap g := by
  induction l with
  | nil => rfl
  | cons a l ih =>
    simp only [List.flatMap_cons]
    rw [h a (by simp), ih (fun x hx => h x (by simp [hx]))]

theorem spec_array_body_snoc (xs : List (List Char)) (e : List Char) :
    spec_array_body (xs ++ [e]) = xs.flatMap (fun x => x ++ [',', '\n']) ++ (e ++ ['\n']) := by
  induction xs with
  | nil => rfl
  | cons x xs ih =>
    cases xs with
    | nil => simp [spec_array_body]
    | cons y ys =>
      have e1 : (x :: y :: ys) ++ [e] = x :: y :: (ys ++ [e]) := rfl
      have e2 : (y :: ys) ++ [e] = y :: (ys ++ [e]) := rfl
      rw [e1, spec_array_body, ← e2, ih]
      simp only [List.flatMap_cons, List.append_assoc]

theorem array_loop (f : Nat → List Char) (n : Nat) :
    (List.range n).flatMap (fun i => f i ++ emit_separator i n)
      = spec_array_body ((List.range n).map f) := by
  cases n with
  | zero => rfl
  | succ k =>
    rw [List.range_succ, List.flatMap_append, List.map_append, List.map_singleton,
      spec_array_body_snoc, List.flatMap_map]
    rw [flatMap_congr_mem (List.range k) _ (fun i => f i ++ [',', '\n'])
      (fun i hi => by rw [emit_separator_inner i (k + 1) (by simpa using hi)])]
    simp [emit_separator_last]

/-- C15: `output_downlink_data` and `output_uplink_data` emit one array element per
stored entry, in insertion order (element `i` is written from entry `i`), separated by
commas with none after the last, and the emitted count constant is the number of
elements, which is the collection's count. -/
theorem arrays_emitted (s : Store) :
    output_downlink_data s
      = "// Downlink test frame data array\n".toList ++
        "static const uat_downlink_test_frame_t uat_downlink_test_frames[] = \x7b\n".toList ++
        spec_array_body (downlink_elements s) ++ "\x7d;\n\n".toList ++
        "static const int uat_downlink_test_frames_count = ".toList ++
        fmt_d (downlink_elements s).length ++ ";\n\n".toList ∧
    (downlink_elements s).length = s.num_downlink_frames ∧
    (∀ i, i < s.num_downlink_frames →
      (downlink_elements s)[i]? = some (emit_downlink_frame (s.downlink_test_frames i))) ∧
    output_uplink_data s
      = "// Uplink test frame data array\n".toList ++
        "static const uat_uplink_test_frame_t uat_uplink_test_frames[] = \x7b\n".toList ++
        spec_array_body (uplink_elements s) ++ "\x7d;\n\n".toList ++
        "static const int uat_uplink_test_frames_count = ".toList ++
        fmt_d (uplink_elements s).length ++ ";\n\n".toList ∧
    (uplink_elements s).length = s.num_uplink_frames ∧
    (∀ i, i < s.num_uplink_frames →
      (uplink_elements s)[i]? = some (emit_uplink_frame (s.uplink_test_frames i))) := by
  have ld : (downlink_elements s).length = s.num_downlink_frames := by
    simp [downlink_elements]
  have lu : (uplink_elements s).length = s.num_uplink_frames := by
    simp [uplink_elements]
  refine ⟨?_, ld, ?_, ?_, lu, ?_⟩
  · rw [ld]
    unfold output_downlink_data
    rw [array_loop (fun i => emit_downlink_frame (s.downlink_test_frames i))]
    simp [sprintf, formatAux, convert, padLeft_zero, downlink_elements]
  · intro i hi
    simp [downlink_elements, hi]
  · rw [lu]
    unfold output_uplink_data
    rw [array_loop (fun i => emit_uplink_frame (s.uplink_test_frames i))]
    simp [sprintf, formatAux, convert, padLeft_zero, uplink_elements]
  · intro i hi
    simp [uplink_elements, hi]

theorem range8 : List.range 8 = [0, 1, 2, 3, 4, 5, 6, 7] := by decide

theorem emit_info_frame_eq (frame : uat_uplink_test_frame_t) (j : Nat) :
    emit_info_frame frame j
      = (if j > 0 then [',', ' '] else []) ++
        spec_slot_text (spec_slot_fields (frame.info_frames.getD j zero_slot)) := by
  simp [emit_info_frame, sprintf, formatAux, convert, padLeft_zero, spec_slot_text,
    spec_slot_fields, List.intercalate, List.intersperse]

theorem emit_info_frames_eq (frame : uat_uplink_test_frame_t) :
    emit_info_frames frame
      = "        \x7b".toList ++ ", ".toList.intercalate ((emitted_slots frame).map spec_slot_text)
        ++ "\n        \x7d\n".toList := by
  unfold emit_info_frames emitted_slots
  rw [range8]
  simp only [List.flatMap_cons, List.flatMap_nil, emit_info_frame_eq, List.map_cons,
    List.map_nil]
  simp [sprintf, formatAux, List.intercalate, List.intersperse]

theorem zero_slot_text :
    spec_slot_text (spec_slot_fields zero_slot)
      = "\n            \x7b0, 0, 0, 0, 0, 0, 0, 0, 0, 0, 0, 0, 0, 0, 0\x7d".toList := by
  decide

theorem uplink_entry_slot_zero (mdb : uat_uplink_mdb) (frame : List Nat) (len n j : Nat)
    (hj : min mdb.num_info_frames 8 ≤ (j : Int)) :
    (uplink_entry mdb frame len n).info_frames.getD j zero_slot = zero_slot := by
  have hk : ¬ j < (frames_to_copy mdb).toNat := by
    unfold frames_to_copy
    split_ifs <;> omega
  rw [List.getD_eq_getElem?_getD, uplink_entry_slots, if_neg hk]
  by_cases h8 : j < 8
  · rw [replicate8_get j h8]
    rfl
  · rw [List.getElem?_eq_none (by simp; omega)]
    rfl

theorem emit_uplink_frame_split (frame : uat_uplink_test_frame_t) :
    ∃ head, emit_uplink_frame frame
      = head ++ emit_info_frames frame ++ "    \x7d".toList := by
  have hc : sprintf "    \x7d" [] = "    \x7d".toList := by decide
  unfold emit_uplink_frame
  rw [hc]
  exact ⟨_, rfl⟩

/-! ## Emission: determinism, accessors, entry point -/

theorem handle_frame_congr (c d : Call) (h : same_capture c d) (s : Store) :
    handle_frame c.dec c.type c.frame c.len s = handle_frame d.dec d.type d.frame d.len s := by
  obtain ⟨h1, h2, h3, h4, h5⟩ := h
  rw [← h2] at h4 h5
  rw [← h1, ← h2, ← h3]
  unfold handle_frame
  cases ht : c.type with
  | UAT_DOWNLINK =>
    rw [h4 ht]
    simp only [if_true]
  | UAT_UPLINK =>
    rw [h5 ht]
    simp only [reduceCtorEq, if_false]

theorem run_congr (xs ys : List Call) (h : List.Forall₂ same_capture xs ys) (s : Store) :
    run xs s = run ys s := by
  induction h generalizing s with
  | nil => rfl
  | cons hc _ ih =>
    simp only [run, List.foldl_cons] at ih ⊢
    rw [handle_frame_congr _ _ hc]
    exact ih _

theorem source_artifact_congr (s t : Store) (h : same_fixtures s t) :
    source_artifact s = source_artifact t := by
  obtain ⟨h1, h2, h3, h4⟩ := h
  have hd : output_downlink_data s = output_downlink_data t := by
    unfold output_downlink_data
    rw [← h1, flatMap_congr_mem (List.range s.num_downlink_frames) _
      (fun i => emit_downlink_frame (t.downlink_test_frames i)
        ++ emit_separator i s.num_downlink_frames)
      (fun i hi => by rw [h3 i (by simpa using hi)])]
  have hu : output_uplink_data s = output_uplink_data t := by
    unfold output_uplink_data
    rw [← h2, flatMap_congr_mem (List.range s.num_uplink_frames) _
      (fun i => emit_uplink_frame (t.uplink_test_frames i)
        ++ emit_separator i s.num_uplink_frames)
      (fun i hi => by rw [h4 i (by simpa using hi)])]
  unfold source_artifact
  rw [hd, hu]

/-- C17: the emitted source artifact depends only on the fixtures in the store (the
counts and the entries below them), so emitting the same fixtures again gives the same
text; and two runs fed the same ordered captures (same kinds, raw bytes and decoder
outputs) build the same store and emit the same artifact. -/
theorem emission_deterministic :
    (∀ s t : Store, same_fixtures s t → source_artifact s = source_artifact t) ∧
    (∀ xs ys : List Call, List.Forall₂ same_capture xs ys →
      run xs Store.init = run ys Store.init ∧
      source_artifact (run xs Store.init) = source_artifact (run ys Store.init)) :=
  ⟨source_artifact_congr, fun xs ys h =>
    ⟨run_congr xs ys h Store.init, by rw [run_congr xs ys h Store.init]⟩⟩

theorem emission_deterministic_witness :
    same_fixtures Store.init store_dirty ∧
    source_artifact Store.init = source_artifact store_dirty ∧
    List.Forall₂ same_capture [call_dl, call_dl] [⟨dec_other, .UAT_DOWNLINK, List.replicate 18 0, 18⟩, call_dl] ∧
    source_artifact (run [call_dl, call_dl] Store.init)
      = source_artifact
          (run [⟨dec_other, .UAT_DOWNLINK, List.replicate 18 0, 18⟩, call_dl] Store.init) :=
  have hf : same_fixtures Store.init store_dirty :=
    ⟨rfl, rfl, fun i hi => absurd hi (Nat.not_lt_zero i), fun i hi => absurd hi (Nat.not_lt_zero i)⟩
  have hc : List.Forall₂ same_capture [call_dl, call_dl]
      [⟨dec_other, .UAT_DOWNLINK, List.replicate 18 0, 18⟩, call_dl] :=
    List.Forall₂.cons ⟨rfl, rfl, rfl, fun _ => rfl, fun _ => rfl⟩
      (List.Forall₂.cons ⟨rfl, rfl, rfl, fun _ => rfl, fun _ => rfl⟩ List.Forall₂.nil)
  ⟨hf, emission_deterministic.1 _ _ hf, hc, (emission_deterministic.2 _ _ hc).2⟩

theorem main_files (argv : List (List Char)) (env : Env) :
    (main argv env).files.map Prod.fst = [] ∨
    (main argv env).files.map Prod.fst = ["scripts//uat_test_data.c".toList] ∨
    (main argv env).files.map Prod.fst
      = ["scripts//uat_test_data.c".toList, "scripts//uat_test_data.h".toList] := by
  have e1 : snprintf 512 "%s/uat_test_data.c" [.str "scripts/".toList]
      = "scripts//uat_test_data.c".toList := by decide
  have e2 : snprintf 512 "%s/uat_test_data.h" [.str "scripts/".toList]
      = "scripts//uat_test_data.h".toList := by decide
  simp only [main, e1, e2, output_header_file]
  split_ifs <;> simp

/-- C18 fails on the code: `main` never reads its arguments, so with the output
directory `out` given on the command line the two artifacts are still written under
the fixed directory `scripts/`, not to `out/uat_test_data.c` and
`out/uat_test_data.h`. -/
theorem main_ignores_output_directory :
    (main ["./uat2structs".toList, "out".toList] env_ok).exit_status = 0 ∧
    (main ["./uat2structs".toList, "out".toList] env_ok).files.map Prod.fst
      = ["scripts//uat_test_data.c".toList, "scripts//uat_test_data.h".toList] ∧
    "out/uat_test_data.c".toList
      ∉ (main ["./uat2structs".toList, "out".toList] env_ok).files.map Prod.fst := by
  decide

theorem main_fatal_failures :
    (∀ argv env, env.reader_ok = false → (main argv env).exit_status = 1) ∧
    (∀ argv env, (read_all env.batches Store.init).1 < 0 → (main argv env).exit_status = 1) ∧
    (∀ argv env, env.fopen_ok "scripts//uat_test_data.c".toList = false →
      (main argv env).exit_status = 1) := by
  have e1 : snprintf 512 "%s/uat_test_data.c" [.str "scripts/".toList]
      = "scripts//uat_test_data.c".toList := by decide
  refine ⟨?_, ?_, ?_⟩
  · intro argv env h
    simp [main, h]
  · intro argv env h
    simp only [main, h, if_true]
    split_ifs <;> rfl
  · intro argv env h
    simp only [main, e1, h]
    split_ifs <;> first | rfl | simp_all

/-- C19 fails on the code: when only the header file cannot be opened,
`output_header_file` returns without writing and `main` still ends with status 0,
having written the source artifact alone. -/
theorem header_failure_exit_zero :
    env_no_header.fopen_ok "scripts//uat_test_data.h".toList = false ∧
    (main ["./uat2structs".toList] env_no_header).exit_status = 0 ∧
    (main ["./uat2structs".toList] env_no_header).files.map Prod.fst
      = ["scripts//uat_test_data.c".toList] := by
  decide

/-! ## End to end: emitted lines -/

theorem fmt_f_40 : fmt_f 6 ⟨0x4044000000000000⟩ = "40.000000".toList := by decide

theorem fmt_f_minus_80 : fmt_f 6 ⟨0xC054000000000000⟩ = "-80.000000".toList := by decide

set_option maxRecDepth 100000 in
theorem emit_ms_zero (t : uat_downlink_test_frame_t) (h0 : t.has_ms = 0) (h : ms_zero t) :
    emit_downlink_ms t
      = ("        0, 0, \"\", 0, 0, 0, 0, 0,  // MS: has_ms, emitter_category, callsign, callsign_type, emergency_status, uat_version, sil, transmit_mso\n" ++
         "        0, 0, 0, 0, 0, 0, 0, 0, 0,  // MS: nac_p, nac_v, nic_baro, has_cdti, has_acas, acas_ra_active, ident_active, atc_services, heading_type\n").toList := by
  obtain ⟨a1, a2, a3, a4, a5, a6, a7, a8, a9, a10, a11, a12, a13, a14, a15, a16⟩ := h
  unfold emit_downlink_ms
  rw [h0, a1, a2, a3, a4, a5, a6, a7, a8, a9, a10, a11, a12, a13, a14, a15, a16]
  decide

set_option maxRecDepth 100000 in
theorem emit_auxsv_zero (t : uat_downlink_test_frame_t) (h0 : t.has_auxsv = 0)
    (h : auxsv_zero t) :
    emit_downlink_auxsv t
      = "        0, 0, 0  // AUXSV: has_auxsv, sec_altitude_type, sec_altitude\n".toList := by
  obtain ⟨a1, a2⟩ := h
  unfold emit_downlink_auxsv
  rw [h0, a1, a2]
  decide

set_option maxRecDepth 100000 in
theorem emit_sv_first_line (t : uat_downlink_test_frame_t)
    (hlat : t.lat = ⟨0x4044000000000000⟩) (hlon : t.lon = ⟨0xC054000000000000⟩) :
    ∃ rest, emit_downlink_sv t
      = "        ".toList ++ fmt_d t.has_sv ++ ", ".toList ++ fmt_d t.nic ++ ", ".toList ++
        fmt_d t.position_valid ++ ", 40.000000, -80.000000, ".toList ++
        fmt_d t.altitude_type ++ ", ".toList ++ fmt_d t.altitude ++ ", ".toList ++
        fmt_d t.airground_state ++
        ",  // SV: has_sv, nic, position_valid, lat, lon, altitude_type, altitude, airground_state\n".toList
        ++ rest := by
  have e : sprintf "        %d, %d, %d, %.6f, %.6f, %d, %d, %d,  // SV: has_sv, nic, position_valid, lat, lon, altitude_type, altitude, airground_state\n"
      [.int t.has_sv, .int t.nic, .int t.position_valid, .dbl t.lat,
       .dbl t.lon, .int t.altitude_type, .int t.altitude, .int t.airground_state]
      = "        ".toList ++ fmt_d t.has_sv ++ ", ".toList ++ fmt_d t.nic ++ ", ".toList ++
        fmt_d t.position_valid ++ ", 40.000000, -80.000000, ".toList ++
        fmt_d t.altitude_type ++ ", ".toList ++ fmt_d t.altitude ++ ", ".toList ++
        fmt_d t.airground_state ++
        ",  // SV: has_sv, nic, position_valid, lat, lon, altitude_type, altitude, airground_state\n".toList := by
    rw [hlat, hlon]
    simp [sprintf, formatAux, convert, convert_prec, padLeft_zero, fmt_f_40, fmt_f_minus_80]
  unfold emit_downlink_sv
  rw [e, List.append_assoc
    ("        ".toList ++ fmt_d t.has_sv ++ ", ".toList ++ fmt_d t.nic ++ ", ".toList ++
        fmt_d t.position_valid ++ ", 40.000000, -80.000000, ".toList ++
        fmt_d t.altitude_type ++ ", ".toList ++ fmt_d t.altitude ++ ", ".toList ++
        fmt_d t.airground_state ++
        ",  // SV: has_sv, nic, position_valid, lat, lon, altitude_type, altitude, airground_state\n".toList)]
  exact ⟨_, rfl⟩

theorem entry_sv_present (mdb : uat_adsb_mdb) (frame : List Nat) (len n : Nat)
    (h : mdb.has_sv ≠ 0) :
    (downlink_entry mdb frame len n).lat = mdb.lat ∧
    (downlink_entry mdb frame len n).lon = mdb.lon := by
  simp only [downlink_entry, h, ne_eq, not_false_eq_true, if_true]
  split_ifs <;> exact ⟨rfl, rfl⟩

theorem output_downlink_data_one (s : Store) (h : s.num_downlink_frames = 1) :
    output_downlink_data s
      = "// Downlink test frame data array\n".toList ++
        "static const uat_downlink_test_frame_t uat_downlink_test_frames[] = \x7b\n".toList ++
        emit_downlink_frame (s.downlink_test_frames 0) ++ "\n".toList ++ "\x7d;\n\n".toList ++
        "static const int uat_downlink_test_frames_count = 1;\n\n".toList := by
  have e1 : sprintf "// Downlink test frame data array\n" []
      = "// Downlink test frame data array\n".toList := by decide
  have e2 : sprintf "static const uat_downlink_test_frame_t uat_downlink_test_frames[] = \x7b\n" []
      = "static const uat_downlink_test_frame_t uat_downlink_test_frames[] = \x7b\n".toList := by
    decide
  have e3 : sprintf "\x7d;\n\n" [] = "\x7d;\n\n".toList := by decide
  have e4 : sprintf "static const int uat_downlink_test_frames_count = %d;\n\n" [.int (1 : Nat)]
      = "static const int uat_downlink_test_frames_count = 1;\n\n".toList := by decide
  have e5 : List.range 1 = [0] := rfl
  have e6 : emit_separator 0 1 = "\n".toList := emit_separator_last 0
  unfold output_downlink_data
  rw [h, e1, e2, e3, e4, e5]
  simp only [List.flatMap_cons, List.flatMap_nil, List.append_nil, e6, List.append_assoc]

theorem arrays_emitted_witness :
    0 < store_one_each.num_downlink_frames ∧
    (downlink_elements store_one_each)[0]?
      = some (emit_downlink_frame (store_one_each.downlink_test_frames 0)) ∧
    (downlink_elements store_one_each).length = 1 ∧
    0 < store_one_each.num_uplink_frames ∧
    (uplink_elements store_one_each)[0]?
      = some (emit_uplink_frame (store_one_each.uplink_test_frames 0)) ∧
    (uplink_elements store_one_each).length = 1 :=
  have h := arrays_emitted store_one_each
  ⟨by decide, h.2.2.1 0 (by decide), h.2.1.trans (by decide), by decide,
    h.2.2.2.2.2 0 (by decide), h.2.2.2.2.1.trans (by decide)⟩

/-! ## The two artifacts -/

theorem fprintf_all_append (xs ys : List String) :
    fprintf_all (xs ++ ys) = fprintf_all xs ++ fprintf_all ys := by
  induction xs with
  | nil => rfl
  | cons x xs ih =>
    simp only [fprintf_all, List.cons_append, List.foldr_cons, List.append_assoc] at ih ⊢
    rw [ih]

set_option maxRecDepth 100000 in
theorem declarations_lines_eq : source_declarations = header_declarations := by
  decide

set_option maxRecDepth 100000 in
theorem declarations_ends :
    source_declarations.head? = some "// Enum value constants\n" ∧
    source_declarations.getLast? = some "\x7d uat_uplink_test_frame_t;\n\n" ∧
    source_declarations.length = 109 ∧
    header_file_lines.take 5 ++ header_declarations ++ header_file_lines.drop 114
      = header_file_lines := by
  decide

/-- C26: the enumeration constants and the two structure declarations that
`output_test_header` writes into the source artifact are, line for line and as text,
the ones `output_header_file` writes into the header artifact: each artifact is its own
opening lines followed by the same declarations block (the header then adds the
function declarations). -/
theorem declarations_identical :
    source_declarations = header_declarations ∧
    source_declarations.head? = some "// Enum value constants\n" ∧
    source_declarations.getLast? = some "\x7d uat_uplink_test_frame_t;\n\n" ∧
    output_test_header
      = fprintf_all (output_test_header_lines.take 5) ++ fprintf_all source_declarations ∧
    header_file_text
      = fprintf_all (header_file_lines.take 5) ++ fprintf_all source_declarations ++
        fprintf_all (header_file_lines.drop 114) := by
  refine ⟨declarations_lines_eq, declarations_ends.1, declarations_ends.2.1, ?_, ?_⟩
  · unfold output_test_header source_declarations
    rw [← fprintf_all_append, List.take_append_drop]
  · unfold header_file_text
    rw [declarations_lines_eq, ← fprintf_all_append, ← fprintf_all_append,
      declarations_ends.2.2.2]

/-! ## Raw bytes of a capture -/

theorem bytes_to_hex_string_take (bs : List Nat) (n : Nat) :
    bytes_to_hex_string bs n = bytes_to_hex_string (bs.take n) n := by
  induction bs generalizing n with
  | nil => simp
  | cons b bs ih =>
    cases n with
    | zero => simp [bytes_to_hex_string]
    | succ n =>
      simp only [List.take_succ_cons, bytes_to_hex_string]
      rw [← ih n]

theorem hex_length_take (bs : List Nat) (n : Nat) (hn : n ≤ bs.length)
    (hb : ∀ x ∈ bs, x < 256) : (bytes_to_hex_string bs n).length = 2 * n := by
  have hl : (bs.take n).length = n := by simp; omega
  have h := hex_length (bs.take n) (fun x hx => hb x (List.mem_of_mem_take hx))
  rw [hl] at h
  rw [bytes_to_hex_string_take, h]

theorem entry_raw (mdb : uat_adsb_mdb) (frame : List Nat) (len n : Nat) :
    (downlink_entry mdb frame len n).frame_length = len ∧
    (downlink_entry mdb frame len n).frame_data_hex = bytes_to_hex_string frame len := by
  simp only [downlink_entry]
  split_ifs <;> exact ⟨rfl, rfl⟩

/-- C21: for a successful capture of a raw frame of `len` bytes (`len <= 48` for
downlink, `len <= 552` for uplink) the stored `frame_length` is `len`, the stored
`frame_data_hex` is `bytes_to_hex_string` of exactly those `len` bytes, its length is
`2 * frame_length`, and with its terminator it fits the 97 resp. 1105 bytes of the
buffer. -/
theorem raw_bytes_stored (dec : Decoder) (frame : List Nat) (len : Nat) (s : Store)
    (hn : len ≤ frame.length) (hb : ∀ x ∈ frame, x < 256) :
    (s.num_downlink_frames < 1000 → len ≤ 48 →
      (captured_downlink dec frame len s).frame_length = len ∧
      (captured_downlink dec frame len s).frame_data_hex
        = bytes_to_hex_string (frame.take len) len ∧
      ((captured_downlink dec frame len s).frame_data_hex.length : Int)
        = 2 * (captured_downlink dec frame len s).frame_length ∧
      (captured_downlink dec frame len s).frame_data_hex.length + 1 ≤ 97) ∧
    (s.num_uplink_frames < 1000 → len ≤ 552 →
      (captured_uplink dec frame len s).frame_length = len ∧
      (captured_uplink dec frame len s).frame_data_hex
        = bytes_to_hex_string (frame.take len) len ∧
      ((captured_uplink dec frame len s).frame_data_hex.length : Int)
        = 2 * (captured_uplink dec frame len s).frame_length ∧
      (captured_uplink dec frame len s).frame_data_hex.length + 1 ≤ 1105) := by
  have hl := hex_length_take frame len hn hb
  constructor
  · intro hcap h48
    unfold captured_downlink
    rw [handle_frame_downlink dec frame len s hcap]
    obtain ⟨e1, e2⟩ := entry_raw (dec.uat_decode_adsb_mdb frame) frame len s.num_downlink_frames
    rw [e1, e2, hl]
    exact ⟨rfl, bytes_to_hex_string_take frame len, by push_cast; ring, by omega⟩
  · intro hcap h552
    unfold captured_uplink
    rw [handle_frame_uplink dec frame len s hcap]
    have e1 : (uplink_entry (dec.uat_decode_uplink_mdb frame) frame len
        s.num_uplink_frames).frame_length = len := rfl
    have e2 : (uplink_entry (dec.uat_decode_uplink_mdb frame) frame len
        s.num_uplink_frames).frame_data_hex = bytes_to_hex_string frame len := rfl
    rw [e1, e2, hl]
    exact ⟨rfl, bytes_to_hex_string_take frame len, by push_cast; ring, by omega⟩

theorem raw_bytes_stored_witness :
    (4 : Nat) ≤ [0, 171, 205, 239, 7].length ∧ (∀ x ∈ [0, 171, 205, 239, 7], x < 256) ∧
    Store.init.num_downlink_frames < 1000 ∧ (4 : Nat) ≤ 48 ∧
    (captured_downlink call_dl.dec [0, 171, 205, 239, 7] 4 Store.init).frame_length = 4 ∧
    (captured_downlink call_dl.dec [0, 171, 205, 239, 7] 4 Store.init).frame_data_hex
      = "00abcdef".toList ∧
    Store.init.num_uplink_frames < 1000 ∧ (4 : Nat) ≤ 552 ∧
    (captured_uplink call_dl.dec [0, 171, 205, 239, 7] 4 Store.init).frame_data_hex.length + 1
      ≤ 1105 :=
  have h := raw_bytes_stored call_dl.dec [0, 171, 205, 239, 7] 4 Store.init (by decide)
    (by decide)
  ⟨by decide, by decide, by decide, by decide, (h.1 (by decide) (by decide)).1,
    ((h.1 (by decide) (by decide)).2.1).trans (by decide), by decide, by decide,
    (h.2 (by decide) (by decide)).2.2.2⟩

/-! ## Bounded storage -/

theorem untouched_inv_step (c : Call) (s : Store) (hs : untouched_inv s) :
    untouched_inv (handle_frame c.dec c.type c.frame c.len s) := by
  obtain ⟨hd, hu⟩ := hs
  cases c.type with
  | UAT_DOWNLINK =>
    by_cases hlt : s.num_downlink_frames < 1000
    · rw [handle_frame_downlink_store _ _ _ _ hlt]
      refine ⟨fun i hi => ?_, hu⟩
      dsimp only at hi ⊢
      rw [Function.update_noteq (by omega)]
      exact hd i (by omega)
    · rw [handle_frame_full _ _ _ _ _ (by simp only [count]; simp; omega)]
      exact ⟨hd, hu⟩
  | UAT_UPLINK =>
    by_cases hlt : s.num_uplink_frames < 1000
    · rw [handle_frame_uplink_store _ _ _ _ hlt]
      refine ⟨hd, fun i hi => ?_⟩
      dsimp only at hi ⊢
      rw [Function.update_noteq (by omega)]
      exact hu i (by omega)
    · rw [handle_frame_full _ _ _ _ _ (by simp only [count]; simp; omega)]
      exact ⟨hd, hu⟩

theorem untouched_inv_run (calls : List Call) : untouched_inv (run calls Store.init) := by
  induction calls using List.reverseRecOn with
  | nil => exact ⟨fun _ _ => rfl, fun _ _ => rfl⟩
  | append_singleton xs c ih =>
    rw [run_snoc]
    exact untouched_inv_step c _ ih

/-- C23: in every store reached from the empty store by a sequence of `handle_frame`
calls both counts are at most 1000, and no element at an index of 1000 or more was
ever written: every write of a capture went to an index inside the 1000-entry
arrays. -/
theorem bounded_storage (calls : List Call) :
    (run calls Store.init).num_downlink_frames ≤ 1000 ∧
    (run calls Store.init).num_uplink_frames ≤ 1000 ∧
    (∀ i, 1000 ≤ i → (run calls Store.init).downlink_test_frames i = zero_downlink) ∧
    (∀ i, 1000 ≤ i → (run calls Store.init).uplink_test_frames i = zero_uplink) := by
  have hd := count_run .UAT_DOWNLINK calls
  have hu := count_run .UAT_UPLINK calls
  simp only [count, if_true, reduceCtorEq, if_false] at hd hu
  obtain ⟨h1, h2⟩ := untouched_inv_run calls
  exact ⟨by omega, by omega, fun i hi => h1 i (by omega), fun i hi => h2 i (by omega)⟩

theorem bounded_storage_witness :
    (run (List.replicate 1000 call_dl ++ [call_dl]) Store.init).num_downlink_frames ≤ 1000 ∧
    (1000 : Nat) ≤ 1000 ∧
    (run (List.replicate 1000 call_dl ++ [call_dl]) Store.init).downlink_test_frames 1000
      = zero_downlink :=
  have h := bounded_storage (List.replicate 1000 call_dl ++ [call_dl])
  ⟨h.1, Nat.le_refl _, h.2.2.1 1000 (Nat.le_refl _)⟩

/-! ## Field order -/

set_option maxRecDepth 100000 in
theorem downlink_declared :
    struct_members downlink_decl_lines
      = (downlink_values zero_downlink).map fun v => (v.1, []) := by
  decide

set_option maxRecDepth 100000 in
theorem uplink_declared :
    struct_members uplink_decl_lines
      = ((uplink_values zero_uplink).map fun v => (v.1, [])) ++
        [("info_frames", (slot_values zero_slot).map Prod.fst)] := by
  decide

theorem downlink_value_names (frame : uat_downlink_test_frame_t) :
    (downlink_values frame).map Prod.fst = (downlink_values zero_downlink).map Prod.fst := by
  simp [downlink_values]

theorem uplink_value_names (frame : uat_uplink_test_frame_t) :
    (uplink_values frame).map Prod.fst = (uplink_values zero_uplink).map Prod.fst := by
  simp [uplink_values]

theorem slot_value_names (t : info_frame_slot) :
    (slot_values t).map Prod.fst = (slot_values zero_slot).map Prod.fst := by
  simp [slot_values]

theorem render_rows_cons (k : Nat) (trailer : String) (rows : List (Nat × String))
    (vals : List (List Char)) :
    render_rows ((k, trailer) :: rows) vals
      = "        ".toList ++ ", ".toList.intercalate (vals.take k) ++ trailer.toList ++
        render_rows rows (vals.drop k) := rfl

set_option maxRecDepth 100000 in
set_option maxHeartbeats 1600000 in
theorem emit_downlink_frame_rows (frame : uat_downlink_test_frame_t) :
    emit_downlink_frame frame
      = "    \x7b\n".toList ++ "        // ".toList ++ str_or_null frame.test_name ++ "\n".toList ++
        render_rows downlink_rows ((downlink_values frame).map Prod.snd) ++ "    \x7d".toList := by
  simp [emit_downlink_frame, emit_downlink_head, emit_downlink_sv, emit_downlink_ms,
    emit_downlink_auxsv, sprintf, formatAux, convert, convert_prec, padLeft_zero,
    downlink_rows, downlink_values, render_rows, List.intercalate, List.intersperse, c_quote]

set_option maxRecDepth 100000 in
set_option maxHeartbeats 1600000 in
theorem emit_uplink_frame_rows (frame : uat_uplink_test_frame_t) :
    emit_uplink_frame frame
      = "    \x7b\n".toList ++ "        // ".toList ++ str_or_null frame.test_name ++ "\n".toList ++
        render_rows uplink_rows ((uplink_values frame).map Prod.snd) ++
        emit_info_frames frame ++ "    \x7d".toList := by
  simp [emit_uplink_frame, sprintf, formatAux, convert, convert_prec, padLeft_zero,
    uplink_rows, uplink_values, render_rows, List.intercalate, List.intersperse, c_quote]

theorem slot_values_snd (t : info_frame_slot) :
    (slot_values t).map Prod.snd = spec_slot_fields t := by
  simp [slot_values, spec_slot_fields]

/-- C22: the values emitted for an array element appear in the order of the fields of
the emitted structure declaration, one value per declared field: the members read
from the declaration text are the names of the fields the values are read from, in the
same order (downlink: 3 + 3 header, 24 SV, 17 MS and 3 AUXSV fields; uplink: 3 + 8
fields, then `info_frames` with its 15 fields per slot), and the element text is those
values laid out in that order. -/
theorem field_order (d : uat_downlink_test_frame_t) (u : uat_uplink_test_frame_t) :
    struct_members downlink_decl_lines = ((downlink_values d).map fun v => (v.1, [])) ∧
    emit_downlink_frame d
      = "    \x7b\n".toList ++ "        // ".toList ++ str_or_null d.test_name ++ "\n".toList ++
        render_rows downlink_rows ((downlink_values d).map Prod.snd) ++ "    \x7d".toList ∧
    (downlink_rows.map Prod.fst).sum = (downlink_values d).length ∧
    (downlink_values d).length = 3 + 3 + 24 + 17 + 3 ∧
    struct_members uplink_decl_lines
      = ((uplink_values u).map fun v => (v.1, [])) ++
        [("info_frames", (slot_values zero_slot).map Prod.fst)] ∧
    emit_uplink_frame u
      = "    \x7b\n".toList ++ "        // ".toList ++ str_or_null u.test_name ++ "\n".toList ++
        render_rows uplink_rows ((uplink_values u).map Prod.snd) ++
        emit_info_frames u ++ "    \x7d".toList ∧
    (uplink_rows.map Prod.fst).sum = (uplink_values u).length ∧
    emit_info_frames u
      = "        \x7b".toList ++
        ", ".toList.intercalate
          ((List.range 8).map fun j =>
            spec_slot_text ((slot_values (u.info_frames.getD j zero_slot)).map Prod.snd))
        ++ "\n        \x7d\n".toList ∧
    (∀ t : info_frame_slot,
      (slot_values t).map Prod.fst = (slot_values zero_slot).map Prod.fst ∧
      (slot_values t).length = 15) := by
  have hd : ((downlink_values d).map fun v => ((v.1, []) : String × List String))
      = (downlink_values zero_downlink).map fun v => (v.1, []) := by
    simp [downlink_values]
  have hu : ((uplink_values u).map fun v => ((v.1, []) : String × List String))
      = (uplink_values zero_uplink).map fun v => (v.1, []) := by
    simp [uplink_values]
  refine ⟨?_, emit_downlink_frame_rows d, ?_, ?_, ?_, emit_uplink_frame_rows u, ?_, ?_, ?_⟩
  · rw [hd]; exact downlink_declared
  · simp [downlink_rows, downlink_values]
  · simp [downlink_values]
  · rw [hu]; exact uplink_declared
  · simp [uplink_rows, uplink_values]
  · rw [emit_info_frames_eq]
    simp only [emitted_slots, List.map_map, slot_values_snd]
    rfl
  · intro t
    exact ⟨slot_value_names t, by simp [slot_values]⟩

/-! ## Flags and callsign -/

theorem takeWhile_length_lt (p : Char → Bool) (l : List Char) (h : ∃ x ∈ l, p x = false) :
    (l.takeWhile p).length < l.length := by
  induction l with
  | nil => simp at h
  | cons a l ih =>
    by_cases ha : p a
    · simp only [List.takeWhile_cons, ha, if_true, List.length_cons]
      obtain ⟨x, hx, hpx⟩ := h
      rcases List.mem_cons.mp hx with rfl | hx
      · simp [ha] at hpx
      · have := ih ⟨x, hx, hpx⟩
        omega
    · simp [List.takeWhile_cons, ha]

theorem takeWhile_take (p : Char → Bool) (l : List Char) (n : Nat)
    (h : ∃ x ∈ l.take n, p x = false) : (l.take n).takeWhile p = l.takeWhile p := by
  induction l generalizing n with
  | nil => simp
  | cons a l ih =>
    cases n with
    | zero => simp at h
    | succ n =>
      by_cases ha : p a
      · simp only [List.take_succ_cons, List.takeWhile_cons, ha, if_true]
        congr 1
        apply ih
        obtain ⟨x, hx, hpx⟩ := h
        rw [List.take_succ_cons] at hx
        rcases List.mem_cons.mp hx with rfl | hx
        · simp [ha] at hpx
        · exact ⟨x, hx, hpx⟩
      · simp [List.take_succ_cons, List.takeWhile_cons, ha]

theorem strncpy_length (src : List Char) (n : Nat) : (strncpy src n).length = n := by
  have h1 : ((src.take n).takeWhile (fun c => decide (c ≠ NUL))).length ≤ n :=
    le_trans ((List.takeWhile_sublist _).length_le) (by simp)
  simp only [strncpy, List.length_append, List.length_replicate]
  omega

theorem strncpy_terminated (src : List Char) (n : Nat) (h : NUL ∈ src.take n) :
    NUL ∈ strncpy src n ∧ (c_str (strncpy src n)).length < n ∧
      c_str (strncpy src n) = c_str src := by
  have hx : ∃ x ∈ src.take n, (fun c => decide (c ≠ NUL)) x = false := ⟨NUL, h, by simp⟩
  have hlt := takeWhile_length_lt _ _ hx
  have hn : (src.take n).length ≤ n := by simp
  refine ⟨?_, ?_, ?_⟩
  · unfold strncpy
    simp only [List.mem_append, List.mem_replicate, and_true]
    exact Or.inr (by omega)
  · rw [c_str_strncpy]
    unfold c_str
    omega
  · rw [c_str_strncpy]
    unfold c_str
    exact takeWhile_take _ _ _ hx

theorem entry_callsign (mdb : uat_adsb_mdb) (frame : List Nat) (len n : Nat)
    (h : mdb.has_ms ≠ 0) :
    (downlink_entry mdb frame len n).callsign = strncpy mdb.callsign 9 := by
  simp only [downlink_entry, h, ne_eq, not_false_eq_true, if_true]
  split_ifs <;> rfl

/-! ## Captures within the buffer bounds: truncation, gating, copies -/

theorem entry_frame_length (mdb : uat_adsb_mdb) (frame : List Nat) (len n : Nat) :
    (downlink_entry mdb frame len n).frame_length = len := by
  simp only [downlink_entry]
  split_ifs <;> rfl

theorem uplink_entry_frame_length (mdb : uat_uplink_mdb) (frame : List Nat) (len n : Nat) :
    (uplink_entry mdb frame len n).frame_length = len := rfl

/-- C5: for an uplink capture below capacity of a frame that fits the hex buffer
(`len <= 552`) with a decoder-reported count `n >= 0`, the stored `num_info_frames` is
`n` itself, the slot array has its 8 elements, slot `i` for `i < min n 8` carries the
length, type and `is_fisb` of the decoder's frame `i`, and every slot from `min n 8` on
is all zero; the stored length is within the 552 bytes the buffer holds. -/
theorem uplink_truncation (dec : Decoder) (frame : List Nat) (len : Nat) (s : Store)
    (hcap : s.num_uplink_frames < 1000) (hlen : len ≤ 552)
    (hn : 0 ≤ (dec.uat_decode_uplink_mdb frame).num_info_frames) :
    (captured_uplink dec frame len s).num_info_frames
        = (dec.uat_decode_uplink_mdb frame).num_info_frames ∧
      (captured_uplink dec frame len s).info_frames.length = 8 ∧
      (∀ i : Nat, (i : Int) < min (dec.uat_decode_uplink_mdb frame).num_info_frames 8 →
        ∃ slot, (captured_uplink dec frame len s).info_frames[i]? = some slot ∧
          slot.length = ((dec.uat_decode_uplink_mdb frame).info_frames i).length ∧
          slot.type = ((dec.uat_decode_uplink_mdb frame).info_frames i).type ∧
          slot.is_fisb = ((dec.uat_decode_uplink_mdb frame).info_frames i).is_fisb) ∧
      (∀ i : Nat, min (dec.uat_decode_uplink_mdb frame).num_info_frames 8 ≤ (i : Int) → i < 8 →
        (captured_uplink dec frame len s).info_frames[i]? = some zero_slot) ∧
      (captured_uplink dec frame len s).frame_length ≤ 552 := by
  unfold captured_uplink
  rw [handle_frame_uplink dec frame len s hcap]
  have hk : ((frames_to_copy (dec.uat_decode_uplink_mdb frame)).toNat : Int)
      = min (dec.uat_decode_uplink_mdb frame).num_info_frames 8 := by
    unfold frames_to_copy
    split_ifs <;> omega
  refine ⟨rfl, ?_, ?_, ?_, ?_⟩
  · simp only [uplink_entry, copy_info_frames, zero_uplink]
    rw [foldl_set_length]
    rfl
  · intro i hi
    have hi8 : i < 8 := by omega
    have hik : i < (frames_to_copy (dec.uat_decode_uplink_mdb frame)).toNat := by omega
    rw [uplink_entry_slots, if_pos hik, replicate8_get i hi8]
    exact ⟨_, rfl, copy_info_frame_head _ _⟩
  · intro i hi hi8
    have hik : ¬ i < (frames_to_copy (dec.uat_decode_uplink_mdb frame)).toNat := by omega
    rw [uplink_entry_slots, if_neg hik, replicate8_get i hi8]
  · rw [uplink_entry_frame_length]
    exact_mod_cast hlen

theorem uplink_truncation_witness :
    Store.init.num_uplink_frames < 1000 ∧ (2 : Nat) ≤ 552 ∧
    (0 : Int) ≤ ((Decoder.const adsb0 uplink11).uat_decode_uplink_mdb [1, 2]).num_info_frames ∧
    (captured_uplink (Decoder.const adsb0 uplink11) [1, 2] 2 Store.init).num_info_frames = 11 ∧
    (captured_uplink (Decoder.const adsb0 uplink11) [1, 2] 2 Store.init).info_frames.length = 8 ∧
    (∃ slot, (captured_uplink (Decoder.const adsb0 uplink11) [1, 2] 2 Store.init).info_frames[7]?
        = some slot ∧ slot.length = 8 ∧ slot.type = 27 ∧ slot.is_fisb = 0) :=
  have h := uplink_truncation (Decoder.const adsb0 uplink11) [1, 2] 2 Store.init
    (by decide) (by decide) (by decide)
  ⟨by decide, by decide, by decide, h.1, h.2.1, h.2.2.1 7 (by decide)⟩

/-- C6: a downlink capture below capacity of a frame that fits the hex buffer
(`len <= 48`) whose decoder output has `has_sv = 0` stores zero in every state-vector
field, whatever the decoder left in those fields and whatever the slot held before; the
stored length is within the 48 bytes the buffer holds. -/
theorem sv_gated (dec : Decoder) (frame : List Nat) (len : Nat) (s : Store)
    (hcap : s.num_downlink_frames < 1000) (hlen : len ≤ 48)
    (hsv : (dec.uat_decode_adsb_mdb frame).has_sv = 0) :
    sv_zero (captured_downlink dec frame len s) ∧
    (captured_downlink dec frame len s).frame_length ≤ 48 := by
  unfold captured_downlink
  rw [handle_frame_downlink dec frame len s hcap]
  refine ⟨entry_sv_zero _ _ _ _ hsv, ?_⟩
  rw [entry_frame_length]
  exact_mod_cast hlen

theorem sv_gated_witness :
    store_dirty.num_downlink_frames < 1000 ∧ (3 : Nat) ≤ 48 ∧
    ((Decoder.const adsb_stale_sv uplink0).uat_decode_adsb_mdb [1, 2, 3]).has_sv = 0 ∧
    sv_zero (captured_downlink (Decoder.const adsb_stale_sv uplink0) [1, 2, 3] 3 store_dirty) :=
  ⟨by decide, by decide, rfl,
    (sv_gated (Decoder.const adsb_stale_sv uplink0) [1, 2, 3] 3 store_dirty
      (by decide) (by decide) rfl).1⟩

theorem flag_stored_zero (v : Int) (h : is_flag v) :
    (v % 256 = 0 → v = 0) ∧ (v % 2 = 0 → v = 0) := by
  rcases h with h | h | h <;> subst h <;> decide

/-- C7: for every downlink entry stored by `handle_frame` from a frame that fits the hex
buffer (`len <= 48`) and a decoder output whose three presence flags are Boolean flags,
and for each of the three sub-records: when the stored presence flag is 0, all stored
fields of that sub-record are zero (the callsign is the empty string). -/
theorem flag_invariant_holds (dec : Decoder) (frame : List Nat) (len : Nat) (s : Store)
    (hcap : s.num_downlink_frames < 1000) (hlen : len ≤ 48)
    (hsv : is_flag (dec.uat_decode_adsb_mdb frame).has_sv)
    (hms : is_flag (dec.uat_decode_adsb_mdb frame).has_ms)
    (haux : is_flag (dec.uat_decode_adsb_mdb frame).has_auxsv) :
    flag_invariant (captured_downlink dec frame len s) ∧
    (captured_downlink dec frame len s).frame_length ≤ 48 := by
  unfold captured_downlink
  rw [handle_frame_downlink dec frame len s hcap]
  obtain ⟨h1, h2, h3⟩ := entry_flags (dec.uat_decode_adsb_mdb frame) frame len s.num_downlink_frames
  refine ⟨⟨fun h0 => ?_, fun h0 => ?_, fun h0 => ?_⟩, ?_⟩
  · exact entry_sv_zero _ _ _ _ ((flag_stored_zero _ hsv).1 (h1 ▸ h0))
  · exact entry_ms_zero _ _ _ _ ((flag_stored_zero _ hms).2 (h2 ▸ h0))
  · exact entry_auxsv_zero _ _ _ _ ((flag_stored_zero _ haux).2 (h3 ▸ h0))
  · rw [entry_frame_length]
    exact_mod_cast hlen

theorem flag_invariant_holds_witness :
    Store.init.num_downlink_frames < 1000 ∧ (3 : Nat) ≤ 48 ∧
    is_flag ((Decoder.const adsb_stale_sv uplink0).uat_decode_adsb_mdb [1, 2, 3]).has_sv ∧
    is_flag ((Decoder.const adsb_stale_sv uplink0).uat_decode_adsb_mdb [1, 2, 3]).has_ms ∧
    is_flag ((Decoder.const adsb_stale_sv uplink0).uat_decode_adsb_mdb [1, 2, 3]).has_auxsv ∧
    (captured_downlink (Decoder.const adsb_stale_sv uplink0) [1, 2, 3] 3 Store.init).has_sv = 0 ∧
    flag_invariant
      (captured_downlink (Decoder.const adsb_stale_sv uplink0) [1, 2, 3] 3 Store.init) ∧
    (captured_downlink (Decoder.const adsb_signed uplink0) [1, 2, 3] 3 Store.init).has_ms = 1 ∧
    flag_invariant
      (captured_downlink (Decoder.const adsb_signed uplink0) [1, 2, 3] 3 Store.init) :=
  ⟨by decide, by decide, by decide, by decide, by decide, by decide,
    (flag_invariant_holds (Decoder.const adsb_stale_sv uplink0) [1, 2, 3] 3 Store.init
      (by decide) (by decide) (by decide) (by decide) (by decide)).1,
    by decide,
    (flag_invariant_holds (Decoder.const adsb_signed uplink0) [1, 2, 3] 3 Store.init
      (by decide) (by decide) (by decide) (by decide) (by decide)).1⟩

/-- C20: for an uplink capture below capacity of a frame that fits the hex buffer
(`len <= 552`) and every materialized slot `i < min n 8`, the stored slot has all twelve
`fisb_*` fields zero when the decoder's `is_fisb` for frame `i` is 0, and equal to the
fields of the decoder's FIS-B product record for frame `i` when it is not; the stored
length is within the 552 bytes the buffer holds. -/
theorem fisb_gated (dec : Decoder) (frame : List Nat) (len : Nat) (s : Store)
    (hcap : s.num_uplink_frames < 1000) (hlen : len ≤ 552) (i : Nat)
    (hi : (i : Int) < min (dec.uat_decode_uplink_mdb frame).num_info_frames 8) :
    (∃ slot, (captured_uplink dec frame len s).info_frames[i]? = some slot ∧
      (((dec.uat_decode_uplink_mdb frame).info_frames i).is_fisb = 0 → fisb_zero slot) ∧
      (((dec.uat_decode_uplink_mdb frame).info_frames i).is_fisb ≠ 0 →
        fisb_copied ((dec.uat_decode_uplink_mdb frame).info_frames i).fisb slot)) ∧
    (captured_uplink dec frame len s).frame_length ≤ 552 := by
  unfold captured_uplink
  rw [handle_frame_uplink dec frame len s hcap]
  have hk : ((frames_to_copy (dec.uat_decode_uplink_mdb frame)).toNat : Int)
      = max 0 (min (dec.uat_decode_uplink_mdb frame).num_info_frames 8) := by
    unfold frames_to_copy
    split_ifs <;> omega
  have hi8 : i < 8 := by omega
  have hik : i < (frames_to_copy (dec.uat_decode_uplink_mdb frame)).toNat := by omega
  rw [uplink_entry_slots, if_pos hik, replicate8_get i hi8]
  refine ⟨⟨_, rfl, copy_info_frame_fisb _⟩, ?_⟩
  rw [uplink_entry_frame_length]
  exact_mod_cast hlen

theorem fisb_gated_witness :
    Store.init.num_uplink_frames < 1000 ∧ (2 : Nat) ≤ 552 ∧
    ((1 : Nat) : Int) < min ((Decoder.const adsb0 uplink_fisb).uat_decode_uplink_mdb
      [1, 2]).num_info_frames 8 ∧
    (∃ slot, (captured_uplink (Decoder.const adsb0 uplink_fisb) [1, 2] 2
        Store.init).info_frames[0]? = some slot ∧ slot.fisb_product_id = 413 ∧
        slot.fisb_hours = 12) ∧
    (∃ slot, (captured_uplink (Decoder.const adsb0 uplink_fisb) [1, 2] 2
        Store.init).info_frames[1]? = some slot ∧ fisb_zero slot) :=
  have h0 := (fisb_gated (Decoder.const adsb0 uplink_fisb) [1, 2] 2 Store.init (by decide)
    (by decide) 0 (by decide)).1
  have h1 := (fisb_gated (Decoder.const adsb0 uplink_fisb) [1, 2] 2 Store.init (by decide)
    (by decide) 1 (by decide)).1
  ⟨by decide, by decide, by decide,
    h0.elim fun slot h => ⟨slot, h.1, ((h.2.2 (by decide)).1).trans (by decide),
      ((h.2.2 (by decide)).2.2.2.2.2.1).trans (by decide)⟩,
    h1.elim fun slot h => ⟨slot, h.1, h.2.1 (by decide)⟩⟩

theorem entries_fit_step (c : Call) (s : Store) (hc : c.fits) (hs : entries_fit s) :
    entries_fit (handle_frame c.dec c.type c.frame c.len s) := by
  obtain ⟨hd, hu⟩ := hs
  obtain ⟨c1, c2⟩ := hc
  cases ht : c.type with
  | UAT_DOWNLINK =>
    by_cases hlt : s.num_downlink_frames < 1000
    · rw [handle_frame_downlink_store _ _ _ _ hlt]
      refine ⟨fun i hi => ?_, hu⟩
      dsimp only at hi ⊢
      by_cases hin : i = s.num_downlink_frames
      · subst hin
        rw [Function.update_same]
        exact ⟨_, _, _, c1 ht, rfl⟩
      · rw [Function.update_noteq hin]
        exact hd i (by omega)
    · rw [handle_frame_full _ _ _ _ _ (by simp only [count]; simp; omega)]
      exact ⟨hd, hu⟩
  | UAT_UPLINK =>
    by_cases hlt : s.num_uplink_frames < 1000
    · rw [handle_frame_uplink_store _ _ _ _ hlt]
      refine ⟨hd, fun i hi => ?_⟩
      dsimp only at hi ⊢
      by_cases hin : i = s.num_uplink_frames
      · subst hin
        rw [Function.update_same]
        exact ⟨_, _, _, c2 ht, rfl⟩
      · rw [Function.update_noteq hin]
        exact hu i (by omega)
    · rw [handle_frame_full _ _ _ _ _ (by simp only [count]; simp; omega)]
      exact ⟨hd, hu⟩

theorem entries_fit_run (calls : List Call) (h : ∀ c ∈ calls, c.fits) :
    entries_fit (run calls Store.init) := by
  revert h
  induction calls using List.reverseRecOn with
  | nil =>
    intro _
    exact ⟨fun i hi => absurd hi (Nat.not_lt_zero i), fun i hi => absurd hi (Nat.not_lt_zero i)⟩
  | append_singleton xs c ih =>
    intro h
    rw [run_snoc]
    exact entries_fit_step c _ (h c (by simp)) (ih fun d hd => h d (by simp [hd]))

/-- C14: for every uplink entry stored by a sequence of `handle_frame` calls whose
frames fit the hex buffers, `output_uplink_data` emits the information-frame sub-array
as exactly 8 slots of 15 integer fields each, whatever `num_info_frames` is, and every
slot at an index from `min num_info_frames 8` on is emitted as fifteen zeros; the stored
length of the entry is within the 552 bytes its buffer holds. -/
theorem info_frames_emitted (calls : List Call) (i : Nat) (hfit : ∀ c ∈ calls, c.fits)
    (hi : i < (run calls Store.init).num_uplink_frames) :
    (∃ head, emit_uplink_frame ((run calls Store.init).uplink_test_frames i)
      = head ++ emit_info_frames ((run calls Store.init).uplink_test_frames i)
        ++ "    \x7d".toList) ∧
    emit_info_frames ((run calls Store.init).uplink_test_frames i)
      = "        \x7b".toList ++
        ", ".toList.intercalate
          ((emitted_slots ((run calls Store.init).uplink_test_frames i)).map spec_slot_text)
        ++ "\n        \x7d\n".toList ∧
    (emitted_slots ((run calls Store.init).uplink_test_frames i)).length = 8 ∧
    (∀ fs ∈ emitted_slots ((run calls Store.init).uplink_test_frames i), fs.length = 15) ∧
    (∀ j : Nat, j < 8 →
      min ((run calls Store.init).uplink_test_frames i).num_info_frames 8 ≤ (j : Int) →
      (emitted_slots ((run calls Store.init).uplink_test_frames i))[j]?
        = some (List.replicate 15 0)) ∧
    ((run calls Store.init).uplink_test_frames i).frame_length ≤ 552 := by
  obtain ⟨mdb, frame, len, hl, he⟩ := (entries_fit_run calls hfit).2 i hi
  refine ⟨emit_uplink_frame_split _, emit_info_frames_eq _, ?_, ?_, ?_, ?_⟩
  · simp [emitted_slots]
  · intro fs hfs
    simp only [emitted_slots, List.mem_map] at hfs
    obtain ⟨j, _, rfl⟩ := hfs
    rfl
  · intro j hj hmin
    rw [he] at hmin ⊢
    have hn : (uplink_entry mdb frame len i).num_info_frames = mdb.num_info_frames := rfl
    rw [hn] at hmin
    simp only [emitted_slots, List.getElem?_map, List.getElem?_range hj, Option.map_some']
    rw [uplink_entry_slot_zero mdb frame len i j hmin]
    rfl
  · rw [he, uplink_entry_frame_length]
    exact_mod_cast hl

set_option maxRecDepth 100000 in
theorem info_frames_emitted_witness :
    (∀ c ∈ [(⟨Decoder.const adsb0 uplink_fisb, .UAT_UPLINK, [1, 2], 2⟩ : Call)], c.fits) ∧
    0 < store_fisb.num_uplink_frames ∧
    emit_info_frames (store_fisb.uplink_test_frames 0)
      = ("        \x7b" ++
         "\n            \x7b10, 1, 1, 413, 1, 0, 1, 0, 12, 30, 15, 1, 6, 21, 1\x7d, " ++
         "\n            \x7b5, 2, 0, 0, 0, 0, 0, 0, 0, 0, 0, 0, 0, 0, 0\x7d, " ++
         "\n            \x7b0, 0, 0, 0, 0, 0, 0, 0, 0, 0, 0, 0, 0, 0, 0\x7d, " ++
         "\n            \x7b0, 0, 0, 0, 0, 0, 0, 0, 0, 0, 0, 0, 0, 0, 0\x7d, " ++
         "\n            \x7b0, 0, 0, 0, 0, 0, 0, 0, 0, 0, 0, 0, 0, 0, 0\x7d, " ++
         "\n            \x7b0, 0, 0, 0, 0, 0, 0, 0, 0, 0, 0, 0, 0, 0, 0\x7d, " ++
         "\n            \x7b0, 0, 0, 0, 0, 0, 0, 0, 0, 0, 0, 0, 0, 0, 0\x7d, " ++
         "\n            \x7b0, 0, 0, 0, 0, 0, 0, 0, 0, 0, 0, 0, 0, 0, 0\x7d" ++
         "\n        \x7d\n").toList ∧
    (emitted_slots (store_fisb.uplink_test_frames 0)).length = 8 ∧
    (emitted_slots (store_fisb.uplink_test_frames 0))[2]? = some (List.replicate 15 0) :=
  have hf : ∀ c ∈ [(⟨Decoder.const adsb0 uplink_fisb, .UAT_UPLINK, [1, 2], 2⟩ : Call)],
      c.fits := by
    intro c hc
    rw [List.mem_singleton] at hc
    subst hc
    decide
  have h := info_frames_emitted [⟨Decoder.const adsb0 uplink_fisb, .UAT_UPLINK, [1, 2], 2⟩] 0
    hf (by decide)
  ⟨hf, by decide, h.2.1.trans (by decide), h.2.2.1, h.2.2.2.2.1 2 (by decide) (by decide)⟩

/-! ## The flag without a bit width, and the callsign -/

set_option exponentiation.threshold 2000 in
set_option maxRecDepth 100000 in
theorem emit_sv_signed :
    emit_downlink_sv
        (captured_downlink (Decoder.const adsb_signed uplink0) [1, 2, 3] 3 Store.init)
      = ("        255, 8, 1, 0.000000, 0.000000, 1, 3500, 0,  // SV: has_sv, nic, position_valid, lat, lon, altitude_type, altitude, airground_state\n" ++
         "        0, 0, 0, 0, 1, 270, 1, 120,  // SV: ns_vel_valid, ns_vel, ew_vel_valid, ew_vel, track_type, track, speed_valid, speed\n" ++
         "        0, 0, 0, 0.0, 0.0, 0, 0, 0,  // SV: vert_rate_source, vert_rate, dimensions_valid, length, width, position_offset, utc_coupled, tisb_site_id\n").toList := by
  decide

/-- C24 fails on the code: `has_sv` alone of the fifteen flags is declared without the
bit width `: 1` of its sibling flags (line 22 against lines 24, 48 and 67).  For a
decoder output whose set flags read -1, `has_ms`, `has_auxsv` and the validity flags are
stored and emitted as 1, while `has_sv` is stored as 255 and emitted as `255`. -/
theorem has_sv_stored_as_255 :
    Store.init.num_downlink_frames < 1000 ∧ mdb_typed is_flag adsb_signed ∧
    (captured_downlink (Decoder.const adsb_signed uplink0) [1, 2, 3] 3 Store.init).has_sv
      = 255 ∧
    (captured_downlink (Decoder.const adsb_signed uplink0) [1, 2, 3] 3 Store.init).has_ms
      = 1 ∧
    (captured_downlink (Decoder.const adsb_signed uplink0) [1, 2, 3] 3 Store.init).has_auxsv
      = 1 ∧
    bit_flags_01
      (captured_downlink (Decoder.const adsb_signed uplink0) [1, 2, 3] 3 Store.init) ∧
    ¬ all_flags_01
      (captured_downlink (Decoder.const adsb_signed uplink0) [1, 2, 3] 3 Store.init) ∧
    emit_downlink_sv
        (captured_downlink (Decoder.const adsb_signed uplink0) [1, 2, 3] 3 Store.init)
      = ("        255, 8, 1, 0.000000, 0.000000, 1, 3500, 0,  // SV: has_sv, nic, position_valid, lat, lon, altitude_type, altitude, airground_state\n" ++
         "        0, 0, 0, 0, 1, 270, 1, 120,  // SV: ns_vel_valid, ns_vel, ew_vel_valid, ew_vel, track_type, track, speed_valid, speed\n" ++
         "        0, 0, 0, 0.0, 0.0, 0, 0, 0,  // SV: vert_rate_source, vert_rate, dimensions_valid, length, width, position_offset, utc_coupled, tisb_site_id\n").toList := by
  have h : (captured_downlink (Decoder.const adsb_signed uplink0) [1, 2, 3] 3
      Store.init).has_sv = 255 := by decide
  refine ⟨by decide, by decide, h, by decide, by decide, ?_, ?_, emit_sv_signed⟩
  · exact ⟨by decide, by decide, by decide, by decide, by decide, by decide, by decide,
      by decide, by decide, by decide, by decide, by decide, by decide, by decide⟩
  · intro hall
    have h1 := hall.1
    rw [h] at h1
    exact absurd h1 (by decide)

/-- C25: for a downlink capture below capacity of a frame that fits the hex buffer
(`len <= 48`) and a decoder output whose callsign array holds its terminator among its
9 bytes: the stored callsign field has 9 bytes; with `has_ms` set it is NUL-terminated
with at most 8 characters before the terminator and equals the decoder's callsign up to
its first NUL, which is the text emitted between the quotes; with `has_ms` clear it is
all NUL, the empty string. -/
theorem callsign_stored (dec : Decoder) (frame : List Nat) (len : Nat) (s : Store)
    (hcap : s.num_downlink_frames < 1000) (hlen : len ≤ 48)
    (hcs : callsign_typed (dec.uat_decode_adsb_mdb frame)) :
    (captured_downlink dec frame len s).callsign.length = 9 ∧
    ((dec.uat_decode_adsb_mdb frame).has_ms ≠ 0 →
        callsign_terminated (captured_downlink dec frame len s) ∧
        c_str (captured_downlink dec frame len s).callsign
          = c_str (dec.uat_decode_adsb_mdb frame).callsign ∧
        ("callsign", c_quote (c_str (dec.uat_decode_adsb_mdb frame).callsign))
          ∈ downlink_values (captured_downlink dec frame len s)) ∧
    ((dec.uat_decode_adsb_mdb frame).has_ms = 0 →
      (captured_downlink dec frame len s).callsign = List.replicate 9 NUL ∧
      c_str (captured_downlink dec frame len s).callsign = []) ∧
    (captured_downlink dec frame len s).frame_length ≤ 48 := by
  unfold captured_downlink
  rw [handle_frame_downlink dec frame len s hcap]
  refine ⟨?_, fun hms => ?_, fun hms => ?_, ?_⟩
  · by_cases hms : (dec.uat_decode_adsb_mdb frame).has_ms = 0
    · rw [(entry_ms_zero _ frame len s.num_downlink_frames hms).2.1]
      rfl
    · rw [entry_callsign _ frame len s.num_downlink_frames hms]
      exact strncpy_length _ _
  · have ht := strncpy_terminated _ 9 hcs
    have hc := entry_callsign _ frame len s.num_downlink_frames hms
    refine ⟨⟨?_, ?_, ?_⟩, ?_, ?_⟩
    · rw [hc]
      exact strncpy_length _ _
    · rw [hc]
      exact ht.1
    · rw [hc]
      exact Nat.lt_succ_iff.mp ht.2.1
    · rw [hc]
      exact ht.2.2
    · simp only [downlink_values, hc, ht.2.2]
      simp
  · have hz := (entry_ms_zero _ frame len s.num_downlink_frames hms).2.1
    rw [hz]
    exact ⟨rfl, by decide⟩
  · rw [entry_frame_length]
    exact_mod_cast hlen

theorem callsign_stored_witness :
    Store.init.num_downlink_frames < 1000 ∧ (3 : Nat) ≤ 48 ∧
    callsign_typed ((Decoder.const adsb_full uplink0).uat_decode_adsb_mdb [1, 2, 3]) ∧
    adsb_full.has_ms ≠ 0 ∧
    callsign_terminated
      (captured_downlink (Decoder.const adsb_full uplink0) [1, 2, 3] 3 Store.init) ∧
    c_str (captured_downlink (Decoder.const adsb_full uplink0) [1, 2, 3] 3 Store.init).callsign
      = "N123AB".toList :=
  have h := callsign_stored (Decoder.const adsb_full uplink0) [1, 2, 3] 3 Store.init
    (by decide) (by decide) (by decide)
  have h2 := h.2.1 (by decide)
  ⟨by decide, by decide, by decide, by decide, h2.1, h2.2.1.trans (by decide)⟩

/-! ## End to end: the scenario -/

/-- C11: capturing, from the empty store, one downlink frame that fits the hex buffer
(`len <= 48`) decoded as `mdb_type = 0`, `address = 0xABCDEF`, `has_sv` true (any
non-zero value), latitude 40.0, longitude -80.0, `has_ms` and `has_auxsv` false gives
exactly one stored downlink entry, named `Downlink_MDB0_AddrABCDEF_0`; it is the one
element of the emitted array, its MS and AUXSV lines hold only zeros (and the empty
callsign), and its first SV line prints the latitude and longitude as `40.000000` and
`-80.000000`. -/
theorem end_to_end (dec : Decoder) (frame : List Nat) (len : Nat) (hlen : len ≤ 48)
    (h1 : (dec.uat_decode_adsb_mdb frame).mdb_type = 0)
    (h2 : (dec.uat_decode_adsb_mdb frame).address = 0xABCDEF)
    (h3 : (dec.uat_decode_adsb_mdb frame).has_sv ≠ 0)
    (h4 : (dec.uat_decode_adsb_mdb frame).lat = ⟨0x4044000000000000⟩)
    (h5 : (dec.uat_decode_adsb_mdb frame).lon = ⟨0xC054000000000000⟩)
    (h6 : (dec.uat_decode_adsb_mdb frame).has_ms = 0)
    (h7 : (dec.uat_decode_adsb_mdb frame).has_auxsv = 0) :
    (handle_frame dec .UAT_DOWNLINK frame len Store.init).num_downlink_frames = 1 ∧
    (handle_frame dec .UAT_DOWNLINK frame len Store.init).num_uplink_frames = 0 ∧
    (captured_downlink dec frame len Store.init).test_name
      = some "Downlink_MDB0_AddrABCDEF_0".toList ∧
    downlink_elements (handle_frame dec .UAT_DOWNLINK frame len Store.init)
      = [emit_downlink_frame (captured_downlink dec frame len Store.init)] ∧
    ms_zero (captured_downlink dec frame len Store.init) ∧
    auxsv_zero (captured_downlink dec frame len Store.init) ∧
    emit_downlink_ms (captured_downlink dec frame len Store.init)
      = ("        0, 0, \"\", 0, 0, 0, 0, 0,  // MS: has_ms, emitter_category, callsign, callsign_type, emergency_status, uat_version, sil, transmit_mso\n" ++
         "        0, 0, 0, 0, 0, 0, 0, 0, 0,  // MS: nac_p, nac_v, nic_baro, has_cdti, has_acas, acas_ra_active, ident_active, atc_services, heading_type\n").toList ∧
    emit_downlink_auxsv (captured_downlink dec frame len Store.init)
      = "        0, 0, 0  // AUXSV: has_auxsv, sec_altitude_type, sec_altitude\n".toList ∧
    (captured_downlink dec frame len Store.init).frame_length ≤ 48 ∧
    ∃ rest, emit_downlink_sv (captured_downlink dec frame len Store.init)
      = "        ".toList ++ fmt_d ((dec.uat_decode_adsb_mdb frame).has_sv % 256) ++
        ", ".toList ++ fmt_d (dec.uat_decode_adsb_mdb frame).nic ++ ", ".toList ++
        fmt_d ((dec.uat_decode_adsb_mdb frame).position_valid % 2) ++
        ", 40.000000, -80.000000, ".toList ++
        fmt_d (dec.uat_decode_adsb_mdb frame).altitude_type ++ ", ".toList ++
        fmt_d (dec.uat_decode_adsb_mdb frame).altitude ++ ", ".toList ++
        fmt_d (dec.uat_decode_adsb_mdb frame).airground_state ++
        ",  // SV: has_sv, nic, position_valid, lat, lon, altitude_type, altitude, airground_state\n".toList
        ++ rest := by
  have hcap : Store.init.num_downlink_frames < 1000 := by decide
  have hst := handle_frame_downlink_store dec frame len Store.init hcap
  have hent : captured_downlink dec frame len Store.init
      = downlink_entry (dec.uat_decode_adsb_mdb frame) frame len 0 :=
    handle_frame_downlink dec frame len Store.init hcap
  obtain ⟨f1, f2, f3⟩ := entry_flags (dec.uat_decode_adsb_mdb frame) frame len 0
  obtain ⟨l1, l2⟩ := entry_sv_present (dec.uat_decode_adsb_mdb frame) frame len 0 h3
  have hc := entry_sv_copied (dec.uat_decode_adsb_mdb frame) frame len 0 h3
  refine ⟨by rw [hst]; rfl, by rw [hst]; rfl, ?_, ?_, ?_, ?_, ?_, ?_, ?_, ?_⟩
  · rw [hent, entry_test_name, h1, h2]
    decide
  · unfold downlink_elements captured_downlink
    rw [hst]
    rfl
  · rw [hent]; exact entry_ms_zero _ _ _ _ h6
  · rw [hent]; exact entry_auxsv_zero _ _ _ _ h7
  · rw [hent]
    exact emit_ms_zero _ (by rw [f2, h6]; rfl) (entry_ms_zero _ _ _ _ h6)
  · rw [hent]
    exact emit_auxsv_zero _ (by rw [f3, h7]; rfl) (entry_auxsv_zero _ _ _ _ h7)
  · rw [hent, entry_frame_length]
    exact_mod_cast hlen
  · rw [hent]
    obtain ⟨rest, hr⟩ := emit_sv_first_line
      (downlink_entry (dec.uat_decode_adsb_mdb frame) frame len 0)
      (by rw [l1, h4]) (by rw [l2, h5])
    refine ⟨rest, ?_⟩
    rw [hr, f1, hc.1, hc.2.1, hc.2.2.2.2.1, hc.2.2.2.2.2.1, hc.2.2.2.2.2.2.1]

set_option exponentiation.threshold 2000 in
set_option maxRecDepth 100000 in
theorem end_to_end_witness :
    (18 : Nat) ≤ 48 ∧
    ((Decoder.const adsb_e2e uplink0).uat_decode_adsb_mdb frame_e2e).mdb_type = 0 ∧
    ((Decoder.const adsb_e2e uplink0).uat_decode_adsb_mdb frame_e2e).address = 0xABCDEF ∧
    ((Decoder.const adsb_e2e uplink0).uat_decode_adsb_mdb frame_e2e).has_sv ≠ 0 ∧
    ((Decoder.const adsb_e2e uplink0).uat_decode_adsb_mdb frame_e2e).lat
      = ⟨0x4044000000000000⟩ ∧
    ((Decoder.const adsb_e2e uplink0).uat_decode_adsb_mdb frame_e2e).lon
      = ⟨0xC054000000000000⟩ ∧
    ((Decoder.const adsb_e2e uplink0).uat_decode_adsb_mdb frame_e2e).has_ms = 0 ∧
    ((Decoder.const adsb_e2e uplink0).uat_decode_adsb_mdb frame_e2e).has_auxsv = 0 ∧
    (handle_frame (Decoder.const adsb_e2e uplink0) .UAT_DOWNLINK frame_e2e 18
      Store.init).num_downlink_frames = 1 ∧
    (captured_downlink (Decoder.const adsb_e2e uplink0) frame_e2e 18 Store.init).test_name
      = some "Downlink_MDB0_AddrABCDEF_0".toList ∧
    output_downlink_data
        (handle_frame (Decoder.const adsb_e2e uplink0) .UAT_DOWNLINK frame_e2e 18 Store.init)
      = "// Downlink test frame data array\n".toList ++
        "static const uat_downlink_test_frame_t uat_downlink_test_frames[] = \x7b\n".toList ++
        ("    \x7b\n" ++
         "        // Downlink_MDB0_AddrABCDEF_0\n" ++
         "        \"00abcdef0000000000000000000000000000\",  // frame_data_hex\n" ++
         "        18,  // frame_length\n" ++
         "        \"Downlink_MDB0_AddrABCDEF_0\",  // test_name\n" ++
         "        0, 0, 11259375,  // HDR: mdb_type, address_qualifier, address\n").toList ++
        ("        1, 0, 1, 40.000000, -80.000000, 0, 0, 0,  // SV: has_sv, nic, position_valid, lat, lon, altitude_type, altitude, airground_state\n" ++
         "        0, 0, 0, 0, 0, 0, 0, 0,  // SV: ns_vel_valid, ns_vel, ew_vel_valid, ew_vel, track_type, track, speed_valid, speed\n" ++
         "        0, 0, 0, 0.0, 0.0, 0, 0, 0,  // SV: vert_rate_source, vert_rate, dimensions_valid, length, width, position_offset, utc_coupled, tisb_site_id\n").toList ++
        ("        0, 0, \"\", 0, 0, 0, 0, 0,  // MS: has_ms, emitter_category, callsign, callsign_type, emergency_status, uat_version, sil, transmit_mso\n" ++
         "        0, 0, 0, 0, 0, 0, 0, 0, 0,  // MS: nac_p, nac_v, nic_baro, has_cdti, has_acas, acas_ra_active, ident_active, atc_services, heading_type\n").toList ++
        ("        0, 0, 0  // AUXSV: has_auxsv, sec_altitude_type, sec_altitude\n").toList ++
        "    \x7d".toList ++ "\n".toList ++ "\x7d;\n\n".toList ++
        "static const int uat_downlink_test_frames_count = 1;\n\n".toList :=
  have h := end_to_end (Decoder.const adsb_e2e uplink0) frame_e2e 18 (by decide) rfl rfl
    (by decide) rfl rfl rfl rfl
  have g1 : emit_downlink_head
      (captured_downlink (Decoder.const adsb_e2e uplink0) frame_e2e 18 Store.init)
      = ("    \x7b\n" ++
         "        // Downlink_MDB0_AddrABCDEF_0\n" ++
         "        \"00abcdef0000000000000000000000000000\",  // frame_data_hex\n" ++
         "        18,  // frame_length\n" ++
         "        \"Downlink_MDB0_AddrABCDEF_0\",  // test_name\n" ++
         "        0, 0, 11259375,  // HDR: mdb_type, address_qualifier, address\n").toList := by decide
  have g2 : emit_downlink_sv
      (captured_downlink (Decoder.const adsb_e2e uplink0) frame_e2e 18 Store.init)
      = ("        1, 0, 1, 40.000000, -80.000000, 0, 0, 0,  // SV: has_sv, nic, position_valid, lat, lon, altitude_type, altitude, airground_state\n" ++
         "        0, 0, 0, 0, 0, 0, 0, 0,  // SV: ns_vel_valid, ns_vel, ew_vel_valid, ew_vel, track_type, track, speed_valid, speed\n" ++
         "        0, 0, 0, 0.0, 0.0, 0, 0, 0,  // SV: vert_rate_source, vert_rate, dimensions_valid, length, width, position_offset, utc_coupled, tisb_site_id\n").toList := by decide
  have g5 : sprintf "    \x7d" [] = "    \x7d".toList := by decide
  ⟨by decide, rfl, rfl, by decide, rfl, rfl, rfl, rfl, h.1, h.2.2.1, by
    rw [output_downlink_data_one _ h.1]
    change _ ++ _ ++ emit_downlink_frame
      (captured_downlink (Decoder.const adsb_e2e uplink0) frame_e2e 18 Store.init) ++ _ ++ _ ++ _
      = _
    rw [emit_downlink_frame, g1, g2, h.2.2.2.2.2.2.1, h.2.2.2.2.2.2.2.1, g5]
    simp only [List.append_assoc]⟩

/-! ## The emitted accessors: proofs -/

theorem scan_step_toks (st : Scan) (c : Char) (T : List Tok) :
    scan_step { st with toks := st.toks ++ T } c
      = { scan_step st c with toks := (scan_step st c).toks ++ T } := by
  obtain ⟨toks, word, slash, comment⟩ := st
  cases word <;> cases slash <;> cases comment <;>
    simp only [scan_step, Scan.flush, List.isEmpty_nil, List.isEmpty_cons, if_true, if_false,
      Bool.false_eq_true] <;>
    split_ifs <;> simp

theorem scan_toks (l : List Char) (st : Scan) (T : List Tok) :
    l.foldl scan_step { st with toks := st.toks ++ T }
      = { l.foldl scan_step st with toks := (l.foldl scan_step st).toks ++ T } := by
  induction l generalizing st with
  | nil => rfl
  | cons c l ih =>
    simp only [List.foldl_cons]
    rw [scan_step_toks, ih]

theorem scan_chunk (l : List Char) (R T : List Tok)
    (h : l.foldl scan_step ⟨[], [], false, false⟩ = ⟨R, [], false, false⟩) :
    l.foldl scan_step ⟨T, [], false, false⟩ = ⟨R ++ T, [], false, false⟩ := by
  have e := scan_toks l ⟨[], [], false, false⟩ T
  simp only [List.nil_append] at e
  rw [e, h]

theorem scan_word (ds : List Char) (st : Scan) (hc : st.comment = false)
    (hs : st.slash = false) (hd : ∀ c ∈ ds, is_ident_char c = true ∧ c ≠ '/') :
    ds.foldl scan_step st = { st with word := ds.reverse ++ st.word } := by
  induction ds generalizing st with
  | nil => rfl
  | cons c ds ih =>
    have h1 := hd c (by simp)
    have e : scan_step st c = { st with word := c :: st.word } := by
      simp [scan_step, hc, hs, h1.1, h1.2]
    rw [List.foldl_cons, e, ih { st with word := c :: st.word } hc hs
      (fun d hd1 => hd d (by simp [hd1]))]
    simp

theorem digitChar_word : ∀ k, k < 10 →
    (is_ident_char (Nat.digitChar k) = true ∧ Nat.digitChar k ≠ '/') ∧
      (Nat.digitChar k).isDigit = true := by
  decide

theorem toDigitsCore_forall (P : Char → Prop) (hP : ∀ k, k < 10 → P (Nat.digitChar k))
    (f n : Nat) : ∀ c ∈ Nat.toDigitsCore 10 f n [], P c := by
  induction f generalizing n with
  | zero => simp [Nat.toDigitsCore]
  | succ f ih =>
    have hd := hP (n % 10) (Nat.mod_lt _ (by decide))
    simp only [Nat.toDigitsCore]
    split_ifs with h0
    · intro c hc
      rw [List.mem_singleton] at hc
      rw [hc]; exact hd
    · rw [toDigitsCore_acc]
      intro c hc
      rcases List.mem_append.1 hc with h | h
      · exact ih _ c h
      · rw [List.mem_singleton] at h
        rw [h]; exact hd

theorem toDigits_ne_nil (n : Nat) : Nat.toDigits 10 n ≠ [] := by
  unfold Nat.toDigits
  simp only [Nat.toDigitsCore]
  split_ifs
  · simp
  · rw [toDigitsCore_acc]
    simp

theorem word_token_digits (n : Nat) : word_token (Nat.toDigits 10 n) = .num n := by
  have h1 : (Nat.toDigits 10 n).all Char.isDigit = true := by
    rw [List.all_eq_true]
    exact toDigitsCore_forall (fun c => c.isDigit = true) (fun k hk => (digitChar_word k hk).2) _ _
  have h2 : decVal (Nat.toDigits 10 n) = n := decVal_toDigitsCore (n + 1) n (by omega)
  simp [word_token, h1, h2]

theorem c_tokens_count_line (pre : List Char) (T : List Tok) (n : Nat)
    (hpre : pre.foldl scan_step ⟨[], [], false, false⟩ = ⟨T, [], false, false⟩) :
    c_tokens (pre ++ fmt_d (n : Int) ++ ";\n\n".toList) = T.reverse ++ [.num n, .sym ';'] := by
  have hw := scan_word (Nat.toDigits 10 n) ⟨T, [], false, false⟩ rfl rfl
    (toDigitsCore_forall (fun c => is_ident_char c = true ∧ c ≠ '/')
      (fun k hk => (digitChar_word k hk).1) _ _)
  have hne : (Nat.toDigits 10 n).reverse.isEmpty = false := by
    have := toDigits_ne_nil n
    cases h : Nat.toDigits 10 n with
    | nil => exact absurd h this
    | cons a l => simp
  have e1 : is_ident_char ';' = false := by decide
  have e2 : Char.isWhitespace ';' = false := by decide
  have e3 : is_ident_char '\n' = false := by decide
  have e4 : Char.isWhitespace '\n' = true := by decide
  unfold c_tokens
  rw [fmt_d_nat, List.foldl_append, List.foldl_append, hpre, hw]
  simp [scan_step, Scan.flush, hne, e1, e2, e3, e4, word_token_digits]

set_option maxRecDepth 100000 in
theorem accessor_scan_1 :
    (fprintf_all
      ["// Accessor functions for test data\n",
       "const uat_downlink_test_frame_t* get_uat_downlink_test_frames() \x7b\n",
       "    return uat_downlink_test_frames;\n",
       "\x7d\n\n"]).foldl scan_step ⟨[], [], false, false⟩
      = ⟨List.reverse
          [.ident "const".toList, .ident "uat_downlink_test_frame_t".toList, .sym '*',
     .ident "get_uat_downlink_test_frames".toList, .sym '(', .sym ')', .sym '\x7b',
     .ident "return".toList, .ident "uat_downlink_test_frames".toList, .sym ';', .sym '\x7d'],
        [], false, false⟩ := by
  decide

set_option maxRecDepth 100000 in
theorem accessor_scan_2 :
    (fprintf_all
      ["int get_uat_downlink_test_frames_count() \x7b\n",
       "    return uat_downlink_test_frames_count;\n",
       "\x7d\n\n"]).foldl scan_step ⟨[], [], false, false⟩
      = ⟨List.reverse
          [.ident "int".toList, .ident "get_uat_downlink_test_frames_count".toList, .sym '(', .sym ')',
     .sym '\x7b', .ident "return".toList, .ident "uat_downlink_test_frames_count".toList,
     .sym ';', .sym '\x7d'],
        [], false, false⟩ := by
  decide

set_option maxRecDepth 100000 in
theorem accessor_scan_3 :
    (fprintf_all
      ["const uat_downlink_test_frame_t* get_uat_downlink_test_frame(int index) \x7b\n",
       "    if (index < 0 || index >= uat_downlink_test_frames_count) \x7b\n",
       "        return NULL;\n",
       "    \x7d\n",
       "    return &uat_downlink_test_frames[index];\n",
       "\x7d\n\n"]).foldl scan_step ⟨[], [], false, false⟩
      = ⟨List.reverse
          [.ident "const".toList, .ident "uat_downlink_test_frame_t".toList, .sym '*',
     .ident "get_uat_downlink_test_frame".toList, .sym '(', .ident "int".toList,
     .ident "index".toList, .sym ')', .sym '\x7b', .ident "if".toList, .sym '(',
     .ident "index".toList, .sym '<', .num 0, .sym '|', .sym '|', .ident "index".toList,
     .sym '>', .sym '=', .ident "uat_downlink_test_frames_count".toList, .sym ')', .sym '\x7b',
     .ident "return".toList, .ident "NULL".toList, .sym ';', .sym '\x7d', .ident "return".toList,
     .sym '&', .ident "uat_downlink_test_frames".toList, .sym '[', .ident "index".toList,
     .sym ']', .sym ';', .sym '\x7d'],
        [], false, false⟩ := by
  decide

set_option maxRecDepth 100000 in
theorem accessor_scan_4 :
    (fprintf_all
      ["const uat_uplink_test_frame_t* get_uat_uplink_test_frames() \x7b\n",
       "    return uat_uplink_test_frames;\n",
       "\x7d\n\n"]).foldl scan_step ⟨[], [], false, false⟩
      = ⟨List.reverse
          [.ident "const".toList, .ident "uat_uplink_test_frame_t".toList, .sym '*',
     .ident "get_uat_uplink_test_frames".toList, .sym '(', .sym ')', .sym '\x7b',
     .ident "return".toList, .ident "uat_uplink_test_frames".toList, .sym ';', .sym '\x7d'],
        [], false, false⟩ := by
  decide

set_option maxRecDepth 100000 in
theorem accessor_scan_5 :
    (fprintf_all
      ["int get_uat_uplink_test_frames_count() \x7b\n",
       "    return uat_uplink_test_frames_count;\n",
       "\x7d\n\n"]).foldl scan_step ⟨[], [], false, false⟩
      = ⟨List.reverse
          [.ident "int".toList, .ident "get_uat_uplink_test_frames_count".toList, .sym '(', .sym ')',
     .sym '\x7b', .ident "return".toList, .ident "uat_uplink_test_frames_count".toList,
     .sym ';', .sym '\x7d'],
        [], false, false⟩ := by
  decide

set_option maxRecDepth 100000 in
theorem accessor_scan_6 :
    (fprintf_all
      ["const uat_uplink_test_frame_t* get_uat_uplink_test_frame(int index) \x7b\n",
       "    if (index < 0 || index >= uat_uplink_test_frames_count) \x7b\n",
       "        return NULL;\n",
       "    \x7d\n",
       "    return &uat_uplink_test_frames[index];\n",
       "\x7d\n"]).foldl scan_step ⟨[], [], false, false⟩
      = ⟨List.reverse
          [.ident "const".toList, .ident "uat_uplink_test_frame_t".toList, .sym '*',
     .ident "get_uat_uplink_test_frame".toList, .sym '(', .ident "int".toList,
     .ident "index".toList, .sym ')', .sym '\x7b', .ident "if".toList, .sym '(',
     .ident "index".toList, .sym '<', .num 0, .sym '|', .sym '|', .ident "index".toList,
     .sym '>', .sym '=', .ident "uat_uplink_test_frames_count".toList, .sym ')', .sym '\x7b',
     .ident "return".toList, .ident "NULL".toList, .sym ';', .sym '\x7d', .ident "return".toList,
     .sym '&', .ident "uat_uplink_test_frames".toList, .sym '[', .ident "index".toList,
     .sym ']', .sym ';', .sym '\x7d'],
        [], false, false⟩ := by
  decide

theorem accessor_tokens :
    c_tokens output_accessor_functions
      = [.ident "const".toList, .ident "uat_downlink_test_frame_t".toList, .sym '*',
     .ident "get_uat_downlink_test_frames".toList, .sym '(', .sym ')', .sym '\x7b',
     .ident "return".toList, .ident "uat_downlink_test_frames".toList, .sym ';', .sym '\x7d'] ++
        [.ident "int".toList, .ident "get_uat_downlink_test_frames_count".toList, .sym '(', .sym ')',
     .sym '\x7b', .ident "return".toList, .ident "uat_downlink_test_frames_count".toList,
     .sym ';', .sym '\x7d'] ++
        [.ident "const".toList, .ident "uat_downlink_test_frame_t".toList, .sym '*',
     .ident "get_uat_downlink_test_frame".toList, .sym '(', .ident "int".toList,
     .ident "index".toList, .sym ')', .sym '\x7b', .ident "if".toList, .sym '(',
     .ident "index".toList, .sym '<', .num 0, .sym '|', .sym '|', .ident "index".toList,
     .sym '>', .sym '=', .ident "uat_downlink_test_frames_count".toList, .sym ')', .sym '\x7b',
     .ident "return".toList, .ident "NULL".toList, .sym ';', .sym '\x7d', .ident "return".toList,
     .sym '&', .ident "uat_downlink_test_frames".toList, .sym '[', .ident "index".toList,
     .sym ']', .sym ';', .sym '\x7d'] ++
        [.ident "const".toList, .ident "uat_uplink_test_frame_t".toList, .sym '*',
     .ident "get_uat_uplink_test_frames".toList, .sym '(', .sym ')', .sym '\x7b',
     .ident "return".toList, .ident "uat_uplink_test_frames".toList, .sym ';', .sym '\x7d'] ++
        [.ident "int".toList, .ident "get_uat_uplink_test_frames_count".toList, .sym '(', .sym ')',
     .sym '\x7b', .ident "return".toList, .ident "uat_uplink_test_frames_count".toList,
     .sym ';', .sym '\x7d'] ++
        [.ident "const".toList, .ident "uat_uplink_test_frame_t".toList, .sym '*',
     .ident "get_uat_uplink_test_frame".toList, .sym '(', .ident "int".toList,
     .ident "index".toList, .sym ')', .sym '\x7b', .ident "if".toList, .sym '(',
     .ident "index".toList, .sym '<', .num 0, .sym '|', .sym '|', .ident "index".toList,
     .sym '>', .sym '=', .ident "uat_uplink_test_frames_count".toList, .sym ')', .sym '\x7b',
     .ident "return".toList, .ident "NULL".toList, .sym ';', .sym '\x7d', .ident "return".toList,
     .sym '&', .ident "uat_uplink_test_frames".toList, .sym '[', .ident "index".toList,
     .sym ']', .sym ';', .sym '\x7d'] := by
  have e : output_accessor_functions
      = fprintf_all
          ["// Accessor functions for test data\n",
       "const uat_downlink_test_frame_t* get_uat_downlink_test_frames() \x7b\n",
       "    return uat_downlink_test_frames;\n",
       "\x7d\n\n"] ++
        (fprintf_all
          ["int get_uat_downlink_test_frames_count() \x7b\n",
       "    return uat_downlink_test_frames_count;\n",
       "\x7d\n\n"] ++
        (fprintf_all
          ["const uat_downlink_test_frame_t* get_uat_downlink_test_frame(int index) \x7b\n",
       "    if (index < 0 || index >= uat_downlink_test_frames_count) \x7b\n",
       "        return NULL;\n",
       "    \x7d\n",
       "    return &uat_downlink_test_frames[index];\n",
       "\x7d\n\n"] ++
        (fprintf_all
          ["const uat_uplink_test_frame_t* get_uat_uplink_test_frames() \x7b\n",
       "    return uat_uplink_test_frames;\n",
       "\x7d\n\n"] ++
        (fprintf_all
          ["int get_uat_uplink_test_frames_count() \x7b\n",
       "    return uat_uplink_test_frames_count;\n",
       "\x7d\n\n"] ++
        (fprintf_all
          ["const uat_uplink_test_frame_t* get_uat_uplink_test_frame(int index) \x7b\n",
       "    if (index < 0 || index >= uat_uplink_test_frames_count) \x7b\n",
       "        return NULL;\n",
       "    \x7d\n",
       "    return &uat_uplink_test_frames[index];\n",
       "\x7d\n"]))))) := by
    unfold output_accessor_functions
    simp only [← fprintf_all_append]
    rfl
  unfold c_tokens
  rw [e]
  simp only [List.foldl_append]
  rw [accessor_scan_1, scan_chunk _ _ _ accessor_scan_2, scan_chunk _ _ _ accessor_scan_3,
    scan_chunk _ _ _ accessor_scan_4, scan_chunk _ _ _ accessor_scan_5,
    scan_chunk _ _ _ accessor_scan_6]
  simp only [Scan.flush, List.isEmpty_nil, if_true, List.reverse_append, List.reverse_reverse,
    List.append_assoc]

set_option maxRecDepth 100000 in
theorem accessor_parse :
    c_parse output_accessor_functions
      = some
        [⟨"get_uat_downlink_test_frames".toList, [],
          [.ret (.var "uat_downlink_test_frames".toList)]⟩,
         ⟨"get_uat_downlink_test_frames_count".toList, [],
          [.ret (.var "uat_downlink_test_frames_count".toList)]⟩,
         ⟨"get_uat_downlink_test_frame".toList, ["index".toList],
          [.if_ret
            (.or (.lt (.var "index".toList) (.lit 0))
              (.ge (.var "index".toList) (.var "uat_downlink_test_frames_count".toList)))
            .null,
           .ret (.addr_elem "uat_downlink_test_frames".toList (.var "index".toList))]⟩,
         ⟨"get_uat_uplink_test_frames".toList, [],
          [.ret (.var "uat_uplink_test_frames".toList)]⟩,
         ⟨"get_uat_uplink_test_frames_count".toList, [],
          [.ret (.var "uat_uplink_test_frames_count".toList)]⟩,
         ⟨"get_uat_uplink_test_frame".toList, ["index".toList],
          [.if_ret
            (.or (.lt (.var "index".toList) (.lit 0))
              (.ge (.var "index".toList) (.var "uat_uplink_test_frames_count".toList)))
            .null,
           .ret (.addr_elem "uat_uplink_test_frames".toList (.var "index".toList))]⟩] := by
  unfold c_parse
  rw [accessor_tokens]
  decide

set_option maxRecDepth 100000 in
theorem count_line_scan :
    ("static const int uat_downlink_test_frames_count = ".toList.foldl scan_step
        ⟨[], [], false, false⟩
      = ⟨List.reverse [.ident "static".toList, .ident "const".toList, .ident "int".toList,
          .ident "uat_downlink_test_frames_count".toList, .sym '='], [], false, false⟩) ∧
    ("static const int uat_uplink_test_frames_count = ".toList.foldl scan_step
        ⟨[], [], false, false⟩
      = ⟨List.reverse [.ident "static".toList, .ident "const".toList, .ident "int".toList,
          .ident "uat_uplink_test_frames_count".toList, .sym '='], [], false, false⟩) := by
  decide

set_option maxRecDepth 100000 in
theorem array_line_globals :
    parse_global (c_tokens (sprintf
        "static const uat_downlink_test_frame_t uat_downlink_test_frames[] = \x7b\n" []))
      = some (.array "uat_downlink_test_frames".toList) ∧
    parse_global (c_tokens (sprintf
        "static const uat_uplink_test_frame_t uat_uplink_test_frames[] = \x7b\n" []))
      = some (.array "uat_uplink_test_frames".toList) := by
  decide

theorem emitted_globals (s : Store) :
    c_globals (global_declarations s)
      = [.array "uat_downlink_test_frames".toList,
         .const "uat_downlink_test_frames_count".toList s.num_downlink_frames,
         .array "uat_uplink_test_frames".toList,
         .const "uat_uplink_test_frames_count".toList s.num_uplink_frames] := by
  have d : sprintf "static const int uat_downlink_test_frames_count = %d;\n\n"
      [.int s.num_downlink_frames]
      = "static const int uat_downlink_test_frames_count = ".toList ++
        fmt_d (s.num_downlink_frames : Int) ++ ";\n\n".toList := by
    simp [sprintf, formatAux, convert, padLeft_zero]
  have u : sprintf "static const int uat_uplink_test_frames_count = %d;\n\n"
      [.int s.num_uplink_frames]
      = "static const int uat_uplink_test_frames_count = ".toList ++
        fmt_d (s.num_uplink_frames : Int) ++ ";\n\n".toList := by
    simp [sprintf, formatAux, convert, padLeft_zero]
  simp only [c_globals, global_declarations, List.filterMap_cons, List.filterMap_nil,
    array_line_globals.1, array_line_globals.2, d, u,
    c_tokens_count_line _ _ _ count_line_scan.1, c_tokens_count_line _ _ _ count_line_scan.2]
  rfl

theorem accessor_call_count (gs : List CGlobal) (name cname : List Char) (n : Int)
    (rest : List CFun) (h : const_value cname gs = some n) :
    c_call (⟨name, [], [.ret (.var cname)]⟩ :: rest) gs name [] = some (.int n) := by
  simp [c_call, c_find, c_exec, c_eval, local_value, h]

theorem accessor_call_index (gs : List CGlobal) (name cname aname : List Char) (n index : Int)
    (rest : List CFun) (h : const_value cname gs = some n) (ha : is_array aname gs = true)
    (hc : "index".toList ≠ cname) :
    c_call (⟨name, ["index".toList],
        [.if_ret (.or (.lt (.var "index".toList) (.lit 0))
            (.ge (.var "index".toList) (.var cname))) .null,
         .ret (.addr_elem aname (.var "index".toList))]⟩ :: rest) gs name [index]
      = if index < 0 ∨ index ≥ n then some .null else some (.elem aname index) := by
  simp only [c_call, c_find, if_true, List.length_cons, List.length_nil, List.zip_cons_cons,
    List.zip_nil_right, c_exec, c_eval, local_value, h, ha, if_neg hc]
  by_cases h0 : index < 0
  · simp [h0]
  · by_cases h1 : index ≥ n
    · simp [h0, h1]
    · simp [h0, h1]

theorem c_call_skip (f : CFun) (rest : List CFun) (gs : List CGlobal) (name : List Char)
    (args : List Int) (h : f.name ≠ name) :
    c_call (f :: rest) gs name args = c_call rest gs name args := by
  simp [c_call, c_find, h]

theorem output_data_globals (s : Store) :
    output_downlink_data s
      = sprintf "// Downlink test frame data array\n" [] ++ (global_declarations s).getD 0 [] ++
        spec_array_body (downlink_elements s) ++ sprintf "\x7d;\n\n" [] ++
        (global_declarations s).getD 1 [] ∧
    output_uplink_data s
      = sprintf "// Uplink test frame data array\n" [] ++ (global_declarations s).getD 2 [] ++
        spec_array_body (uplink_elements s) ++ sprintf "\x7d;\n\n" [] ++
        (global_declarations s).getD 3 [] := by
  constructor
  · unfold output_downlink_data
    rw [array_loop (fun i => emit_downlink_frame (s.downlink_test_frames i))]
    rfl
  · unfold output_uplink_data
    rw [array_loop (fun i => emit_uplink_frame (s.uplink_test_frames i))]
    rfl

theorem accessor_calls (gs : List CGlobal) (nd nu index : Int) (prog : List CFun)
    (hp : c_parse output_accessor_functions = some prog)
    (hg : gs = [.array "uat_downlink_test_frames".toList,
         .const "uat_downlink_test_frames_count".toList nd,
         .array "uat_uplink_test_frames".toList,
         .const "uat_uplink_test_frames_count".toList nu]) :
    c_call prog gs "get_uat_downlink_test_frame".toList [index]
      = (if index < 0 ∨ index ≥ nd then some .null
         else some (.elem "uat_downlink_test_frames".toList index)) ∧
    c_call prog gs "get_uat_uplink_test_frame".toList [index]
      = (if index < 0 ∨ index ≥ nu then some .null
         else some (.elem "uat_uplink_test_frames".toList index)) ∧
    c_call prog gs "get_uat_downlink_test_frames_count".toList [] = some (.int nd) ∧
    c_call prog gs "get_uat_uplink_test_frames_count".toList [] = some (.int nu) := by
  rw [accessor_parse] at hp
  have hp2 := (Option.some.inj hp).symm
  subst hp2
  subst hg
  refine ⟨?_, ?_, ?_, ?_⟩
  · rw [c_call_skip _ _ _ _ _ (by decide), c_call_skip _ _ _ _ _ (by decide)]
    exact accessor_call_index _ _ _ _ _ _ _ (by simp [const_value]) (by simp [is_array])
      (by decide)
  · rw [c_call_skip _ _ _ _ _ (by decide), c_call_skip _ _ _ _ _ (by decide),
      c_call_skip _ _ _ _ _ (by decide), c_call_skip _ _ _ _ _ (by decide),
      c_call_skip _ _ _ _ _ (by decide)]
    exact accessor_call_index _ _ _ _ _ _ _ (by simp [const_value]) (by simp [is_array])
      (by decide)
  · rw [c_call_skip _ _ _ _ _ (by decide)]
    exact accessor_call_count _ _ _ _ _ (by simp [const_value])
  · rw [c_call_skip _ _ _ _ _ (by decide), c_call_skip _ _ _ _ _ (by decide),
      c_call_skip _ _ _ _ _ (by decide), c_call_skip _ _ _ _ _ (by decide)]
    exact accessor_call_count _ _ _ _ _ (by simp [const_value])

/-- C16: the accessors that `output_accessor_functions` emits are bounds-checked.  The
emitted text parses to a program; run on the globals that the emitted data declares (the
two arrays and the two count constants, whose values are the collections' counts),
`get_uat_downlink_test_frame(index)` and `get_uat_uplink_test_frame(index)` return the
null pointer exactly when `index < 0` or `index >= count`, and otherwise the address of
element `index` of the emitted array, which is the element written from entry `index`;
the count accessors return the counts. -/
theorem accessors_bounds_checked (s : Store) (index : Int) :
    ∃ prog, c_parse output_accessor_functions = some prog ∧
      (c_call prog (c_globals (global_declarations s)) "get_uat_downlink_test_frame".toList
          [index] = some .null ↔ (index < 0 ∨ index ≥ (s.num_downlink_frames : Int))) ∧
      (0 ≤ index → index < (s.num_downlink_frames : Int) →
        c_call prog (c_globals (global_declarations s)) "get_uat_downlink_test_frame".toList
          [index] = some (.elem "uat_downlink_test_frames".toList index) ∧
        (downlink_elements s)[index.toNat]?
          = some (emit_downlink_frame (s.downlink_test_frames index.toNat))) ∧
      (c_call prog (c_globals (global_declarations s)) "get_uat_uplink_test_frame".toList
          [index] = some .null ↔ (index < 0 ∨ index ≥ (s.num_uplink_frames : Int))) ∧
      (0 ≤ index → index < (s.num_uplink_frames : Int) →
        c_call prog (c_globals (global_declarations s)) "get_uat_uplink_test_frame".toList
          [index] = some (.elem "uat_uplink_test_frames".toList index) ∧
        (uplink_elements s)[index.toNat]?
          = some (emit_uplink_frame (s.uplink_test_frames index.toNat))) ∧
      c_call prog (c_globals (global_declarations s)) "get_uat_downlink_test_frames_count".toList
          [] = some (.int s.num_downlink_frames) ∧
      c_call prog (c_globals (global_declarations s)) "get_uat_uplink_test_frames_count".toList
          [] = some (.int s.num_uplink_frames) ∧
      output_downlink_data s
        = sprintf "// Downlink test frame data array\n" [] ++
          (global_declarations s).getD 0 [] ++ spec_array_body (downlink_elements s) ++
          sprintf "\x7d;\n\n" [] ++ (global_declarations s).getD 1 [] ∧
      output_uplink_data s
        = sprintf "// Uplink test frame data array\n" [] ++
          (global_declarations s).getD 2 [] ++ spec_array_body (uplink_elements s) ++
          sprintf "\x7d;\n\n" [] ++ (global_declarations s).getD 3 [] := by
  obtain ⟨c1, c2, c3, c4⟩ := accessor_calls _ s.num_downlink_frames s.num_uplink_frames index _
    accessor_parse (emitted_globals s)
  refine ⟨_, accessor_parse, ?_, ?_, ?_, ?_, c3, c4, (output_data_globals s).1,
    (output_data_globals s).2⟩
  · rw [c1]
    split_ifs with h <;> simp [h]
  · intro h0 h1
    rw [c1, if_neg (by omega)]
    have hi : index.toNat < s.num_downlink_frames := by
      have := Int.toNat_of_nonneg h0
      omega
    exact ⟨rfl, by simp [downlink_elements, hi]⟩
  · rw [c2]
    split_ifs with h <;> simp [h]
  · intro h0 h1
    rw [c2, if_neg (by omega)]
    have hi : index.toNat < s.num_uplink_frames := by
      have := Int.toNat_of_nonneg h0
      omega
    exact ⟨rfl, by simp [uplink_elements, hi]⟩

theorem accessors_bounds_checked_witness :
    ∃ prog, c_parse output_accessor_functions = some prog ∧
      (0 : Int) ≤ 0 ∧ (0 : Int) < (store_one_each.num_downlink_frames : Int) ∧
      c_call prog (c_globals (global_declarations store_one_each))
          "get_uat_downlink_test_frame".toList [0]
        = some (.elem "uat_downlink_test_frames".toList 0) ∧
      c_call prog (c_globals (global_declarations store_one_each))
          "get_uat_downlink_test_frame".toList [1] = some .null ∧
      c_call prog (c_globals (global_declarations store_one_each))
          "get_uat_uplink_test_frame".toList [-1] = some .null ∧
      c_call prog (c_globals (global_declarations store_one_each))
          "get_uat_uplink_test_frames_count".toList [] = some (.int 1) := by
  obtain ⟨p0, hp0, _, a0, _, _, _, n0, _, _⟩ := accessors_bounds_checked store_one_each 0
  obtain ⟨p1, hp1, a1, _⟩ := accessors_bounds_checked store_one_each 1
  obtain ⟨p2, hp2, _, _, a2, _⟩ := accessors_bounds_checked store_one_each (-1)
  have e1 : p1 = p0 := Option.some.inj (hp1.symm.trans hp0)
  have e2 : p2 = p0 := Option.some.inj (hp2.symm.trans hp0)
  rw [e1] at a1
  rw [e2] at a2
  exact ⟨p0, hp0, by decide, by decide, (a0 (by decide) (by decide)).1,
    a1.2 (Or.inr (by decide)), a2.2 (Or.inl (by decide)), n0⟩

end Uat2Structs
